/-
Verification of the static-site generator for the academic portfolio
(sidebar.py, build_index.py, build_research.py, build_publications.py,
build_teaching.py).

The Python sources are shallowly embedded: each HTML-producing function
becomes a Lean function on `String`; Python dictionaries loaded from the
JSON content files become structures with `Option` fields, and the
`d["key"]` lookups that raise `KeyError` become an `Except String`
computation via `req`.  f-string templates become explicit concatenation
(`cat`) of the literal text (split into chunks) and the interpolated
values; `"sep".join(...)` becomes `pyJoin`, and `str.replace` becomes
`pyReplace`.  The build drivers (`main`) are modelled as functions on a
small file-system environment recording the parsed input files and the
output file, returning the exit code, the observable I/O trace and the
updated environment.
-/
import Mathlib

set_option maxRecDepth 20000

/- ============================================================
   String-scanning infrastructure (specification side).
   `countOcc pat s` counts the positions of `s` at which the pattern
   `pat` occurs (as with Python's `str.count` but counting every
   starting position).  `safeB pat s` is a decidable sufficient
   condition for "no occurrence of `pat` can begin inside `s`, even
   when `s` is followed by arbitrary further text".
   ============================================================ -/

/-- Concatenation of a list of strings (Python `"".join` and the
implicit concatenation of an f-string template). -/
def cat : List String → String
  | [] => ""
  | s :: rest => s ++ cat rest

/-- Python `sep.join(xs)`. -/
def pyJoin (sep : String) : List String → String
  | [] => ""
  | [x] => x
  | x :: y :: rest => x ++ sep ++ pyJoin sep (y :: rest)

/-- Number of positions of `s` at which `pat` occurs. -/
def countOcc (pat : List Char) : List Char → Nat
  | [] => 0
  | c :: rest => (if List.isPrefixOf pat (c :: rest) then 1 else 0) + countOcc pat rest

/-- `countOcc` at the `String` level. -/
def strCount (pat s : String) : Nat := countOcc pat.data s.data

/-- The string `s` contains the pattern `pat` as a substring. -/
def Contains (pat s : String) : Prop := ∃ a b, s.data = a ++ pat.data ++ b

/-- Decidable check: no nonempty suffix of `s` is prefix-compatible with
`pat`, hence no occurrence of `pat` can start inside `s` whatever text
follows `s`. -/
def safeB (pat : List Char) : List Char → Bool
  | [] => true
  | c :: rest => !(List.isPrefixOf pat (c :: rest)) && !(List.isPrefixOf (c :: rest) pat) && safeB pat rest

/-- Propositional form: no occurrence of `pat` starts inside `l`, for
any continuation `r`. -/
def NoHit (pat l : List Char) : Prop :=
  ∀ b r, b <:+ l → b ≠ [] → ¬ (List.isPrefixOf pat (b ++ r) = true)

/-- Fuel-indexed model of Python `str.replace` (left-to-right,
non-overlapping; the replacement text is not rescanned).  With fuel at
least the length of the text this is exactly CPython's behaviour for a nonempty pattern. -/
def replaceFuel (pat repl : List Char) : Nat → List Char → List Char
  | _, [] => []
  | 0, s => s
  | Nat.succ n, c :: rest =>
    if List.isPrefixOf pat (c :: rest) then
      repl ++ replaceFuel pat repl n (List.drop pat.length (c :: rest))
    else
      c :: replaceFuel pat repl n rest

/-- Python `s.replace(pat, repl)` for a nonempty pattern. -/
def pyReplace (s pat repl : String) : String :=
  String.mk (replaceFuel pat.data repl.data s.data.length s.data)

/-- Python `s.endswith(e)`. -/
def pyEndsWith (s e : String) : Bool := List.isSuffixOf e.data s.data

/- ============================================================
   Data model: the JSON documents read by the build scripts.
   Every key that the Python code accesses with `d.get(...)` or
   `d["..."]` becomes an `Option` field; `d["..."]` lookups go through
   `req`, which models the `KeyError` raised on a missing key.
   ============================================================ -/

/-- `d["key"]`: a required dictionary lookup. -/
def req {α : Type} (o : Option α) (key : String) : Except String α :=
  match o with
  | some v => Except.ok v
  | none => Except.error ("KeyError: " ++ key)

/-- Python truthiness of an optional string (`None` and `""` are falsy). -/
def truthyStr : Option String → Bool
  | none => false
  | some s => !(s == "")

/-- Python truthiness of an optional list (`None` and `[]` are falsy). -/
def truthyList {α : Type} : Option (List α) → Bool
  | none => false
  | some l => !l.isEmpty

/-- One of the `theme.light` / `theme.dark` colour tables of
`sidebar.json`. -/
structure ThemeColors where
  accent_color : Option String := none
  accent_hover : Option String := none
  link_color : Option String := none
  link_hover : Option String := none

/-- The `theme` object of `sidebar.json`. -/
structure Theme where
  light : Option ThemeColors := none
  dark : Option ThemeColors := none

/-- The `profile` object of `sidebar.json`. -/
structure Profile where
  image : Option String := none
  name : Option String := none
  bio_lines : Option (List String) := none
  bio : Option String := none

/-- An entry of `sidebar_links` in `sidebar.json`. -/
structure SideLink where
  icon : Option String := none
  label : Option String := none
  url : Option String := none

/-- The `footer` object of `sidebar.json`. -/
structure FooterDoc where
  copyright_year : Option String := none
  copyright_name : Option String := none

/-- The parsed `sidebar.json` document. -/
structure SidebarDoc where
  nav_brand : Option String := none
  profile : Option Profile := none
  sidebar_links : Option (List SideLink) := none
  footer : Option FooterDoc := none
  cv_file : Option String := none
  theme : Option Theme := none

/-- The `meta` object of every content document. -/
structure PageMeta where
  title : Option String := none
  description : Option String := none

/-- An `affiliations` entry of `content_index.json`. -/
structure Affiliation where
  institution : Option String := none
  role : Option String := none
  department : Option (List String) := none
  logo_icon : Option String := none

/-- A `degrees` entry of `content_index.json`. -/
structure Degree where
  degree : Option String := none
  field : Option String := none
  institution : Option String := none
  location : Option String := none

/-- A `news` entry of `content_index.json`. -/
structure NewsItem where
  date : Option String := none
  content : Option String := none

/-- A `sponsors` entry of `content_index.json`. -/
structure Sponsor where
  name : Option String := none
  logo : Option String := none

/-- The parsed `content_index.json` document. -/
structure ContentIndex where
  meta : Option PageMeta := none
  bio : Option (List String) := none
  affiliations : Option (List Affiliation) := none
  degrees : Option (List Degree) := none
  news : Option (List NewsItem) := none
  sponsors : Option (List Sponsor) := none

/-- A labeled hyperlink (`intro.links` entries and paper `links`
entries of `content_publications.json`). -/
structure LinkRef where
  label : Option String := none
  url : Option String := none

/-- A paper entry of `content_publications.json`. -/
structure Paper where
  title : Option String := none
  authors : Option String := none
  venue : Option String := none
  image : Option String := none
  links : Option (List LinkRef) := none

/-- A year group of `content_publications.json` (`publications` and
`conference_abstracts` entries). -/
structure YearGroup where
  year : Option String := none
  papers : Option (List Paper) := none

/-- The `intro` object of `content_publications.json`. -/
structure Intro where
  title : Option String := none
  description : Option String := none
  links : Option (List LinkRef) := none

/-- The parsed `content_publications.json` document. -/
structure ContentPubs where
  meta : Option PageMeta := none
  intro : Option Intro := none
  publications : Option (List YearGroup) := none
  conference_abstracts : Option (List YearGroup) := none

/-- A `projects` entry of `content_research.json`. -/
structure Project where
  title : Option String := none
  image : Option String := none
  description : Option (List String) := none

/-- The parsed `content_research.json` document. -/
structure ContentResearch where
  meta : Option PageMeta := none
  interests : Option (List String) := none
  projects : Option (List Project) := none

/-- A course entry of `content_teaching.json`. -/
structure Course where
  code : Option String := none
  name : Option String := none
  semesters : Option (List String) := none
  host : Option String := none

/-- A role group (`courses` entry) of `content_teaching.json`. -/
structure RoleGroup where
  role : Option String := none
  institution : Option String := none
  department : Option String := none
  location : Option String := none
  period : Option String := none
  description : Option String := none
  courses_list : Option (List Course) := none

/-- A mentee record of `content_teaching.json`. -/
structure Student where
  name : Option String := none
  program : Option String := none
  period : Option String := none
  institution : Option String := none

/-- A `mentoring` category of `content_teaching.json`. -/
structure MentoringCategory where
  category_type : Option String := none
  students : Option (List Student) := none

/-- The parsed `content_teaching.json` document. -/
structure ContentTeaching where
  meta : Option PageMeta := none
  courses : Option (List RoleGroup) := none
  mentoring : Option (List MentoringCategory) := none

/- ============================================================
   sidebar.py — shared components.
   Literal text of the templates appears as lists of string chunks
   (`..L..` definitions), in source order; each template function is
   the concatenation of its chunks with the interpolated values, as in
   the original f-string.
   ============================================================ -/

def bcL1 : List String := [
  "\n    /* ============================================\n       CSS VARIABLES\n       ============================================ */\n    :root \x7b\n      --primary-color: #494e52;\n      --link-color: #494e52;\n      --link-hover: #000000;\n      --text-color: #494e52;\n      --text-muted: #494e52;\n",
  "      --bg-color: #ffffff;\n      --bg-sidebar: #ffffff;\n      --border-color: #e0e0e0;\n      --shadow: 0 1px 1px rgba(0,0,0,0.125);\n      --sidebar-width: 260px;\n      --nav-height: 50px;\n      --accent-color: "
]
def bcL2 : List String := [
  ";\n      --accent-hover: "
]
def bcL3 : List String := [
  ";\n      --action-link-color: "
]
def bcL4 : List String := [
  ";\n      --action-link-hover: "
]
def bcL5 : List String := [
  ";\n    \x7d\n\n    /* ============================================\n       BASE STYLES\n       ============================================ */\n    *, *::before, *::after \x7b box-sizing: border-box; margin: 0; padding: 0; \x7d\n    html \x7b scroll-behavior: smooth; \x7d\n    body \x7b\n",
  "      font-family: \x27Roboto\x27, -apple-system, BlinkMacSystemFont, sans-serif;\n      font-size: 16px;\n      line-height: 1.6;\n      color: var(--text-color);\n      background-color: var(--bg-color);\n    \x7d\n\n    a \x7b color: var(--link-color); text-decoration: none; transition: color 0.2s ease; \x7d\n",
  "    a:hover \x7b color: var(--link-hover); text-decoration: underline; \x7d\n\n    /* ============================================\n       NAVIGATION BAR\n       ============================================ */\n    nav \x7b\n      position: fixed;\n      top: 0;\n      left: 0;\n      right: 0;\n",
  "      height: var(--nav-height);\n      background: var(--bg-color);\n      border-bottom: 1px solid var(--border-color);\n      z-index: 1000;\n      display: flex;\n      align-items: center;\n      justify-content: center;\n    \x7d\n\n    .nav-container \x7b\n      width: 100%;\n      max-width: 1400px;\n",
  "      padding: 0 1.5rem;\n      display: flex;\n      align-items: center;\n      justify-content: space-between;\n    \x7d\n\n    .nav-brand \x7b\n      font-family: \x27Roboto Slab\x27, serif;\n      font-size: 1.1rem;\n      font-weight: 700;\n      color: var(--text-color);\n      letter-spacing: -0.5px;\n    \x7d\n",
  "    .nav-brand:hover \x7b text-decoration: none; color: var(--link-color); \x7d\n\n    .nav-links \x7b display: flex; gap: 1.5rem; list-style: none; \x7d\n    .nav-links a \x7b \n      color: var(--text-muted); \n      font-size: 0.85rem; \n      font-weight: 400; \n      text-transform: uppercase;\n",
  "      letter-spacing: 0.5px;\n    \x7d\n    .nav-links a:hover, .nav-links a.active \x7b color: var(--text-color); text-decoration: none; \x7d\n\n    .nav-toggle \x7b\n      display: none;\n      background: none;\n      border: none;\n      font-size: 1.25rem;\n      cursor: pointer;\n      color: var(--text-color);\n",
  "    \x7d\n\n    .theme-toggle \x7b\n      background: none;\n      border: none;\n      cursor: pointer;\n      font-size: 1rem;\n      color: var(--text-muted);\n      padding: 0.4rem;\n      border-radius: 50%;\n    \x7d\n    .theme-toggle:hover \x7b color: var(--text-color); \x7d\n\n",
  "    /* ============================================\n       PAGE LAYOUT\n       ============================================ */\n    .page-wrapper \x7b\n      display: flex;\n      margin-top: var(--nav-height);\n      min-height: calc(100vh - var(--nav-height));\n      max-width: 1400px;\n",
  "      margin-left: auto;\n      margin-right: auto;\n    \x7d\n\n    /* ============================================\n       LEFT SIDEBAR\n       ============================================ */\n    .sidebar \x7b\n      width: var(--sidebar-width);\n      flex-shrink: 0;\n      background: var(--bg-color);\n",
  "      border-right: 1px solid var(--border-color);\n    \x7d\n\n    .sidebar-content \x7b\n      position: sticky;\n      top: calc(var(--nav-height) + 1rem);\n      padding: 1.5rem 1rem;\n    \x7d\n\n    .author__avatar \x7b\n      display: block;\n      width: 180px;\n      height: 180px;\n      margin: 0 0 0.75rem 0;\n",
  "    \x7d\n\n    .author__avatar img \x7b\n      width: 100%;\n      height: 100%;\n      border-radius: 50%;\n      object-fit: cover;\n      border: 1px solid var(--border-color);\n      padding: 3px;\n      background: var(--bg-color);\n    \x7d\n\n    .author__content \x7b\n      text-align: left;\n",
  "      margin-bottom: 1rem;\n    \x7d\n\n    .author__name \x7b\n      font-family: \x27Roboto Slab\x27, serif;\n      font-size: 1.1rem;\n      font-weight: 700;\n      color: var(--text-color);\n      margin-bottom: 0.25rem;\n    \x7d\n\n    .author__bio \x7b\n      font-size: 0.85rem;\n      color: var(--text-color);\n",
  "      line-height: 1.5;\n    \x7d\n\n    .author__bio .bio-line \x7b\n      display: block;\n      margin-bottom: 0;\n    \x7d\n\n    .author__urls-wrapper \x7b margin-top: 1rem; \x7d\n\n    .author__urls \x7b\n      list-style: none;\n      font-size: 0.8rem;\n    \x7d\n\n    .author__urls li \x7b\n      white-space: nowrap;\n",
  "      padding: 0.2rem 0;\n      color: var(--text-muted);\n    \x7d\n\n    .author__urls li i \x7b\n      width: 1.25em;\n      text-align: center;\n      margin-right: 0.4rem;\n      color: var(--text-muted);\n    \x7d\n\n    .author__urls a \x7b color: var(--text-color); \x7d\n",
  "    .author__urls a:hover \x7b color: var(--link-color); text-decoration: underline; \x7d\n    .author__urls a i \x7b color: var(--text-muted); \x7d\n\n    /* ============================================\n       MAIN CONTENT AREA\n       ============================================ */\n    .main-content \x7b\n",
  "      flex: 1;\n      padding: 2rem 3rem 2rem 2.5rem;\n    \x7d\n\n    /* Section headings */\n    .main-content h2 \x7b\n      font-family: \x27Roboto Slab\x27, serif;\n      font-size: 1.4rem;\n      font-weight: 700;\n      color: var(--text-color);\n      margin-bottom: 0.6rem;\n      padding-bottom: 0.4rem;\n",
  "      border-bottom: 1px solid var(--border-color);\n    \x7d\n\n    /* Section container */\n    .section \x7b margin-bottom: 2rem; \x7d\n\n    /* Default paragraph styling for sections */\n    .section > p \x7b\n      color: var(--text-color);\n      margin-bottom: 1.25rem;\n      text-align: justify;\n",
  "      font-size: 1.05rem;\n      line-height: 1.7;\n    \x7d\n\n    /* ============================================\n       FOOTER\n       ============================================ */\n    footer \x7b\n      padding: 1.25rem 1.5rem;\n      background: var(--bg-color);\n",
  "      border-top: 1px solid var(--border-color);\n      text-align: center;\n    \x7d\n\n    .footer-text \x7b color: var(--text-muted); font-size: 0.8rem; \x7d\n    .footer-text a \x7b color: var(--text-muted); \x7d\n\n    /* ============================================\n       DARK MODE\n",
  "       ============================================ */\n    [data-theme=\"dark\"] \x7b\n      --primary-color: #e2e2e2;\n      --link-color: #e2e2e2;\n      --link-hover: #ffffff;\n      --text-color: #e2e2e2;\n      --text-muted: #e2e2e2;\n      --bg-color: #252a34;\n      --bg-sidebar: #252a34;\n",
  "      --border-color: #3a3f4b;\n      --accent-color: "
]
def bcL6 : List String := [
  ";\n      --accent-hover: "
]
def bcL7 : List String := [
  ";\n      --action-link-color: "
]
def bcL8 : List String := [
  ";\n      --action-link-hover: "
]
def bcL9 : List String := [
  ";\n    \x7d\n\n    /* ============================================\n       RESPONSIVE - TABLET (<=900px)\n       ============================================ */\n    @media (max-width: 900px) \x7b\n      .page-wrapper \x7b flex-direction: column; \x7d\n\n      .sidebar \x7b\n        width: 100%;\n        border-right: none;\n",
  "        border-bottom: 1px solid var(--border-color);\n      \x7d\n\n      .sidebar-content \x7b\n        position: static;\n        padding: 1.25rem;\n        display: flex;\n        flex-direction: column;\n        align-items: center;\n      \x7d\n\n      .author__avatar \x7b width: 100px; height: 100px; \x7d\n\n",
  "      .author__urls \x7b\n        display: flex;\n        flex-wrap: wrap;\n        justify-content: center;\n        gap: 0.5rem 1rem;\n      \x7d\n\n      .main-content \x7b padding: 1.5rem; max-width: 100%; \x7d\n    \x7d\n\n    /* ============================================\n       RESPONSIVE - MOBILE (<=768px)\n",
  "       ============================================ */\n    @media (max-width: 768px) \x7b\n      .nav-links \x7b\n        display: none;\n        position: absolute;\n        top: var(--nav-height);\n        left: 0;\n        right: 0;\n        background: var(--bg-color);\n        flex-direction: column;\n",
  "        padding: 1rem 1.5rem;\n        gap: 0.75rem;\n        border-bottom: 1px solid var(--border-color);\n        box-shadow: var(--shadow);\n      \x7d\n      .nav-links.active \x7b display: flex; \x7d\n      .nav-toggle \x7b display: block; \x7d\n    \x7d\n"
]

/-- `light` colour table used by `get_base_css` (`{}` when the sidebar
is not passed or declares no `theme`). -/
def themeLight (sidebar : Option SidebarDoc) : ThemeColors :=
  match sidebar with
  | some sb =>
    match sb.theme with
    | some t => t.light.getD {}
    | none => {}
  | none => {}

/-- `dark` colour table used by `get_base_css`. -/
def themeDark (sidebar : Option SidebarDoc) : ThemeColors :=
  match sidebar with
  | some sb =>
    match sb.theme with
    | some t => t.dark.getD {}
    | none => {}
  | none => {}

/-- Light-mode accent colour with its fixed default. -/
def accent_light (sidebar : Option SidebarDoc) : String :=
  (themeLight sidebar).accent_color.getD "#0D9488"

/-- Light-mode accent hover colour with its fixed default. -/
def accent_hover_light (sidebar : Option SidebarDoc) : String :=
  (themeLight sidebar).accent_hover.getD "#0F766E"

/-- Light-mode action-link colour with its fixed default. -/
def link_color_light (sidebar : Option SidebarDoc) : String :=
  (themeLight sidebar).link_color.getD "#0066cc"

/-- Light-mode action-link hover colour with its fixed default. -/
def link_hover_light (sidebar : Option SidebarDoc) : String :=
  (themeLight sidebar).link_hover.getD "#004499"

/-- Dark-mode accent colour with its fixed default. -/
def accent_dark (sidebar : Option SidebarDoc) : String :=
  (themeDark sidebar).accent_color.getD "#2DD4BF"

/-- Dark-mode accent hover colour with its fixed default. -/
def accent_hover_dark (sidebar : Option SidebarDoc) : String :=
  (themeDark sidebar).accent_hover.getD "#5EEAD4"

/-- Dark-mode action-link colour with its fixed default. -/
def link_color_dark (sidebar : Option SidebarDoc) : String :=
  (themeDark sidebar).link_color.getD "#60A5FA"

/-- Dark-mode action-link hover colour with its fixed default. -/
def link_hover_dark (sidebar : Option SidebarDoc) : String :=
  (themeDark sidebar).link_hover.getD "#93C5FD"

/-- `get_base_css(sidebar=None)`: the shared CSS, parameterised by the
eight resolved theme colours. -/
def get_base_css (sidebar : Option SidebarDoc) : String :=
  cat (bcL1 ++ [accent_light sidebar] ++ bcL2 ++ [accent_hover_light sidebar] ++ bcL3 ++ [link_color_light sidebar] ++ bcL4 ++ [link_hover_light sidebar] ++ bcL5 ++ [accent_dark sidebar] ++ bcL6 ++ [accent_hover_dark sidebar] ++ bcL7 ++ [link_color_dark sidebar] ++ bcL8 ++ [link_hover_dark sidebar] ++ bcL9)

def bhL1 : List String := [
  "<head>\n  <meta charset=\"UTF-8\">\n  <meta name=\"viewport\" content=\"width=device-width, initial-scale=1.0\">\n  <meta name=\"description\" content=\""
]
def bhL2 : List String := [
  "\">\n  <title>"
]
def bhL3 : List String := [
  "</title>\n  \n  <link rel=\"preconnect\" href=\"https://fonts.googleapis.com\">\n  <link rel=\"preconnect\" href=\"https://fonts.gstatic.com\" crossorigin>\n  <link href=\"https://fonts.googleapis.com/css2?family=Roboto:wght@300;400;500;700&family=Roboto+Slab:wght@400;500;700&display=swap\" rel=\"stylesheet\">\n",
  "  <link rel=\"stylesheet\" href=\"https://cdnjs.cloudflare.com/ajax/libs/font-awesome/6.5.1/css/all.min.css\">\n  <link rel=\"stylesheet\" href=\"https://cdn.jsdelivr.net/gh/jpswalsh/academicons@1/css/academicons.min.css\">\n  \n  <style>\n"
]
def bhL4 : List String := [
  "\n"
]
def bhL5 : List String := [
  "\n  </style>\n</head>"
]

/-- `get_base_head_html(title, description, page_css="", sidebar=None)`. -/
def get_base_head_html (title description page_css : String) (sidebar : Option SidebarDoc) : String :=
  cat (bhL1 ++ [description] ++ bhL2 ++ [title] ++ bhL3 ++ [get_base_css sidebar] ++ bhL4 ++ [page_css] ++ bhL5)

/-- `get_head_html`: backward-compatibility wrapper, `page_css` left at
its `""` default. -/
def get_head_html (title description : String) (sidebar : Option SidebarDoc) : String :=
  get_base_head_html title description "" sidebar

def jsL1 : List String := [
  "\n    const navToggle = document.querySelector(\x27.nav-toggle\x27);\n    const navLinks = document.querySelector(\x27.nav-links\x27);\n    navToggle.addEventListener(\x27click\x27, () => navLinks.classList.toggle(\x27active\x27));\n\n    const themeToggle = document.querySelector(\x27.theme-toggle\x27);\n",
  "    const themeIcon = themeToggle.querySelector(\x27i\x27);\n    const savedTheme = localStorage.getItem(\x27theme\x27) || \x27light\x27;\n    document.documentElement.setAttribute(\x27data-theme\x27, savedTheme);\n    themeIcon.className = savedTheme === \x27dark\x27 ? \x27fas fa-sun\x27 : \x27fas fa-moon\x27;\n\n",
  "    themeToggle.addEventListener(\x27click\x27, () => \x7b\n      const currentTheme = document.documentElement.getAttribute(\x27data-theme\x27);\n      const newTheme = currentTheme === \x27dark\x27 ? \x27light\x27 : \x27dark\x27;\n      document.documentElement.setAttribute(\x27data-theme\x27, newTheme);\n",
  "      localStorage.setItem(\x27theme\x27, newTheme);\n      themeIcon.className = newTheme === \x27dark\x27 ? \x27fas fa-sun\x27 : \x27fas fa-moon\x27;\n    \x7d);\n\n    navLinks.querySelectorAll(\x27a\x27).forEach(link => \x7b\n      link.addEventListener(\x27click\x27, () => navLinks.classList.remove(\x27active\x27));\n    \x7d);\n"
]

/-- `get_js_code()`: the fixed client-side script block. -/
def get_js_code : String := cat jsL1

/- ============================================================
   sidebar.py — navigation, sidebar, footer.
   ============================================================ -/

/-- One entry of the fixed `pages` table of `get_nav_html`. -/
structure NavPage where
  page_id : String
  href : String
  label : String
  new_tab : Bool

/-- `sidebar.get("cv_file", "cv.pdf") if sidebar else "cv.pdf"`. -/
def cv_fileOf (sidebar : Option SidebarDoc) : String :=
  match sidebar with
  | some sb => sb.cv_file.getD "cv.pdf"
  | none => "cv.pdf"

/-- The fixed `pages` table of `get_nav_html`. -/
def navPages (cv_file : String) : List NavPage :=
  [⟨"bio", "index.html", "Biography", false⟩,
   ⟨"research", "research.html", "Research", false⟩,
   ⟨"publications", "publications.html", "Publications", false⟩,
   ⟨"teaching", "teaching.html", "Teaching", false⟩,
   ⟨"cv", cv_file, "CV", true⟩]

/-- `active_class`: marker attached to the anchor of the active page. -/
def navActiveClass (page_id active_page : String) : String :=
  if page_id == active_page then " class=\"active\"" else ""

/-- `target`: attributes attached to new-tab anchors. -/
def navTargetAttr (new_tab : Bool) : String :=
  if new_tab then " target=\"_blank\" rel=\"noopener\"" else ""

/-- One `<li>` anchor of the navigation list. -/
def navLinkItem (active_page : String) (p : NavPage) : String :=
  cat ["<li><a href=\"", p.href, "\"", navActiveClass p.page_id active_page, navTargetAttr p.new_tab, ">", p.label, "</a></li>"]

/-- The `links` list built by `get_nav_html` before joining. -/
def navLinks (active_page : String) (sidebar : Option SidebarDoc) : List String :=
  (navPages (cv_fileOf sidebar)).map (navLinkItem active_page)

/-- `get_nav_html(active_page="bio", sidebar=None)`. -/
def get_nav_html (active_page : String) (sidebar : Option SidebarDoc) : String :=
  pyJoin "\n        " (navLinks active_page sidebar)

/-- `get_nav_brand(sidebar)`: required `nav_brand` lookup. -/
def get_nav_brand (sidebar : SidebarDoc) : Except String String :=
  req sidebar.nav_brand "nav_brand"

/-- `_generate_profile_image(profile)`. -/
def generate_profile_image (profile : Profile) : Except String String :=
  if truthyStr profile.image then
    (req profile.name "name").map (fun name =>
      cat ["<img src=\"", profile.image.getD "", "\" alt=\"", name, "\">"])
  else Except.ok "<i class=\"fas fa-user\"></i>"

/-- One item of `_generate_sidebar_links`. -/
def sidebarLinkItem (link : SideLink) : String :=
  let icon := link.icon.getD "fas fa-link"
  let label := link.label.getD ""
  if truthyStr link.url then
    cat ["<li><a href=\"", link.url.getD "", "\" target=\"_blank\" rel=\"noopener\"><i class=\"", icon, "\" aria-hidden=\"true\"></i> ", label, "</a></li>"]
  else
    cat ["<li><i class=\"", icon, "\" aria-hidden=\"true\"></i> ", label, "</li>"]

/-- `_generate_sidebar_links(links)`. -/
def generate_sidebar_links (links : List SideLink) : String :=
  pyJoin "\n          " (links.map sidebarLinkItem)

/-- One `bio-line` span of the sidebar bio block. -/
def bioLineSpan (line : String) : String :=
  cat ["<span class=\"bio-line\">", line, "</span>"]

/-- The `bio_html` local of `get_sidebar_html`: a div of `bio-line`
spans when `bio_lines` is truthy, else a paragraph when `bio` is
truthy, else empty. -/
def bio_html (profile : Profile) : String :=
  if truthyList profile.bio_lines then
    cat ["<div class=\"author__bio\">", cat ((profile.bio_lines.getD []).map bioLineSpan), "</div>"]
  else if truthyStr profile.bio then
    cat ["<p class=\"author__bio\">", profile.bio.getD "", "</p>"]
  else ""

def shL1 : List String := [
  "<aside class=\"sidebar\">\n      <div class=\"sidebar-content\">\n        <div class=\"author__avatar\">\n          "
]
def shL2 : List String := [
  "\n        </div>\n        <div class=\"author__content\">\n          <h3 class=\"author__name\">"
]
def shL3 : List String := [
  "</h3>\n          "
]
def shL4 : List String := [
  "\n        </div>\n        <div class=\"author__urls-wrapper\">\n          <ul class=\"author__urls\">\n            "
]
def shL5 : List String := [
  "\n          </ul>\n        </div>\n      </div>\n    </aside>"
]

/-- `get_sidebar_html(sidebar)`. -/
def get_sidebar_html (sidebar : SidebarDoc) : Except String String := do
  let profile ← req sidebar.profile "profile"
  let links := sidebar.sidebar_links.getD []
  let img_html ← generate_profile_image profile
  let name ← req profile.name "name"
  let links_html := generate_sidebar_links links
  Except.ok (cat (shL1 ++ [img_html] ++ shL2 ++ [name] ++ shL3 ++ [bio_html profile] ++ shL4 ++ [links_html] ++ shL5))

def ftL1 : List String := [
  "<footer>\n    <p class=\"footer-text\">\n      © "
]
def ftL2 : List String := [
  " "
]
def ftL3 : List String := [
  ".\n    </p>\n  </footer>"
]

/-- `get_footer_html(sidebar)`. -/
def get_footer_html (sidebar : SidebarDoc) : Except String String := do
  let footer ← req sidebar.footer "footer"
  let year ← req footer.copyright_year "copyright_year"
  let cname ← req footer.copyright_name "copyright_name"
  Except.ok (cat (ftL1 ++ [year] ++ ftL2 ++ [cname] ++ ftL3))

/- ============================================================
   build_index.py — biography page.
   ============================================================ -/

def icL1 : List String := [
  "\n    /* ============================================\n       AFFILIATIONS SECTION\n       ============================================ */\n    .affiliation-item \x7b\n      display: flex;\n      gap: 0.5rem;\n      align-items: stretch;\n      margin-bottom: 0.5rem;\n    \x7d\n\n    .affiliation-logo \x7b\n",
  "      width: 100px;\n      min-height: 100px;\n      flex-shrink: 0;\n      background-size: contain;\n      background-repeat: no-repeat;\n      background-position: center;\n    \x7d\n\n    .affiliation-logo i \x7b\n      font-size: 2.5rem;\n      color: var(--text-muted);\n    \x7d\n\n    .affiliation-info \x7b\n    \x7d\n\n",
  "    .affiliation-logo i \x7b\n      font-size: 1.5rem;\n      color: var(--text-muted);\n    \x7d\n\n    .affiliation-info h3 \x7b\n      font-family: \x27Roboto Slab\x27, serif;\n      font-size: 1rem;\n      font-weight: 700;\n      color: var(--text-color);\n      margin: 0;\n      line-height: 1.4;\n    \x7d\n\n",
  "    .affiliation-info p \x7b\n      margin: 0;\n      font-size: 0.9rem;\n      line-height: 1.4;\n    \x7d\n\n    .affiliation-info .role \x7b\n      color: var(--text-color);\n    \x7d\n\n    .affiliation-info .department \x7b\n      color: var(--text-muted);\n    \x7d\n\n    /* ============================================\n",
  "       DEGREES SECTION\n       ============================================ */\n    .degrees-list \x7b\n      list-style: disc;\n      padding-left: 1.5rem;\n      margin: 0;\n    \x7d\n\n    .degrees-list li \x7b\n      margin-bottom: 0.5rem;\n      font-size: 1rem;\n      line-height: 1.5;\n    \x7d\n\n",
  "    /* ============================================\n       NEWS SECTION\n       ============================================ */\n    .news-container \x7b\n      max-height: 350px;\n      overflow-y: auto;\n      border: 1px solid var(--border-color);\n      padding: 0.75rem 1rem;\n      border-radius: 4px;\n",
  "    \x7d\n\n    .news-list \x7b \n      list-style: none;\n      padding-left: 0;\n      margin: 0;\n    \x7d\n\n    .news-item \x7b\n      padding: 0.3rem 0;\n      line-height: 1.5;\n      font-size: 0.9rem;\n    \x7d\n\n    .news-date \x7b\n      font-weight: 700;\n      color: var(--text-color);\n    \x7d\n\n    .news-date::after \x7b\n",
  "      content: \": \";\n    \x7d\n\n    .news-content \x7b \n      color: var(--text-color);\n    \x7d\n\n    /* ============================================\n       BIO SECTION LINKS\n       ============================================ */\n    .section p a \x7b\n      color: var(--action-link-color);\n    \x7d\n\n",
  "    .section p a:hover \x7b\n      color: var(--action-link-hover);\n      text-decoration: underline;\n    \x7d\n\n    /* ============================================\n       SPONSORS SECTION\n       ============================================ */\n    .sponsors-grid \x7b\n      display: flex;\n",
  "      flex-wrap: wrap;\n      gap: 1.5rem 2.5rem;\n      align-items: center;\n      justify-content: flex-start;\n    \x7d\n\n    .sponsor-logo \x7b\n      height: 40px;\n      width: auto;\n      max-width: 280px;\n      object-fit: contain;\n    \x7d\n\n    /* Dark mode: invert logos for visibility */\n",
  "    [data-theme=\"dark\"] .sponsor-logo \x7b\n      filter: invert(1) hue-rotate(180deg);\n    \x7d\n"
]

/-- `get_index_css()`. -/
def get_index_css : String := cat icL1

/-- `generate_bio_paragraphs(bio)`. -/
def generate_bio_paragraphs (bio : List String) : String :=
  pyJoin "\n        " (bio.map (fun p => cat ["<p>", p, "</p>"]))

/-- `logo_icon.endswith(('.png', '.jpg', '.jpeg', '.svg', '.gif', '.webp'))`. -/
def isImagePath (s : String) : Bool :=
  pyEndsWith s ".png" || pyEndsWith s ".jpg" || pyEndsWith s ".jpeg" || pyEndsWith s ".svg" || pyEndsWith s ".gif" || pyEndsWith s ".webp"

/-- The `logo_html` local of `generate_affiliations`: a background-image
div for image paths, an icon glyph otherwise. -/
def affiliationLogoHtml (logo_icon : String) : String :=
  if isImagePath logo_icon then
    cat ["<div class=\"affiliation-logo\" style=\"background-image: url(\x27", logo_icon, "\x27);\"></div>"]
  else
    cat ["<div class=\"affiliation-logo\"><i class=\"fas ", logo_icon, "\"></i></div>"]

/-- One item of the `generate_affiliations` loop. -/
def affiliationItem (aff : Affiliation) : Except String String := do
  let dept_lines := pyJoin "<br>" (aff.department.getD [])
  let logo_icon := aff.logo_icon.getD "fa-university"
  let logo_html := affiliationLogoHtml logo_icon
  let institution ← req aff.institution "institution"
  let role ← req aff.role "role"
  Except.ok (cat ["<div class=\"affiliation-item\">\n          ", logo_html,
    "\n          <div class=\"affiliation-info\">\n            <h3>", institution,
    "</h3>\n            <p class=\"role\">", role,
    "</p>\n            <p class=\"department\">", dept_lines,
    "</p>\n          </div>\n        </div>"])

/-- `generate_affiliations(affiliations)`. -/
def generate_affiliations (affiliations : List Affiliation) : Except String String := do
  let items ← affiliations.mapM affiliationItem
  Except.ok (pyJoin "\n        " items)

/-- One item of the `generate_degrees` loop. -/
def degreeItem (d : Degree) : Except String String := do
  let dg ← req d.degree "degree"
  let fld ← req d.field "field"
  let inst ← req d.institution "institution"
  let loc ← req d.location "location"
  Except.ok (cat ["<li><strong>", dg, ", ", fld, ",</strong> ", inst, ", ", loc, "</li>"])

/-- `generate_degrees(degrees)`. -/
def generate_degrees (degrees : List Degree) : Except String String := do
  let items ← degrees.mapM degreeItem
  Except.ok (pyJoin "\n            " items)

/-- One item of the `generate_news` loop. -/
def newsItemHtml (n : NewsItem) : Except String String := do
  let date ← req n.date "date"
  let content ← req n.content "content"
  Except.ok (cat ["<li class=\"news-item\">\n          <span class=\"news-date\">", date,
    "</span><span class=\"news-content\">", content, "</span>\n        </li>"])

/-- `generate_news(news)`. -/
def generate_news (news : List NewsItem) : Except String String := do
  let items ← news.mapM newsItemHtml
  Except.ok (pyJoin "\n        " items)

/-- One item of the `generate_sponsors` loop. -/
def sponsorHtml (s : Sponsor) : Except String String := do
  let logo ← req s.logo "logo"
  let name ← req s.name "name"
  Except.ok (cat ["<img src=\"", logo, "\" alt=\"", name, "\" class=\"sponsor-logo\">"])

/-- `generate_sponsors(sponsors)`. -/
def generate_sponsors (sponsors : List Sponsor) : Except String String := do
  let items ← sponsors.mapM sponsorHtml
  Except.ok (pyJoin "\n          " items)

/-- The `head_html` local of `build_html` in build_index.py: note the
sidebar configuration is NOT passed, so `get_base_head_html` falls back
to `sidebar=None` and the default theme colours. -/
def head_htmlIndex (content : ContentIndex) : Except String String := do
  let meta ← req content.meta "meta"
  let title ← req meta.title "title"
  let description ← req meta.description "description"
  Except.ok (get_base_head_html title description get_index_css none)

def ibL1 : List String := [
  "<!DOCTYPE html>\n<html lang=\"en\">\n"
]
def ibL2 : List String := [
  "\n<body>\n  <nav>\n    <div class=\"nav-container\">\n      <a href=\"index.html\" class=\"nav-brand\">"
]
def ibL3 : List String := [
  "</a>\n      <button class=\"nav-toggle\" aria-label=\"Toggle navigation\">\n        <i class=\"fas fa-bars\"></i>\n      </button>\n      <ul class=\"nav-links\">\n        "
]
def ibL4 : List String := [
  "\n      </ul>\n      <button class=\"theme-toggle\" aria-label=\"Toggle dark mode\">\n        <i class=\"fas fa-moon\"></i>\n      </button>\n    </div>\n  </nav>\n\n  <div class=\"page-wrapper\">\n    "
]
def ibL5 : List String := [
  "\n\n    <main class=\"main-content\">\n      <section class=\"section\">\n        <h2>Biography</h2>\n        "
]
def ibL6 : List String := [
  "\n      </section>\n\n      <section class=\"section\">\n        <h2>Current Affiliations</h2>\n        "
]
def ibL7 : List String := [
  "\n      </section>\n\n      <section class=\"section\">\n        <h2>Degrees</h2>\n        <ul class=\"degrees-list\">\n          "
]
def ibL8 : List String := [
  "\n        </ul>\n      </section>\n\n      <section class=\"section\">\n        <h2>News</h2>\n        <div class=\"news-container\">\n          <ul class=\"news-list\">\n            "
]
def ibL9 : List String := [
  "\n          </ul>\n        </div>\n      </section>\n\n      <section class=\"section\">\n        <h2>Affiliations &amp; Sponsors</h2>\n        <div class=\"sponsors-grid\">\n          "
]
def ibL10 : List String := [
  "\n        </div>\n      </section>\n    </main>\n  </div>\n\n  "
]
def ibL11 : List String := [
  "\n\n  <script>"
]
def ibL12 : List String := [
  "</script>\n</body>\n</html>"
]

/-- `build_html(content, sidebar)` of build_index.py. -/
def build_htmlIndex (content : ContentIndex) (sidebar : SidebarDoc) : Except String String := do
  let head_html ← head_htmlIndex content
  let nav_brand ← get_nav_brand sidebar
  let sidebar_html ← get_sidebar_html sidebar
  let bio ← req content.bio "bio"
  let bio_paras := generate_bio_paragraphs bio
  let affs ← req content.affiliations "affiliations"
  let affiliations_html ← generate_affiliations affs
  let degrees_html ← generate_degrees (content.degrees.getD [])
  let news ← req content.news "news"
  let news_html ← generate_news news
  let sponsors_html ← generate_sponsors (content.sponsors.getD [])
  let footer_html ← get_footer_html sidebar
  Except.ok (cat (ibL1 ++ [head_html] ++ ibL2 ++ [nav_brand] ++ ibL3 ++ [get_nav_html "bio" (some sidebar)] ++ ibL4 ++ [sidebar_html] ++ ibL5 ++ [bio_paras] ++ ibL6 ++ [affiliations_html] ++ ibL7 ++ [degrees_html] ++ ibL8 ++ [news_html] ++ ibL9 ++ [sponsors_html] ++ ibL10 ++ [footer_html] ++ ibL11 ++ [get_js_code] ++ ibL12))

/- ============================================================
   build_publications.py — publications page.
   ============================================================ -/

def pcL1 : List String := [
  "\n    /* ============================================\n       PUBLICATIONS PAGE STYLES\n       Styles specific to the publications listing\n       ============================================ */\n    \n    /* Section divider for Conference Abstracts */\n    .section-divider \x7b\n",
  "      margin-top: 0.75rem;               /* Space above */\n      margin-bottom: 0.3rem;             /* Space below */\n    \x7d\n    \n    /* Section title (Conference Abstracts) */\n    .section-title \x7b\n      font-family: \x27Roboto Slab\x27, serif;  /* Serif font */\n",
  "      font-size: 1.3rem;                 /* Heading size */\n      font-weight: 700;                  /* Bold */\n      color: var(--text-color);          /* Text color */\n      margin-bottom: 0.15rem;            /* Space below */\n    \x7d\n\n    /* Page introduction section */\n    .pub-intro \x7b\n",
  "      margin-bottom: 0.75rem;          /* Space below intro */\n    \x7d\n    \n    /* Introduction title */\n    .pub-intro h1 \x7b\n      font-family: \x27Roboto Slab\x27, serif;  /* Serif font */\n      font-size: 1.4rem;               /* Heading */\n      font-weight: 700;                /* Bold */\n",
  "      color: var(--text-color);        /* Text color */\n      margin-bottom: 0.2rem;           /* Space below */\n    \x7d\n    \n    /* Introduction description and links */\n    .pub-intro p \x7b\n      color: var(--text-color);        /* Text color */\n      font-size: 0.9rem;               /* Smaller */\n",
  "      margin-bottom: 0;                /* No bottom margin */\n    \x7d\n    \n    .pub-intro a \x7b\n      color: var(--text-color);        /* Link color */\n      font-weight: 500;                /* Medium weight */\n    \x7d\n    \n    .pub-intro a:hover \x7b\n",
  "      text-decoration: underline;      /* Underline on hover */\n    \x7d\n\n    /* Year section container */\n    .year-section \x7b\n      margin-bottom: 1rem;             /* Space between year sections */\n    \x7d\n    \n    /* Year heading */\n    .year-heading \x7b\n",
  "      font-family: \x27Roboto Slab\x27, serif;  /* Serif font */\n      font-size: 1.2rem;               /* Heading size */\n      font-weight: 700;                /* Bold */\n      color: var(--text-color);        /* Text color */\n      margin-bottom: 0.2rem;           /* Space from ruler to content */\n",
  "      padding-bottom: 0.1rem;          /* Space from text to ruler */\n      border-bottom: 1px solid var(--border-color);  /* Underline border */\n    \x7d\n    \n    /* Year section without year heading */\n    .year-section.no-year \x7b\n      margin-top: 0.5rem;              /* Slight top margin */\n    \x7d\n\n",
  "    /* Individual paper item */\n    .paper-item \x7b\n      display: flex;                   /* Flexbox for image + content layout */\n      gap: 0.75rem;                    /* Space between image and content */\n      padding: 0.4rem 0;               /* Vertical padding */\n    \x7d\n    \n",
  "    /* Paper item without image */\n    .paper-item.no-image \x7b\n      gap: 0;                          /* No gap needed */\n      padding: 0.3rem 0;               /* Slightly less padding for abstracts */\n    \x7d\n    \n    /* Last paper in section */\n    .paper-item:last-child \x7b\n",
  "      padding-bottom: 0;               /* No padding on last item */\n    \x7d\n\n    /* Paper thumbnail image container */\n    .paper-image \x7b\n      width: 100px;                    /* Fixed width for thumbnail */\n      height: 65px;                    /* Fixed height for thumbnail */\n",
  "      flex-shrink: 0;                  /* Prevent shrinking */\n      overflow: hidden;                /* Hide overflow */\n      border-radius: 4px;              /* Rounded corners */\n      border: 1px solid var(--border-color);  /* Border around image */\n",
  "      background: var(--bg-color);     /* Background color */\n    \x7d\n    \n    /* Paper thumbnail image */\n    .paper-image img \x7b\n      width: 100%;                     /* Fill container width */\n      height: 100%;                    /* Fill container height */\n",
  "      object-fit: cover;               /* Cover entire area */\n    \x7d\n\n    /* Paper content container */\n    .paper-content \x7b\n      flex: 1;                         /* Fill remaining space */\n      min-width: 0;                    /* Allow text truncation */\n    \x7d\n\n",
  "    /* Reset paragraph styles inside paper content */\n    .paper-content p \x7b\n      margin-bottom: 0;                /* Override main-content p margins */\n      text-align: left;                /* Left align, not justify */\n    \x7d\n\n    /* Paper title */\n    .paper-content .paper-title \x7b\n",
  "      font-family: \x27Roboto Slab\x27, serif;  /* Serif font */\n      font-size: 0.95rem;              /* Slightly smaller */\n      font-weight: 600;                /* Semi-bold */\n      color: var(--accent-color);      /* Accent color from theme */\n",
  "      margin-bottom: 0;                /* No space below */\n      line-height: 1.35;               /* Line height */\n    \x7d\n\n    /* Paper authors */\n    .paper-content .paper-authors \x7b\n      font-size: 0.8rem;               /* Smaller font */\n      color: var(--text-color);        /* Text color */\n",
  "      margin-bottom: 0;                /* No space below */\n      line-height: 1.35;               /* Line height */\n    \x7d\n\n    /* Paper venue (journal/conference) */\n    .paper-content .paper-venue \x7b\n      font-size: 0.8rem;               /* Smaller font */\n",
  "      color: var(--text-color);        /* Muted color */\n      font-style: italic;              /* Italic for venue */\n      margin-bottom: 0;                /* No space below */\n    \x7d\n\n    /* Paper action links container */\n    .paper-links \x7b\n",
  "      font-size: 0.75rem;              /* Small font for links */\n    \x7d\n\n    /* Individual paper link */\n    .paper-link \x7b\n      color: var(--action-link-color); /* Action link color from theme */\n      margin-right: 0.25rem;           /* Space between links */\n    \x7d\n    \n    .paper-link:hover \x7b\n",
  "      color: var(--action-link-hover); /* Action link hover from theme */\n      text-decoration: underline;      /* Underline on hover */\n    \x7d\n\n    /* ============================================\n       RESPONSIVE STYLES FOR PUBLICATIONS\n       ============================================ */\n",
  "    @media (max-width: 600px) \x7b\n      /* Stack paper items vertically on mobile */\n      .paper-item \x7b\n        flex-direction: column;        /* Stack vertically */\n      \x7d\n      \n      /* Full width image on mobile */\n      .paper-image \x7b\n        width: 100%;                   /* Full width */\n",
  "        height: 150px;                 /* Taller height */\n      \x7d\n    \x7d\n"
]

/-- `get_publications_css()`. -/
def get_publications_css : String := cat pcL1

/-- One item of `generate_intro_links`. -/
def introLinkHtml (link : LinkRef) : Except String String := do
  let url ← req link.url "url"
  let label ← req link.label "label"
  Except.ok (cat ["<a href=\"", url, "\" target=\"_blank\" rel=\"noopener\">[", label, "]</a>"])

/-- `generate_intro_links(links)`. -/
def generate_intro_links (links : List LinkRef) : Except String String := do
  let items ← links.mapM introLinkHtml
  Except.ok (pyJoin " / " items)

/-- One item of `generate_paper_links`. -/
def paperLinkHtml (link : LinkRef) : Except String String := do
  let url ← req link.url "url"
  let label ← req link.label "label"
  Except.ok (cat ["<a href=\"", url, "\" class=\"paper-link\" target=\"_blank\" rel=\"noopener\">[", label, "]</a>"])

/-- `generate_paper_links(links)`. -/
def generate_paper_links (links : List LinkRef) : Except String String := do
  let items ← links.mapM paperLinkHtml
  Except.ok (pyJoin " | " items)

def piL1 : List String := [
  "<div class=\"paper-item\">\n          <div class=\"paper-image\">\n            <img src=\""
]
def piL2 : List String := [
  "\" alt=\""
]
def piL3 : List String := [
  "\">\n          </div>\n          <div class=\"paper-content\">\n            <h3 class=\"paper-title\">"
]
def piL4 : List String := [
  "</h3>\n            <p class=\"paper-authors\">"
]
def piL5 : List String := [
  "</p>\n            <p class=\"paper-venue\">"
]
def piL6 : List String := [
  "</p>\n            <div class=\"paper-links\">\n              "
]
def piL7 : List String := [
  "\n            </div>\n          </div>\n        </div>"
]
def pnL1 : List String := [
  "<div class=\"paper-item no-image\">\n          <div class=\"paper-content\">\n            <h3 class=\"paper-title\">"
]
def pnL2 : List String := [
  "</h3>\n            <p class=\"paper-authors\">"
]
def pnL3 : List String := [
  "</p>\n            <p class=\"paper-venue\">"
]
def pnL4 : List String := [
  "</p>\n            <div class=\"paper-links\">\n              "
]
def pnL5 : List String := [
  "\n            </div>\n          </div>\n        </div>"
]

/-- `generate_paper_html(paper, show_image=True)`: a paper entry, with
the thumbnail (and its placeholder fallback) when `show_image`. -/
def generate_paper_html (paper : Paper) (show_image : Bool) : Except String String := do
  let authors := paper.authors.getD ""
  let links_html ← generate_paper_links (paper.links.getD [])
  let title ← req paper.title "title"
  let venue ← req paper.venue "venue"
  if show_image then
    let image := paper.image.getD "assets/img/pub_placeholder.png"
    Except.ok (cat (piL1 ++ [image] ++ piL2 ++ [title] ++ piL3 ++ [title] ++ piL4 ++ [authors] ++ piL5 ++ [venue] ++ piL6 ++ [links_html] ++ piL7))
  else
    Except.ok (cat (pnL1 ++ [title] ++ pnL2 ++ [authors] ++ pnL3 ++ [venue] ++ pnL4 ++ [links_html] ++ pnL5))

def ysL1 : List String := [
  "<div class=\"year-section\">\n        <h2 class=\"year-heading\">"
]
def ysL2 : List String := [
  "</h2>\n        "
]
def ysL3 : List String := [
  "\n      </div>"
]
def ynL1 : List String := [
  "<div class=\"year-section no-year\">\n        "
]
def ynL2 : List String := [
  "\n      </div>"
]

/-- `generate_year_section(year_group, show_image=True)`. -/
def generate_year_section (year_group : YearGroup) (show_image : Bool) : Except String String := do
  let papers ← req year_group.papers "papers"
  let items ← papers.mapM (fun p => generate_paper_html p show_image)
  let papers_html := pyJoin "\n        " items
  if truthyStr year_group.year then
    Except.ok (cat (ysL1 ++ [year_group.year.getD ""] ++ ysL2 ++ [papers_html] ++ ysL3))
  else
    Except.ok (cat (ynL1 ++ [papers_html] ++ ynL2))

/-- `generate_publications_html(publications)`. -/
def generate_publications_html (publications : List YearGroup) : Except String String := do
  let sections ← publications.mapM (fun yg => generate_year_section yg true)
  Except.ok (pyJoin "\n      " sections)

/-- `generate_conference_abstracts_html(abstracts)`: year sections with
`show_image=False`; empty output on an empty input. -/
def generate_conference_abstracts_html (abstracts : List YearGroup) : Except String String :=
  if abstracts.isEmpty then Except.ok ""
  else do
    let sections ← abstracts.mapM (fun yg => generate_year_section yg false)
    Except.ok (pyJoin "\n      " sections)

def caL1 : List String := [
  "\n      <!-- Conference Abstracts Section -->\n      <div class=\"section-divider\">\n        <h1 class=\"section-title\">Selected Conference Abstracts</h1>\n      </div>\n      "
]

/-- The `conference_abstracts_html` local of `build_html` in
build_publications.py: `""` unless the list is non-empty, else the
section-divider heading followed by the rendered abstracts. -/
def conferenceAbstractsBlock (conference_abstracts : List YearGroup) : Except String String :=
  if conference_abstracts.isEmpty then Except.ok ""
  else do
    let inner ← generate_conference_abstracts_html conference_abstracts
    Except.ok (cat (caL1 ++ [inner]))

/-- The `head_html` local of `build_html` in build_publications.py:
`get_head_html` IS given the sidebar, then the page CSS is inserted
before the closing style tag via `str.replace`. -/
def head_htmlPubs (content : ContentPubs) (sidebar : SidebarDoc) : Except String String := do
  let meta ← req content.meta "meta"
  let title ← req meta.title "title"
  let description ← req meta.description "description"
  Except.ok (pyReplace (get_head_html title description (some sidebar)) "</style>" (get_publications_css ++ "</style>"))

def pbL1 : List String := [
  "<!DOCTYPE html>\n<html lang=\"en\">\n"
]
def pbL2 : List String := [
  "\n<body>\n  <!-- Navigation Bar -->\n  <nav>\n    <div class=\"nav-container\">\n      <!-- Brand/Logo link to home -->\n      <a href=\"index.html\" class=\"nav-brand\">"
]
def pbL3 : List String := [
  "</a>\n      \n      <!-- Mobile hamburger menu button -->\n      <button class=\"nav-toggle\" aria-label=\"Toggle navigation\">\n        <i class=\"fas fa-bars\"></i>\n      </button>\n      \n      <!-- Navigation links - publications is active -->\n      <ul class=\"nav-links\">\n        "
]
def pbL4 : List String := [
  "\n      </ul>\n      \n      <!-- Dark/light theme toggle button -->\n      <button class=\"theme-toggle\" aria-label=\"Toggle dark mode\">\n        <i class=\"fas fa-moon\"></i>\n      </button>\n    </div>\n  </nav>\n\n  <!-- Two-Column Layout Container -->\n  <div class=\"page-wrapper\">\n",
  "    <!-- Left Sidebar with Profile -->\n    "
]
def pbL5 : List String := [
  "\n\n    <!-- Main Content Area -->\n    <main class=\"main-content\">\n      <!-- Introduction Section -->\n      <div class=\"pub-intro\">\n        <h1>"
]
def pbL6 : List String := [
  "</h1>\n        <p>"
]
def pbL7 : List String := [
  " "
]
def pbL8 : List String := [
  "</p>\n      </div>\n\n      <!-- Publications by Year -->\n      "
]
def pbL9 : List String := [
  "\n      "
]
def pbL10 : List String := [
  "\n    </main>\n  </div>\n\n  <!-- Page Footer -->\n  "
]
def pbL11 : List String := [
  "\n\n  <!-- JavaScript for Navigation and Theme Toggle -->\n  <script>"
]
def pbL12 : List String := [
  "</script>\n</body>\n</html>"
]

/-- `build_html(content, sidebar)` of build_publications.py. -/
def build_htmlPubs (content : ContentPubs) (sidebar : SidebarDoc) : Except String String := do
  let head_html ← head_htmlPubs content sidebar
  let intro ← req content.intro "intro"
  let ilinks ← req intro.links "links"
  let intro_links ← generate_intro_links ilinks
  let pubsList ← req content.publications "publications"
  let publications_html ← generate_publications_html pubsList
  let conference_abstracts_html ← conferenceAbstractsBlock (content.conference_abstracts.getD [])
  let nav_brand ← get_nav_brand sidebar
  let sidebar_html ← get_sidebar_html sidebar
  let intro_title ← req intro.title "title"
  let intro_description ← req intro.description "description"
  let footer_html ← get_footer_html sidebar
  Except.ok (cat (pbL1 ++ [head_html] ++ pbL2 ++ [nav_brand] ++ pbL3 ++ [get_nav_html "publications" none] ++ pbL4 ++ [sidebar_html] ++ pbL5 ++ [intro_title] ++ pbL6 ++ [intro_description] ++ pbL7 ++ [intro_links] ++ pbL8 ++ [publications_html] ++ pbL9 ++ [conference_abstracts_html] ++ pbL10 ++ [footer_html] ++ pbL11 ++ [get_js_code] ++ pbL12))

/- ============================================================
   build_research.py — research page.
   ============================================================ -/

def rcL1 : List String := [
  "\n    /* ============================================\n       RESEARCH PAGE STYLES\n       Styles specific to the research page\n       ============================================ */\n    \n    /* Page introduction section */\n    .research-intro \x7b\n",
  "      margin-bottom: 2rem;             /* Space below intro */\n    \x7d\n    \n    /* Research interests heading */\n    .research-intro h1 \x7b\n      font-family: \x27Roboto Slab\x27, serif;  /* Serif font */\n      font-size: 1.6rem;               /* Large heading */\n",
  "      font-weight: 700;                /* Bold */\n      color: var(--text-color);        /* Text color */\n      margin-bottom: 0.75rem;          /* Space below */\n    \x7d\n    \n    /* Research interests list */\n    .research-interests \x7b\n      color: var(--text-color);        /* Text color */\n",
  "      font-size: 1rem;                 /* Standard size */\n      font-style: italic;              /* Italic for emphasis */\n      margin-bottom: 1.5rem;           /* Space below */\n      padding-bottom: 1rem;            /* Padding above border */\n",
  "      border-bottom: 1px solid var(--border-color);  /* Bottom border */\n    \x7d\n\n    /* Research projects section heading */\n    .projects-heading \x7b\n      font-family: \x27Roboto Slab\x27, serif;  /* Serif font */\n      font-size: 1.4rem;               /* Heading size */\n",
  "      font-weight: 700;                /* Bold */\n      color: var(--text-color);        /* Text color */\n      margin-bottom: 1.5rem;           /* Space below heading */\n      padding-bottom: 0.4rem;          /* Padding above border */\n",
  "      border-bottom: 1px solid var(--border-color);  /* Underline border */\n    \x7d\n\n    /* Individual project item */\n    .project-item \x7b\n      margin-bottom: 2.5rem;           /* Space between projects */\n      padding-bottom: 2rem;            /* Padding above border */\n",
  "      border-bottom: 1px solid var(--border-color);  /* Bottom border separator */\n    \x7d\n    \n    /* Remove border from last project */\n    .project-item:last-child \x7b\n      border-bottom: none;             /* No border on last item */\n      margin-bottom: 0;                /* No bottom margin */\n",
  "      padding-bottom: 0;               /* No padding */\n    \x7d\n\n    /* Project title */\n    .project-title \x7b\n      font-family: \x27Roboto Slab\x27, serif;  /* Serif font */\n      font-size: 1.15rem;              /* Slightly larger */\n      font-weight: 600;                /* Semi-bold */\n",
  "      color: #800020;                  /* Burgundy color */\n      margin-bottom: 1rem;             /* Space below title */\n      line-height: 1.4;                /* Line height */\n    \x7d\n\n    /* Project content container (image + description) */\n    .project-content \x7b\n",
  "      display: block;                  /* Block layout for float */\n    \x7d\n\n    /* Project image container */\n    .project-image \x7b\n      float: left;                     /* Float image to left */\n      width: 700px;                    /* Larger fixed width */\n",
  "      margin-right: 1.5rem;            /* Space between image and text */\n      margin-bottom: 0.75rem;          /* Space below image */\n      border-radius: 4px;              /* Rounded corners */\n      overflow: hidden;                /* Hide overflow */\n",
  "      border: 1px solid var(--border-color);  /* Border around image */\n    \x7d\n    \n    /* Project image */\n    .project-image img \x7b\n      width: 100%;                     /* Fill container width */\n      height: auto;                    /* Maintain aspect ratio */\n",
  "      display: block;                  /* Remove inline spacing */\n    \x7d\n\n    /* Project description container */\n    .project-description \x7b\n      /* No overflow hidden - allows text to wrap under floated image */\n    \x7d\n\n    /* Project description paragraphs */\n    .project-description p \x7b\n",
  "      color: var(--text-color);        /* Text color */\n      font-size: 0.95rem;              /* Slightly smaller */\n      line-height: 1.7;                /* Comfortable line height */\n      margin-bottom: 0.75rem;          /* Space between paragraphs */\n",
  "      text-align: justify;             /* Justify text */\n    \x7d\n    \n    /* Remove margin from last paragraph */\n    .project-description p:last-child \x7b\n      margin-bottom: 0;                /* No bottom margin */\n    \x7d\n\n    /* Clear float after project content */\n    .project-content::after \x7b\n",
  "      content: \"\";\n      display: table;\n      clear: both;\n    \x7d\n\n    /* ============================================\n       RESPONSIVE STYLES FOR RESEARCH\n       ============================================ */\n    @media (max-width: 900px) \x7b\n",
  "      /* Stack project content vertically on tablet/mobile */\n      .project-image \x7b\n        float: none;                   /* Remove float */\n        width: 100%;                   /* Full width */\n        max-width: 520px;              /* Maximum width */\n",
  "        margin-right: 0;               /* Remove right margin */\n        margin-bottom: 1rem;           /* Space below */\n      \x7d\n    \x7d\n"
]

/-- `get_research_css()`. -/
def get_research_css : String := cat rcL1

/-- `generate_interests_html(interests)`. -/
def generate_interests_html (interests : List String) : String :=
  pyJoin ", " interests

def riL1 : List String := [
  "<div class=\"project-image\">\n            <img src=\""
]
def riL2 : List String := [
  "\" alt=\""
]
def riL3 : List String := [
  "\">\n          </div>"
]
def rpL1 : List String := [
  "<div class=\"project-item\">\n        <h3 class=\"project-title\">"
]
def rpL2 : List String := [
  "</h3>\n        <div class=\"project-content\">\n          "
]
def rpL3 : List String := [
  "\n          <div class=\"project-description\">\n            "
]
def rpL4 : List String := [
  "\n          </div>\n        </div>\n      </div>"
]

/-- `generate_project_html(project)`: optional image block, description
paragraphs, outer project template. -/
def generate_project_html (project : Project) : Except String String := do
  let image := project.image.getD ""
  let image_html ← (if !(image == "") then do
      let t ← req project.title "title"
      Except.ok (cat (riL1 ++ [image] ++ riL2 ++ [t] ++ riL3))
    else Except.ok "")
  let desc ← req project.description "description"
  let desc_html := pyJoin "\n          " (desc.map (fun para => cat ["<p>", para, "</p>"]))
  let title ← req project.title "title"
  Except.ok (cat (rpL1 ++ [title] ++ rpL2 ++ [image_html] ++ rpL3 ++ [desc_html] ++ rpL4))

/-- `generate_projects_html(projects)`. -/
def generate_projects_html (projects : List Project) : Except String String := do
  let entries ← projects.mapM generate_project_html
  Except.ok (pyJoin "\n      " entries)

/-- The `head_html` local of `build_html` in build_research.py: note
`get_head_html` is called WITHOUT the sidebar, so the default theme
colours are always used; then the research CSS is inserted via
`str.replace`. -/
def head_htmlResearch (content : ContentResearch) : Except String String := do
  let meta ← req content.meta "meta"
  let title ← req meta.title "title"
  let description ← req meta.description "description"
  Except.ok (pyReplace (get_head_html title description none) "</style>" (get_research_css ++ "</style>"))

def rbL1 : List String := [
  "<!DOCTYPE html>\n<html lang=\"en\">\n"
]
def rbL2 : List String := [
  "\n<body>\n  <!-- Navigation Bar -->\n  <nav>\n    <div class=\"nav-container\">\n      <!-- Brand/Logo link to home -->\n      <a href=\"index.html\" class=\"nav-brand\">"
]
def rbL3 : List String := [
  "</a>\n      \n      <!-- Mobile hamburger menu button -->\n      <button class=\"nav-toggle\" aria-label=\"Toggle navigation\">\n        <i class=\"fas fa-bars\"></i>\n      </button>\n      \n      <!-- Navigation links - research is active -->\n      <ul class=\"nav-links\">\n        "
]
def rbL4 : List String := [
  "\n      </ul>\n      \n      <!-- Dark/light theme toggle button -->\n      <button class=\"theme-toggle\" aria-label=\"Toggle dark mode\">\n        <i class=\"fas fa-moon\"></i>\n      </button>\n    </div>\n  </nav>\n\n  <!-- Two-Column Layout Container -->\n  <div class=\"page-wrapper\">\n",
  "    <!-- Left Sidebar with Profile -->\n    "
]
def rbL5 : List String := [
  "\n\n    <!-- Main Content Area -->\n    <main class=\"main-content\">\n      <!-- Research Interests Section -->\n      <div class=\"research-intro\">\n        <h1>Research Interests</h1>\n        <p class=\"research-interests\">"
]
def rbL6 : List String := [
  "</p>\n      </div>\n\n      <!-- Research Projects Section -->\n      <h2 class=\"projects-heading\">Research Projects</h2>\n      "
]
def rbL7 : List String := [
  "\n    </main>\n  </div>\n\n  <!-- Page Footer -->\n  "
]
def rbL8 : List String := [
  "\n\n  <!-- JavaScript for Navigation and Theme Toggle -->\n  <script>"
]
def rbL9 : List String := [
  "</script>\n</body>\n</html>"
]

/-- `build_html(content, sidebar)` of build_research.py. -/
def build_htmlResearch (content : ContentResearch) (sidebar : SidebarDoc) : Except String String := do
  let head_html ← head_htmlResearch content
  let interests ← req content.interests "interests"
  let interests_html := generate_interests_html interests
  let projects ← req content.projects "projects"
  let projects_html ← generate_projects_html projects
  let nav_brand ← get_nav_brand sidebar
  let sidebar_html ← get_sidebar_html sidebar
  let footer_html ← get_footer_html sidebar
  Except.ok (cat (rbL1 ++ [head_html] ++ rbL2 ++ [nav_brand] ++ rbL3 ++ [get_nav_html "research" none] ++ rbL4 ++ [sidebar_html] ++ rbL5 ++ [interests_html] ++ rbL6 ++ [projects_html] ++ rbL7 ++ [footer_html] ++ rbL8 ++ [get_js_code] ++ rbL9))

/- ============================================================
   build_teaching.py — teaching page.
   ============================================================ -/

def tcL1 : List String := [
  "\n    /* ============================================\n       TEACHING PAGE STYLES\n       Styles specific to the teaching page\n       ============================================ */\n    \n    /* Section headings */\n    .section-heading \x7b\n      font-family: \x27Roboto Slab\x27, serif;  /* Serif font */\n",
  "      font-size: 1.4rem;               /* Heading size */\n      font-weight: 700;                /* Bold */\n      color: var(--text-color);        /* Text color */\n      margin-bottom: 0.6rem;           /* Reduced space below heading */\n",
  "      padding-bottom: 0.4rem;          /* Padding above border */\n      border-bottom: 1px solid var(--border-color);  /* Underline border */\n    \x7d\n\n    /* Courses section */\n    .courses-section \x7b\n      margin-bottom: 2rem;             /* Space below section */\n    \x7d\n\n",
  "    /* Role section (TA, Lecturer, etc.) */\n    .role-section \x7b\n      margin-bottom: 0.75rem;          /* Space between role sections */\n      padding-bottom: 0.75rem;         /* Padding above border */\n      border-bottom: 1px solid var(--border-color);  /* Bottom border */\n    \x7d\n    \n",
  "    /* Remove border from last role section */\n    .role-section:last-child \x7b\n      border-bottom: none;             /* No border on last item */\n      padding-bottom: 0;               /* No padding */\n    \x7d\n\n    /* Course list - first element */\n    .course-list \x7b\n",
  "      list-style: none;                /* Remove default bullets */\n      padding-left: 0;                 /* Remove left padding */\n      margin: 0;                       /* No margin */\n    \x7d\n\n    /* Course list item */\n    .course-list-item \x7b\n",
  "      padding: 0.05rem 0;              /* Minimal vertical padding */\n      padding-left: 1rem;              /* Indent */\n      position: relative;              /* For bullet positioning */\n      font-size: 0.9rem;               /* Font size */\n    \x7d\n    \n    /* Custom bullet */\n",
  "    .course-list-item::before \x7b\n      content: \"•\";                    /* Bullet */\n      position: absolute;              /* Position absolutely */\n      left: 0;                         /* At left edge */\n      color: var(--text-color);        /* Text color */\n    \x7d\n    \n    /* Course code */\n",
  "    .course-code \x7b\n      font-weight: 600;                /* Semi-bold */\n      color: var(--text-color);        /* Text color */\n      margin-right: 0.25rem;           /* Space after code */\n    \x7d\n    \n    /* Course name */\n    .course-name \x7b\n      color: var(--text-color);        /* Text color */\n",
  "    \x7d\n\n    /* Course semesters */\n    .course-semesters \x7b\n      color: var(--text-color);        /* Text color */\n      font-size: 0.85rem;              /* Smaller font */\n      margin-left: 0.25rem;            /* Space before */\n    \x7d\n\n    /* Course host (for guest lectures) */\n    .course-host \x7b\n",
  "      color: var(--text-muted);        /* Muted color */\n      font-size: 0.85rem;              /* Smaller font */\n      margin-left: 0.25rem;            /* Space before */\n      font-style: italic;              /* Italic */\n    \x7d\n\n    /* Role description - second element */\n    .role-description \x7b\n",
  "      font-size: 0.9rem;               /* Smaller font */\n      color: var(--text-color);        /* Text color */\n      line-height: 1.6;                /* Line height */\n      margin: 0.2rem 0;                /* Small vertical margin */\n    \x7d\n\n",
  "    /* Role meta - last element (role, institution, location, period) */\n    .role-meta \x7b\n      font-size: 0.85rem;              /* Smaller font */\n      color: var(--text-muted);        /* Muted color */\n      margin-top: 0.15rem;             /* Small space above */\n    \x7d\n    \n",
  "    /* Role title (Teaching Assistant, Lecturer, etc.) */\n    .role-title \x7b\n      font-weight: 400;                /* Normal weight - no bold */\n      color: var(--text-color);        /* Black color */\n    \x7d\n    \n    /* Role institution */\n    .role-institution \x7b\n",
  "      font-weight: 400;                /* Normal weight */\n    \x7d\n    \n    /* Role department */\n    .role-department \x7b\n      font-weight: 400;                /* Normal weight */\n    \x7d\n    \n    /* Role period */\n    .role-period \x7b\n      color: var(--text-muted);        /* Muted color */\n    \x7d\n\n",
  "    /* Mentoring section */\n    .mentoring-section \x7b\n      margin-bottom: 2rem;             /* Space below section */\n    \x7d\n\n    /* Mentoring category */\n    .mentoring-category \x7b\n      margin-bottom: 0.75rem;          /* Space between categories */\n    \x7d\n    \n    /* Category heading */\n",
  "    .category-heading \x7b\n      font-family: \x27Roboto Slab\x27, serif;  /* Serif font */\n      font-size: 1rem;                 /* Standard size */\n      font-weight: 600;                /* Semi-bold */\n      color: var(--accent-color);      /* Accent color from theme */\n",
  "      margin-bottom: 0.5rem;           /* Space below heading */\n    \x7d\n\n    /* Individual student item */\n    .student-item \x7b\n      margin-bottom: 0.75rem;          /* Space between students */\n      padding-left: 1rem;              /* Indent */\n",
  "      border-left: 2px solid var(--border-color);  /* Left border */\n    \x7d\n    \n    /* Student name */\n    .student-name \x7b\n      font-weight: 600;                /* Semi-bold */\n      color: var(--text-color);        /* Text color */\n    \x7d\n    \n    /* Student program */\n    .student-program \x7b\n",
  "      font-size: 0.85rem;              /* Smaller font */\n      color: var(--text-color);        /* Text color */\n    \x7d\n    \n    /* Student institution */\n    .student-institution \x7b\n      font-size: 0.85rem;              /* Smaller font */\n      color: var(--text-color);        /* Muted color */\n",
  "      font-style: italic;              /* Italic */\n    \x7d\n"
]

/-- `get_teaching_css()`. -/
def get_teaching_css : String := cat tcL1

/-- The `host_html` local of `generate_course_html`. -/
def courseHostHtml (course : Course) : String :=
  if truthyStr course.host then
    cat [" <span class=\"course-host\">[Host: ", course.host.getD "", "]</span>"]
  else ""

def tcoL1 : List String := [
  "<li class=\"course-list-item\">\n            <span class=\"course-code\">"
]
def tcoL2 : List String := [
  "</span>\n            <span class=\"course-name\">"
]
def tcoL3 : List String := [
  "</span>\n            <span class=\"course-semesters\">("
]
def tcoL4 : List String := [
  ")</span>"
]
def tcoL5 : List String := [
  "\n          </li>"
]

/-- `generate_course_html(course)`. -/
def generate_course_html (course : Course) : Except String String := do
  let sems ← req course.semesters "semesters"
  let semesters := pyJoin ", " sems
  let host_html := courseHostHtml course
  let code ← req course.code "code"
  let cname ← req course.name "name"
  Except.ok (cat (tcoL1 ++ [code] ++ tcoL2 ++ [cname] ++ tcoL3 ++ [semesters] ++ tcoL4 ++ [host_html] ++ tcoL5))

/-- The `department_html` local of `generate_role_section_html`. -/
def departmentHtml (department : String) : String :=
  if !(department == "") then
    cat ["<span class=\"role-department\">", department, "</span>, "]
  else ""

def troL1 : List String := [
  "<div class=\"role-section\">\n        <ul class=\"course-list\">\n          "
]
def troL2 : List String := [
  "\n        </ul>\n        <p class=\"role-description\">"
]
def troL3 : List String := [
  "</p>\n        <div class=\"role-meta\">\n          <span class=\"role-title\">"
]
def troL4 : List String := [
  "</span>, \n          "
]
def troL5 : List String := [
  "<span class=\"role-institution\">"
]
def troL6 : List String := [
  "</span>, \n          <span class=\"role-location\">"
]
def troL7 : List String := [
  "</span>\n          <span class=\"role-period\">("
]
def troL8 : List String := [
  ")</span>\n        </div>\n      </div>"
]

/-- `generate_role_section_html(role_group)`. -/
def generate_role_section_html (role_group : RoleGroup) : Except String String := do
  let role ← req role_group.role "role"
  let institution ← req role_group.institution "institution"
  let department := role_group.department.getD ""
  let location ← req role_group.location "location"
  let period ← req role_group.period "period"
  let descr ← req role_group.description "description"
  let clist ← req role_group.courses_list "courses_list"
  let citems ← clist.mapM generate_course_html
  let courses_html := pyJoin "\n          " citems
  let department_html := departmentHtml department
  Except.ok (cat (troL1 ++ [courses_html] ++ troL2 ++ [descr] ++ troL3 ++ [role] ++ troL4 ++ [department_html] ++ troL5 ++ [institution] ++ troL6 ++ [location] ++ troL7 ++ [period] ++ troL8))

/-- `generate_courses_html(courses)`. -/
def generate_courses_html (courses : List RoleGroup) : Except String String := do
  let sections ← courses.mapM generate_role_section_html
  Except.ok (pyJoin "\n      " sections)

def tstL1 : List String := [
  "<div class=\"student-item\">\n            <div class=\"student-name\">"
]
def tstL2 : List String := [
  "</div>\n            <div class=\"student-program\">"
]
def tstL3 : List String := [
  " ("
]
def tstL4 : List String := [
  ")</div>\n            <div class=\"student-institution\">"
]
def tstL5 : List String := [
  "</div>\n          </div>"
]

/-- `generate_student_html(student)`. -/
def generate_student_html (student : Student) : Except String String := do
  let sname ← req student.name "name"
  let program ← req student.program "program"
  let period ← req student.period "period"
  let institution ← req student.institution "institution"
  Except.ok (cat (tstL1 ++ [sname] ++ tstL2 ++ [program] ++ tstL3 ++ [period] ++ tstL4 ++ [institution] ++ tstL5))

def tmcL1 : List String := [
  "<div class=\"mentoring-category\">\n          <h4 class=\"category-heading\">"
]
def tmcL2 : List String := [
  "</h4>\n          "
]
def tmcL3 : List String := [
  "\n        </div>"
]

/-- `generate_mentoring_category_html(category)`. -/
def generate_mentoring_category_html (category : MentoringCategory) : Except String String := do
  let category_type ← req category.category_type "type"
  let students ← req category.students "students"
  let sitems ← students.mapM generate_student_html
  let students_html := pyJoin "\n          " sitems
  Except.ok (cat (tmcL1 ++ [category_type] ++ tmcL2 ++ [students_html] ++ tmcL3))

/-- `generate_mentoring_html(mentoring)`. -/
def generate_mentoring_html (mentoring : List MentoringCategory) : Except String String := do
  let cats ← mentoring.mapM generate_mentoring_category_html
  Except.ok (pyJoin "\n        " cats)

/-- The `head_html` local of `build_html` in build_teaching.py: the
sidebar IS passed to `get_head_html`; teaching CSS inserted via
`str.replace`. -/
def head_htmlTeaching (content : ContentTeaching) (sidebar : SidebarDoc) : Except String String := do
  let meta ← req content.meta "meta"
  let title ← req meta.title "title"
  let description ← req meta.description "description"
  Except.ok (pyReplace (get_head_html title description (some sidebar)) "</style>" (get_teaching_css ++ "</style>"))

def tbL1 : List String := [
  "<!DOCTYPE html>\n<html lang=\"en\">\n"
]
def tbL2 : List String := [
  "\n<body>\n  <!-- Navigation Bar -->\n  <nav>\n    <div class=\"nav-container\">\n      <!-- Brand/Logo link to home -->\n      <a href=\"index.html\" class=\"nav-brand\">"
]
def tbL3 : List String := [
  "</a>\n      \n      <!-- Mobile hamburger menu button -->\n      <button class=\"nav-toggle\" aria-label=\"Toggle navigation\">\n        <i class=\"fas fa-bars\"></i>\n      </button>\n      \n      <!-- Navigation links - teaching is active -->\n      <ul class=\"nav-links\">\n        "
]
def tbL4 : List String := [
  "\n      </ul>\n      \n      <!-- Dark/light theme toggle button -->\n      <button class=\"theme-toggle\" aria-label=\"Toggle dark mode\">\n        <i class=\"fas fa-moon\"></i>\n      </button>\n    </div>\n  </nav>\n\n  <!-- Two-Column Layout Container -->\n  <div class=\"page-wrapper\">\n",
  "    <!-- Left Sidebar with Profile -->\n    "
]
def tbL5 : List String := [
  "\n\n    <!-- Main Content Area -->\n    <main class=\"main-content\">\n      <!-- Courses Section -->\n      <section class=\"courses-section\">\n        <h2 class=\"section-heading\">Courses</h2>\n        "
]
def tbL6 : List String := [
  "\n      </section>\n\n      <!-- Mentoring Section -->\n      <section class=\"mentoring-section\">\n        <h2 class=\"section-heading\">Mentoring</h2>\n        "
]
def tbL7 : List String := [
  "\n      </section>\n    </main>\n  </div>\n\n  <!-- Page Footer -->\n  "
]
def tbL8 : List String := [
  "\n\n  <!-- JavaScript for Navigation and Theme Toggle -->\n  <script>"
]
def tbL9 : List String := [
  "</script>\n</body>\n</html>"
]

/-- `build_html(content, sidebar)` of build_teaching.py. -/
def build_htmlTeaching (content : ContentTeaching) (sidebar : SidebarDoc) : Except String String := do
  let head_html ← head_htmlTeaching content sidebar
  let courses ← req content.courses "courses"
  let courses_html ← generate_courses_html courses
  let mentoring ← req content.mentoring "mentoring"
  let mentoring_html ← generate_mentoring_html mentoring
  let nav_brand ← get_nav_brand sidebar
  let sidebar_html ← get_sidebar_html sidebar
  let footer_html ← get_footer_html sidebar
  Except.ok (cat (tbL1 ++ [head_html] ++ tbL2 ++ [nav_brand] ++ tbL3 ++ [get_nav_html "teaching" none] ++ tbL4 ++ [sidebar_html] ++ tbL5 ++ [courses_html] ++ tbL6 ++ [mentoring_html] ++ tbL7 ++ [footer_html] ++ tbL8 ++ [get_js_code] ++ tbL9))

/- ============================================================
   The build drivers (`main` of each script), modelled over a small
   file-system environment.  `sidebarFile` / `contentFile` are the
   parsed input files when they exist; `output` is the current content
   of the output HTML file.  A run returns the exit code (`Except.ok`)
   or the uncaught exception (`Except.error`), the observable trace
   (prints, loads, writes) in order, and the updated environment.
   ============================================================ -/

/-- File-system environment seen by one build driver. -/
structure BuildEnv (α : Type) where
  sidebarFile : Option SidebarDoc := none
  contentFile : Option α := none
  output : Option String := none

/-- One observable step of a driver run. -/
inductive BuildStep where
  | printed (msg : String)
  | loadedSidebar
  | loadedContent
  | wrote (path : String)
deriving DecidableEq

/-- Result of one driver run. -/
structure RunResult (α : Type) where
  result : Except String Nat
  trace : List BuildStep
  env : BuildEnv α

/-- Generic driver body shared by the four `main` functions: check the
two inputs exist, load them, build, write.  `contentName` and
`outputName` are the per-script file names, `build` the per-script
`build_html`. -/
def runDriver {α : Type} (contentName outputName : String)
    (build : α → SidebarDoc → Except String String)
    (env : BuildEnv α) : RunResult α :=
  match env.sidebarFile with
  | none => ⟨Except.ok 1, [BuildStep.printed "Error: sidebar.json not found."], env⟩
  | some sb =>
    match env.contentFile with
    | none => ⟨Except.ok 1, [BuildStep.printed (cat ["Error: ", contentName, " not found."])], env⟩
    | some content =>
      let pre : List BuildStep :=
        [BuildStep.printed "Loading sidebar from sidebar.json...",
         BuildStep.loadedSidebar,
         BuildStep.printed (cat ["Loading content from ", contentName, "..."]),
         BuildStep.loadedContent,
         BuildStep.printed (cat ["Building ", outputName, "..."])]
      match build content sb with
      | Except.error e => ⟨Except.error e, pre, env⟩
      | Except.ok html =>
        ⟨Except.ok 0,
         pre ++ [BuildStep.printed (cat ["Writing to ", outputName, "..."]),
                 BuildStep.wrote outputName,
                 BuildStep.printed "Done!"],
         { env with output := some html }⟩

/-- `main()` of build_index.py. -/
def mainIndex (env : BuildEnv ContentIndex) : RunResult ContentIndex :=
  runDriver "content_index.json" "index.html" build_htmlIndex env

/-- `main()` of build_research.py. -/
def mainResearch (env : BuildEnv ContentResearch) : RunResult ContentResearch :=
  runDriver "content_research.json" "research.html" build_htmlResearch env

/-- `main()` of build_publications.py. -/
def mainPublications (env : BuildEnv ContentPubs) : RunResult ContentPubs :=
  runDriver "content_publications.json" "publications.html" build_htmlPubs env

/-- `main()` of build_teaching.py. -/
def mainTeaching (env : BuildEnv ContentTeaching) : RunResult ContentTeaching :=
  runDriver "content_teaching.json" "teaching.html" build_htmlTeaching env

/- ============================================================
   Concrete documents used by witnesses and counterexamples.
   ============================================================ -/

/-- Profile with two bio lines and no `bio` key. -/
def exProfileLines : Profile := { name := some "Jane Doe", bio_lines := some ["A", "B"] }

/-- Profile with only a `bio` paragraph. -/
def exProfileBio : Profile := { name := some "Jane Doe", bio := some "Short bio." }

/-- Minimal well-formed footer. -/
def exFooter : FooterDoc := { copyright_year := some "2025", copyright_name := some "Jane Doe" }

/-- Minimal well-formed sidebar document (no theme). -/
def exSidebar : SidebarDoc :=
  { nav_brand := some "Jane Doe", profile := some exProfileLines, footer := some exFooter }

/-- Sidebar document whose theme declares the light accent colour
`#123456`. -/
def exSidebarTheme : SidebarDoc :=
  { exSidebar with theme := some { light := some { accent_color := some "#123456" } } }

/-- Minimal well-formed `content_index.json`. -/
def exContentIndex : ContentIndex :=
  { meta := some { title := some "Home", description := some "Bio page" },
    bio := some ["Hello."], affiliations := some [], news := some [] }

/-- `content_index.json` with the required `meta` key removed. -/
def exContentIndexNoMeta : ContentIndex := { exContentIndex with meta := none }

/-- The `<head>` emitted by the biography build for `exContentIndex`
(the sidebar is not part of the computation). -/
def exHeadIndex : String := get_base_head_html "Home" "Bio page" get_index_css none

/-- A paper entry with no `image` key. -/
def exPaperNoImage : Paper := { title := some "A Paper", venue := some "A Venue" }

/-- Affiliation whose `logo_icon` is an `.svg` path. -/
def exAffSvg : Affiliation :=
  { institution := some "U", role := some "Prof", logo_icon := some "logos/univ.svg" }

/-- Affiliation whose `logo_icon` is a Font Awesome class. -/
def exAffIcon : Affiliation :=
  { institution := some "U", role := some "Prof", logo_icon := some "fa-university" }

/-- Minimal well-formed `content_publications.json` (no
`conference_abstracts` key). -/
def exContentPubs : ContentPubs :=
  { meta := some { title := some "Publications", description := some "Papers" },
    intro := some { title := some "Publications", description := some "All papers.", links := some [] },
    publications := some [] }

/-- A year group holding one paper. -/
def exYearGroup : YearGroup := { year := some "2024", papers := some [exPaperNoImage] }

/-- `content_publications.json` with a non-empty
`conference_abstracts` list. -/
def exContentPubsAbs : ContentPubs := { exContentPubs with conference_abstracts := some [exYearGroup] }

/-- Minimal well-formed `content_research.json`. -/
def exContentResearch : ContentResearch :=
  { meta := some { title := some "Research", description := some "Research page" },
    interests := some ["ML"], projects := some [] }

/-- Minimal well-formed `content_teaching.json`. -/
def exContentTeaching : ContentTeaching :=
  { meta := some { title := some "Teaching", description := some "Teaching page" },
    courses := some [], mentoring := some [] }

/-- Environment with both input files present (index). -/
def exEnvIndex : BuildEnv ContentIndex :=
  { sidebarFile := some exSidebar, contentFile := some exContentIndex, output := some "old" }

/-- Environment whose content file lacks the `meta` key. -/
def exEnvIndexNoMeta : BuildEnv ContentIndex :=
  { sidebarFile := some exSidebar, contentFile := some exContentIndexNoMeta, output := some "old" }

/-- Environment with `sidebar.json` missing (index). -/
def exEnvIndexNoSidebar : BuildEnv ContentIndex :=
  { contentFile := some exContentIndex, output := some "old" }

/-- Environment with the content file missing (publications). -/
def exEnvPubsNoContent : BuildEnv ContentPubs :=
  { sidebarFile := some exSidebar, output := some "old" }

/- ============================================================
   Markers and fragments referenced by the theorem statements.
   ============================================================ -/

/-- The five page identifiers of the navigation table. -/
def navPageIds : List String := ["bio", "research", "publications", "teaching", "cv"]

/-- The active-class marker attached to the active navigation anchor. -/
def activeMark : String := " class=\"active\""

/-- Opening tag of one sidebar bio line. -/
def spanOpenStr : String := "<span class=\"bio-line\">"

/-- Opening tag of the paragraph-style sidebar bio. -/
def paraOpenStr : String := "<p class=\"author__bio\">"

/-- The conference-abstracts section heading text. -/
def headingStr : String := "Selected Conference Abstracts"

/-- The CV anchor with an explicit href. -/
def cvAnchor (href : String) : String :=
  cat ["<li><a href=\"", href, "\" target=\"_blank\" rel=\"noopener\">CV</a></li>"]

/-- The Biography anchor carrying the active class. -/
def bioAnchorActive : String := "<li><a href=\"index.html\" class=\"active\">Biography</a></li>"

/-- The inactive Research anchor. -/
def researchAnchor : String := "<li><a href=\"research.html\">Research</a></li>"

/-- The inactive Publications anchor. -/
def publicationsAnchor : String := "<li><a href=\"publications.html\">Publications</a></li>"

/-- The inactive Teaching anchor. -/
def teachingAnchor : String := "<li><a href=\"teaching.html\">Teaching</a></li>"

/-- Navigation markup of the research page (active page `research`,
no sidebar passed, hence the default `cv.pdf` CV target). -/
def researchNavHtml : String :=
  "<li><a href=\"index.html\">Biography</a></li>\n        <li><a href=\"research.html\" class=\"active\">Research</a></li>\n        <li><a href=\"publications.html\">Publications</a></li>\n        <li><a href=\"teaching.html\">Teaching</a></li>\n        <li><a href=\"cv.pdf\" target=\"_blank\" rel=\"noopener\">CV</a></li>"

/-- Navigation markup of the publications page. -/
def publicationsNavHtml : String :=
  "<li><a href=\"index.html\">Biography</a></li>\n        <li><a href=\"research.html\">Research</a></li>\n        <li><a href=\"publications.html\" class=\"active\">Publications</a></li>\n        <li><a href=\"teaching.html\">Teaching</a></li>\n        <li><a href=\"cv.pdf\" target=\"_blank\" rel=\"noopener\">CV</a></li>"

/-- Navigation markup of the teaching page. -/
def teachingNavHtml : String :=
  "<li><a href=\"index.html\">Biography</a></li>\n        <li><a href=\"research.html\">Research</a></li>\n        <li><a href=\"publications.html\">Publications</a></li>\n        <li><a href=\"teaching.html\" class=\"active\">Teaching</a></li>\n        <li><a href=\"cv.pdf\" target=\"_blank\" rel=\"noopener\">CV</a></li>"

/-- `s` cannot start an occurrence of `"<"`: the string contains no
markup opener, so it cannot inject elements into the page. -/
def CleanStr (s : String) : Bool := safeB "<".data s.data

/-- All strings of a profile, as used by the sidebar generators, are
clean. -/
def CleanProfile (p : Profile) : Bool :=
  CleanStr (p.image.getD "") && CleanStr (p.name.getD "")
    && ((p.bio_lines.getD []).all CleanStr) && CleanStr (p.bio.getD "")

/-- All strings of a sidebar link, as used by `sidebarLinkItem`, are
clean. -/
def CleanLink (l : SideLink) : Bool :=
  CleanStr (l.icon.getD "fas fa-link") && CleanStr (l.label.getD "") && CleanStr (l.url.getD "")

/-- The avatar markup produced by `_generate_profile_image` once the
required `name` lookup has succeeded. -/
def profileImageHtml (p : Profile) (nm : String) : String :=
  if truthyStr p.image then
    cat ["<img src=\"", p.image.getD "", "\" alt=\"", nm, "\">"]
  else "<i class=\"fas fa-user\"></i>"

/-- The full sidebar markup produced by `get_sidebar_html` once the
required `profile` and `name` lookups have succeeded. -/
def sidebarPage (sb : SidebarDoc) (p : Profile) (nm : String) : String :=
  cat (shL1 ++ [profileImageHtml p nm] ++ shL2 ++ [nm] ++ shL3 ++ [bio_html p]
    ++ shL4 ++ [generate_sidebar_links (sb.sidebar_links.getD [])] ++ shL5)

/-- The paper fragment with thumbnail, as assembled by
`generate_paper_html` when `show_image` holds. -/
def paperImgPage (title authors venue links_html image : String) : String :=
  cat (piL1 ++ [image] ++ piL2 ++ [title] ++ piL3 ++ [title] ++ piL4 ++ [authors]
    ++ piL5 ++ [venue] ++ piL6 ++ [links_html] ++ piL7)

/-- The fixed placeholder thumbnail path. -/
def placeholderPath : String := "assets/img/pub_placeholder.png"

/-- The background-image logo div of an affiliation. -/
def affLogoBgHtml (path : String) : String :=
  cat ["<div class=\"affiliation-logo\" style=\"background-image: url(\x27", path, "\x27);\"></div>"]

/-- The affiliation fragment with an explicit logo block. -/
def affItemPage (logo inst role dept : String) : String :=
  cat ["<div class=\"affiliation-item\">\n          ", logo,
    "\n          <div class=\"affiliation-info\">\n            <h3>", inst,
    "</h3>\n            <p class=\"role\">", role,
    "</p>\n            <p class=\"department\">", dept,
    "</p>\n          </div>\n        </div>"]

/-- The background-image style reference carrying an explicit path. -/
def bgUrlPat (path : String) : String :=
  cat ["background-image: url(\x27", path, "\x27);"]

/-- The scanned part of the head during the page-CSS `str.replace`:
everything before the closing `"\n  </style>\n</head>"` (this prefix
contains no `</style>` for sane inputs). -/
def headFront (title description : String) (sidebar : Option SidebarDoc) : String :=
  cat (bhL1 ++ [description] ++ bhL2 ++ [title] ++ bhL3 ++ [get_base_css sidebar] ++ ["\n", ""])

/-- The head produced by `get_head_html` after the page CSS has been
inserted before the closing style tag by `str.replace`. -/
def replacedHead (title description : String) (sidebar : Option SidebarDoc) (css : String) : String :=
  headFront title description sidebar ++ ("\n  " ++ ((css ++ "</style>") ++ "\n</head>"))

/-- The light-mode run of the CSS variable block: the four resolved
light colours in their `:root` slots. -/
def lightRun (sidebar : Option SidebarDoc) : String :=
  cat ["--accent-color: ", accent_light sidebar, ";\n      --accent-hover: ", accent_hover_light sidebar,
    ";\n      --action-link-color: ", link_color_light sidebar, ";\n      --action-link-hover: ",
    link_hover_light sidebar, ";"]

/-- The dark-mode run of the CSS variable block: the four resolved dark
colours in their `[data-theme="dark"]` slots. -/
def darkRun (sidebar : Option SidebarDoc) : String :=
  cat ["--accent-color: ", accent_dark sidebar, ";\n      --accent-hover: ", accent_hover_dark sidebar,
    ";\n      --action-link-color: ", link_color_dark sidebar, ";\n      --action-link-hover: ",
    link_hover_dark sidebar, ";"]

/-- The paper fragment without thumbnail, as assembled by
`generate_paper_html` when `show_image` is false. -/
def paperNoImgPage (title authors venue links_html : String) : String :=
  cat (pnL1 ++ [title] ++ pnL2 ++ [authors] ++ pnL3 ++ [venue] ++ pnL4 ++ [links_html] ++ pnL5)

/-- The publications page with every interpolated fragment explicit. -/
def pubsPage (head nb sh it idesc il ph cab fh : String) : String :=
  cat (pbL1 ++ [head] ++ pbL2 ++ [nb] ++ pbL3 ++ [get_nav_html "publications" none] ++ pbL4
    ++ [sh] ++ pbL5 ++ [it] ++ pbL6 ++ [idesc] ++ pbL7 ++ [il] ++ pbL8 ++ [ph] ++ pbL9
    ++ [cab] ++ pbL10 ++ [fh] ++ pbL11 ++ [get_js_code] ++ pbL12)
/- Decomposition of the base CSS around the two theme colour runs. -/

/-- The base CSS text preceding the light-mode accent declaration. -/
def cssPreLightL : List String := [
  "\n    /* ============================================\n       CSS VARIABLES\n       ============================================ */\n    :root \x7b\n      --primary-color: #494e52;\n      --link-color: #494e52;\n      --link-hover: #000000;\n      --text-color: #494e52;\n      --text-muted: #494e52;\n",
  "      --bg-color: #ffffff;\n      --bg-sidebar: #ffffff;\n      --border-color: #e0e0e0;\n      --shadow: 0 1px 1px rgba(0,0,0,0.125);\n      --sidebar-width: 260px;\n      --nav-height: 50px;\n      "
]

/-- The base CSS text strictly between the light-mode and dark-mode
colour runs. -/
def cssMidL : List String := [
  "\n    \x7d\n\n    /* ============================================\n       BASE STYLES\n       ============================================ */\n    *, *::before, *::after \x7b box-sizing: border-box; margin: 0; padding: 0; \x7d\n    html \x7b scroll-behavior: smooth; \x7d\n    body \x7b\n",
  "      font-family: \x27Roboto\x27, -apple-system, BlinkMacSystemFont, sans-serif;\n      font-size: 16px;\n      line-height: 1.6;\n      color: var(--text-color);\n      background-color: var(--bg-color);\n    \x7d\n\n    a \x7b color: var(--link-color); text-decoration: none; transition: color 0.2s ease; \x7d\n",
  "    a:hover \x7b color: var(--link-hover); text-decoration: underline; \x7d\n\n    /* ============================================\n       NAVIGATION BAR\n       ============================================ */\n    nav \x7b\n      position: fixed;\n      top: 0;\n      left: 0;\n      right: 0;\n",
  "      height: var(--nav-height);\n      background: var(--bg-color);\n      border-bottom: 1px solid var(--border-color);\n      z-index: 1000;\n      display: flex;\n      align-items: center;\n      justify-content: center;\n    \x7d\n\n    .nav-container \x7b\n      width: 100%;\n      max-width: 1400px;\n",
  "      padding: 0 1.5rem;\n      display: flex;\n      align-items: center;\n      justify-content: space-between;\n    \x7d\n\n    .nav-brand \x7b\n      font-family: \x27Roboto Slab\x27, serif;\n      font-size: 1.1rem;\n      font-weight: 700;\n      color: var(--text-color);\n      letter-spacing: -0.5px;\n    \x7d\n",
  "    .nav-brand:hover \x7b text-decoration: none; color: var(--link-color); \x7d\n\n    .nav-links \x7b display: flex; gap: 1.5rem; list-style: none; \x7d\n    .nav-links a \x7b \n      color: var(--text-muted); \n      font-size: 0.85rem; \n      font-weight: 400; \n      text-transform: uppercase;\n",
  "      letter-spacing: 0.5px;\n    \x7d\n    .nav-links a:hover, .nav-links a.active \x7b color: var(--text-color); text-decoration: none; \x7d\n\n    .nav-toggle \x7b\n      display: none;\n      background: none;\n      border: none;\n      font-size: 1.25rem;\n      cursor: pointer;\n      color: var(--text-color);\n",
  "    \x7d\n\n    .theme-toggle \x7b\n      background: none;\n      border: none;\n      cursor: pointer;\n      font-size: 1rem;\n      color: var(--text-muted);\n      padding: 0.4rem;\n      border-radius: 50%;\n    \x7d\n    .theme-toggle:hover \x7b color: var(--text-color); \x7d\n\n",
  "    /* ============================================\n       PAGE LAYOUT\n       ============================================ */\n    .page-wrapper \x7b\n      display: flex;\n      margin-top: var(--nav-height);\n      min-height: calc(100vh - var(--nav-height));\n      max-width: 1400px;\n",
  "      margin-left: auto;\n      margin-right: auto;\n    \x7d\n\n    /* ============================================\n       LEFT SIDEBAR\n       ============================================ */\n    .sidebar \x7b\n      width: var(--sidebar-width);\n      flex-shrink: 0;\n      background: var(--bg-color);\n",
  "      border-right: 1px solid var(--border-color);\n    \x7d\n\n    .sidebar-content \x7b\n      position: sticky;\n      top: calc(var(--nav-height) + 1rem);\n      padding: 1.5rem 1rem;\n    \x7d\n\n    .author__avatar \x7b\n      display: block;\n      width: 180px;\n      height: 180px;\n      margin: 0 0 0.75rem 0;\n",
  "    \x7d\n\n    .author__avatar img \x7b\n      width: 100%;\n      height: 100%;\n      border-radius: 50%;\n      object-fit: cover;\n      border: 1px solid var(--border-color);\n      padding: 3px;\n      background: var(--bg-color);\n    \x7d\n\n    .author__content \x7b\n      text-align: left;\n",
  "      margin-bottom: 1rem;\n    \x7d\n\n    .author__name \x7b\n      font-family: \x27Roboto Slab\x27, serif;\n      font-size: 1.1rem;\n      font-weight: 700;\n      color: var(--text-color);\n      margin-bottom: 0.25rem;\n    \x7d\n\n    .author__bio \x7b\n      font-size: 0.85rem;\n      color: var(--text-color);\n",
  "      line-height: 1.5;\n    \x7d\n\n    .author__bio .bio-line \x7b\n      display: block;\n      margin-bottom: 0;\n    \x7d\n\n    .author__urls-wrapper \x7b margin-top: 1rem; \x7d\n\n    .author__urls \x7b\n      list-style: none;\n      font-size: 0.8rem;\n    \x7d\n\n    .author__urls li \x7b\n      white-space: nowrap;\n",
  "      padding: 0.2rem 0;\n      color: var(--text-muted);\n    \x7d\n\n    .author__urls li i \x7b\n      width: 1.25em;\n      text-align: center;\n      margin-right: 0.4rem;\n      color: var(--text-muted);\n    \x7d\n\n    .author__urls a \x7b color: var(--text-color); \x7d\n",
  "    .author__urls a:hover \x7b color: var(--link-color); text-decoration: underline; \x7d\n    .author__urls a i \x7b color: var(--text-muted); \x7d\n\n    /* ============================================\n       MAIN CONTENT AREA\n       ============================================ */\n    .main-content \x7b\n",
  "      flex: 1;\n      padding: 2rem 3rem 2rem 2.5rem;\n    \x7d\n\n    /* Section headings */\n    .main-content h2 \x7b\n      font-family: \x27Roboto Slab\x27, serif;\n      font-size: 1.4rem;\n      font-weight: 700;\n      color: var(--text-color);\n      margin-bottom: 0.6rem;\n      padding-bottom: 0.4rem;\n",
  "      border-bottom: 1px solid var(--border-color);\n    \x7d\n\n    /* Section container */\n    .section \x7b margin-bottom: 2rem; \x7d\n\n    /* Default paragraph styling for sections */\n    .section > p \x7b\n      color: var(--text-color);\n      margin-bottom: 1.25rem;\n      text-align: justify;\n",
  "      font-size: 1.05rem;\n      line-height: 1.7;\n    \x7d\n\n    /* ============================================\n       FOOTER\n       ============================================ */\n    footer \x7b\n      padding: 1.25rem 1.5rem;\n      background: var(--bg-color);\n",
  "      border-top: 1px solid var(--border-color);\n      text-align: center;\n    \x7d\n\n    .footer-text \x7b color: var(--text-muted); font-size: 0.8rem; \x7d\n    .footer-text a \x7b color: var(--text-muted); \x7d\n\n    /* ============================================\n       DARK MODE\n",
  "       ============================================ */\n    [data-theme=\"dark\"] \x7b\n      --primary-color: #e2e2e2;\n      --link-color: #e2e2e2;\n      --link-hover: #ffffff;\n      --text-color: #e2e2e2;\n      --text-muted: #e2e2e2;\n      --bg-color: #252a34;\n      --bg-sidebar: #252a34;\n",
  "      --border-color: #3a3f4b;\n      "
]

/-- The base CSS text following the dark-mode colour run. -/
def cssPostL : List String := [
  "\n    \x7d\n\n    /* ============================================\n       RESPONSIVE - TABLET (<=900px)\n       ============================================ */\n    @media (max-width: 900px) \x7b\n      .page-wrapper \x7b flex-direction: column; \x7d\n\n      .sidebar \x7b\n        width: 100%;\n        border-right: none;\n",
  "        border-bottom: 1px solid var(--border-color);\n      \x7d\n\n      .sidebar-content \x7b\n        position: static;\n        padding: 1.25rem;\n        display: flex;\n        flex-direction: column;\n        align-items: center;\n      \x7d\n\n      .author__avatar \x7b width: 100px; height: 100px; \x7d\n\n",
  "      .author__urls \x7b\n        display: flex;\n        flex-wrap: wrap;\n        justify-content: center;\n        gap: 0.5rem 1rem;\n      \x7d\n\n      .main-content \x7b padding: 1.5rem; max-width: 100%; \x7d\n    \x7d\n\n    /* ============================================\n       RESPONSIVE - MOBILE (<=768px)\n",
  "       ============================================ */\n    @media (max-width: 768px) \x7b\n      .nav-links \x7b\n        display: none;\n        position: absolute;\n        top: var(--nav-height);\n        left: 0;\n        right: 0;\n        background: var(--bg-color);\n        flex-direction: column;\n",
  "        padding: 1rem 1.5rem;\n        gap: 0.75rem;\n        border-bottom: 1px solid var(--border-color);\n        box-shadow: var(--shadow);\n      \x7d\n      .nav-links.active \x7b display: flex; \x7d\n      .nav-toggle \x7b display: block; \x7d\n    \x7d\n"
]

/-- `cat` of the three decomposition segments. -/
def cssPreLight : String := cat cssPreLightL

def cssMid : String := cat cssMidL

def cssPost : String := cat cssPostL

/-- The publications head for `exContentPubs` with `exSidebar`. -/
def exHdPubs : String :=
  replacedHead "Publications" "Papers" (some exSidebar) get_publications_css

/-- The sidebar block for `exSidebar`. -/
def exShSidebar : String := sidebarPage exSidebar exProfileLines "Jane Doe"

/-- The footer for `exSidebar`. -/
def exFhFooter : String := cat (ftL1 ++ ["2025"] ++ ftL2 ++ ["Jane Doe"] ++ ftL3)

/-- The rendered abstracts for `exContentPubsAbs`: one 2024 year
section holding the no-thumbnail fragment of `exPaperNoImage`. -/
def exInnerAbs : String :=
  cat (ysL1 ++ ["2024"] ++ ysL2 ++ [paperNoImgPage "A Paper" "" "A Venue" ""] ++ ysL3)

/- ============================================================
   Infrastructure lemmas about `countOcc`, `safeB`, `NoHit`, `cat`,
   `replaceFuel` and `Contains`.
   ============================================================ -/

theorem noHit_nil (pat : List Char) : NoHit pat [] := by
  intro b r hb hne
  exact absurd (List.suffix_nil.mp hb) hne

theorem noHit_suffix {pat l l' : List Char} (h : NoHit pat l) (hs : l' <:+ l) : NoHit pat l' := by
  intro b r hb hne
  exact h b r (hb.trans hs) hne

theorem countOcc_eq_append_of_noHit {pat a : List Char} (h : NoHit pat a) :
    ∀ r, countOcc pat (a ++ r) = countOcc pat r := by
  induction a with
  | nil => intro r; rfl
  | cons c rest ih =>
    intro r
    have hno : ¬ (List.isPrefixOf pat ((c :: rest) ++ r) = true) :=
      h (c :: rest) r (List.suffix_refl _) (by simp)
    have hrest : NoHit pat rest := noHit_suffix h (List.suffix_cons c rest)
    calc countOcc pat ((c :: rest) ++ r)
        = (if List.isPrefixOf pat (c :: (rest ++ r)) then 1 else 0) + countOcc pat (rest ++ r) := rfl
      _ = countOcc pat (rest ++ r) := by
          rw [if_neg (by simpa using hno), Nat.zero_add]
      _ = countOcc pat r := ih hrest r

theorem countOcc_eq_zero_of_noHit {pat l : List Char} (h : NoHit pat l) :
    countOcc pat l = 0 := by
  have := countOcc_eq_append_of_noHit h []
  simpa using this

theorem suffix_append_cases {α : Type} {s a b : List α} (h : s <:+ a ++ b) :
    s <:+ b ∨ ∃ s', s' <:+ a ∧ s = s' ++ b := by
  induction a with
  | nil => exact Or.inl (by simpa using h)
  | cons c a' ih =>
    rw [List.cons_append, List.suffix_cons_iff] at h
    rcases h with h | h
    · exact Or.inr ⟨c :: a', List.suffix_refl _, by simpa using h⟩
    · rcases ih h with h' | ⟨s', hs', rfl⟩
      · exact Or.inl h'
      · exact Or.inr ⟨s', hs'.trans (List.suffix_cons c a'), rfl⟩

theorem noHit_append {pat a b : List Char} (ha : NoHit pat a) (hb : NoHit pat b) :
    NoHit pat (a ++ b) := by
  intro s r hs hne
  rcases suffix_append_cases hs with h | ⟨s', hs', rfl⟩
  · exact hb s r h hne
  · by_cases h0 : s' = []
    · subst h0
      exact hb b r (List.suffix_refl _) (by simpa using hne)
    · have := ha s' (b ++ r) hs' h0
      simpa [List.append_assoc] using this

theorem safeB_cons (pat : List Char) (c : Char) (rest : List Char) :
    safeB pat (c :: rest)
      = (!(List.isPrefixOf pat (c :: rest)) && !(List.isPrefixOf (c :: rest) pat) && safeB pat rest) := rfl

theorem noHit_of_safeB {pat l : List Char} (h : safeB pat l = true) : NoHit pat l := by
  induction l with
  | nil => exact noHit_nil pat
  | cons c rest ih =>
    have h' := h
    rw [safeB_cons] at h'
    rw [Bool.and_eq_true, Bool.and_eq_true] at h'
    obtain ⟨⟨h1, h2⟩, h3⟩ := h'
    have hp1 : List.isPrefixOf pat (c :: rest) = false := by simpa using h1
    have hp2 : List.isPrefixOf (c :: rest) pat = false := by simpa using h2
    have hrest : safeB pat rest = true := h3
    intro b r hb hne
    rcases List.suffix_cons_iff.mp hb with hb' | hb'
    · subst hb'
      intro hpre
      have hpre' : pat <+: (c :: rest) ++ r := List.isPrefixOf_iff_prefix.mp hpre
      have hself : (c :: rest) <+: (c :: rest) ++ r := List.prefix_append _ _
      rcases List.prefix_or_prefix_of_prefix hpre' hself with hc | hc
      · rw [← List.isPrefixOf_iff_prefix] at hc
        simp [hc] at hp1
      · rw [← List.isPrefixOf_iff_prefix] at hc
        simp [hc] at hp2
    · exact ih hrest b r hb' hne

theorem noHit_of_head {p0 : Char} {pt l : List Char}
    (h : ∀ c ∈ l, ¬ (c = p0)) : NoHit (p0 :: pt) l := by
  intro b r hb hne
  match b, hne with
  | c :: b', _ =>
    intro hpre
    have hpre' : (p0 :: pt) <+: c :: (b' ++ r) := List.isPrefixOf_iff_prefix.mp hpre
    rcases hpre' with ⟨t, ht⟩
    rw [List.cons_append] at ht
    have hc : p0 = c := (List.cons.injEq _ _ _ _ ▸ ht).1
    exact h c (hb.subset (List.mem_cons_self c b')) hc.symm

theorem data_cat_cons (s : String) (xs : List String) :
    (cat (s :: xs)).data = s.data ++ (cat xs).data := by
  simp [cat, String.data_append]

theorem noHit_cat {pat : List Char} {xs : List String}
    (h : ∀ s ∈ xs, NoHit pat s.data) : NoHit pat (cat xs).data := by
  induction xs with
  | nil => exact noHit_nil pat
  | cons x xs ih =>
    rw [data_cat_cons]
    exact noHit_append (h x (by simp)) (ih (fun s hs => h s (by simp [hs])))

theorem noHit_of_safeB_all {pat : List Char} {xs : List String}
    (h : (xs.all fun s => safeB pat s.data) = true) : ∀ s ∈ xs, NoHit pat s.data := by
  intro s hs
  exact noHit_of_safeB (List.all_eq_true.mp h s hs)

theorem countOcc_cat_zero {pat : List Char} {xs : List String}
    (h : ∀ s ∈ xs, NoHit pat s.data) : countOcc pat (cat xs).data = 0 :=
  countOcc_eq_zero_of_noHit (noHit_cat h)

theorem countOcc_self_append {pat : List Char} {p0 : Char} {pt : List Char}
    (hp : pat = p0 :: pt) (hsafe : NoHit pat pt) (r : List Char) :
    countOcc pat (pat ++ r) = 1 + countOcc pat r := by
  subst hp
  have hpre : List.isPrefixOf (p0 :: pt) ((p0 :: pt) ++ r) = true :=
    List.isPrefixOf_iff_prefix.mpr (List.prefix_append _ _)
  calc countOcc (p0 :: pt) ((p0 :: pt) ++ r)
      = (if List.isPrefixOf (p0 :: pt) (p0 :: (pt ++ r)) then 1 else 0)
          + countOcc (p0 :: pt) (pt ++ r) := rfl
    _ = 1 + countOcc (p0 :: pt) (pt ++ r) := by rw [if_pos (by simpa using hpre)]
    _ = 1 + countOcc (p0 :: pt) r := by rw [countOcc_eq_append_of_noHit hsafe r]

theorem countOcc_pos {pat : List Char} (hne : pat ≠ []) (a b : List Char) :
    1 ≤ countOcc pat (a ++ pat ++ b) := by
  induction a with
  | nil =>
    match pat, hne with
    | p0 :: pt, _ =>
      have hpre : List.isPrefixOf (p0 :: pt) ((p0 :: pt) ++ b) = true :=
        List.isPrefixOf_iff_prefix.mpr (List.prefix_append _ _)
      calc 1 ≤ (if List.isPrefixOf (p0 :: pt) (p0 :: (pt ++ b)) then 1 else 0) := by
              rw [if_pos (by simpa using hpre)]
        _ ≤ (if List.isPrefixOf (p0 :: pt) (p0 :: (pt ++ b)) then 1 else 0)
              + countOcc (p0 :: pt) (pt ++ b) := Nat.le_add_right _ _
        _ = countOcc (p0 :: pt) (([] : List Char) ++ (p0 :: pt) ++ b) := rfl
  | cons c a' ih =>
    calc 1 ≤ countOcc pat (a' ++ pat ++ b) := ih
      _ ≤ (if List.isPrefixOf pat (c :: (a' ++ pat ++ b)) then 1 else 0)
            + countOcc pat (a' ++ pat ++ b) := Nat.le_add_left _ _
      _ = countOcc pat ((c :: a') ++ pat ++ b) := rfl

theorem contains_trans {p q s : String} (hpq : Contains p q) (hqs : Contains q s) :
    Contains p s := by
  obtain ⟨a, b, hab⟩ := hpq
  obtain ⟨x, y, hxy⟩ := hqs
  exact ⟨x ++ a, b ++ y, by rw [hxy, hab]; simp [List.append_assoc]⟩

theorem not_contains_of_countOcc_zero {p s : String} (hne : p.data ≠ [])
    (h : countOcc p.data s.data = 0) : ¬ Contains p s := by
  rintro ⟨a, b, hab⟩
  have := countOcc_pos hne a b
  rw [← hab] at this
  omega

theorem contains_of_append {p s : String} (x y : String) (h : s = x ++ (p ++ y)) :
    Contains p s := ⟨x.data, y.data, by rw [h]; simp [String.data_append]⟩

theorem replaceFuel_append_of_noHit {pat repl a : List Char} (h : NoHit pat a) :
    ∀ n r, replaceFuel pat repl (a.length + n) (a ++ r) = a ++ replaceFuel pat repl n r := by
  induction a with
  | nil => intro n r; simp
  | cons c rest ih =>
    intro n r
    have hno : ¬ (List.isPrefixOf pat ((c :: rest) ++ r) = true) :=
      h (c :: rest) r (List.suffix_refl _) (by simp)
    have hrest : NoHit pat rest := noHit_suffix h (List.suffix_cons c rest)
    have hlen : (c :: rest).length + n = Nat.succ (rest.length + n) := by
      simp [List.length_cons]; omega
    rw [hlen]
    show replaceFuel pat repl (Nat.succ (rest.length + n)) (c :: (rest ++ r))
        = c :: (rest ++ replaceFuel pat repl n r)
    rw [replaceFuel, if_neg (by simpa using hno), ih hrest n r]

theorem replaceFuel_eq_of_noHit {pat repl a : List Char} (h : NoHit pat a) :
    ∀ n, replaceFuel pat repl n a = a := by
  induction a with
  | nil => intro n; cases n <;> rfl
  | cons c rest ih =>
    intro n
    match n with
    | 0 => rfl
    | Nat.succ m =>
      have hno : ¬ (List.isPrefixOf pat ((c :: rest) ++ []) = true) :=
        h (c :: rest) [] (List.suffix_refl _) (by simp)
      rw [List.append_nil] at hno
      have hrest : NoHit pat rest := noHit_suffix h (List.suffix_cons c rest)
      rw [replaceFuel, if_neg (by simpa using hno), ih hrest m]

theorem replaceFuel_hit {pat repl : List Char} (hne : pat ≠ []) (n : Nat) (r : List Char) :
    replaceFuel pat repl (n + 1) (pat ++ r) = repl ++ replaceFuel pat repl n r := by
  match pat, hne with
  | p0 :: pt, _ =>
    have hpre : List.isPrefixOf (p0 :: pt) ((p0 :: pt) ++ r) = true :=
      List.isPrefixOf_iff_prefix.mpr (List.prefix_append _ _)
    show replaceFuel (p0 :: pt) repl (Nat.succ n) (p0 :: (pt ++ r)) = _
    rw [replaceFuel, if_pos (by simpa using hpre)]
    congr 1
    have : List.drop (p0 :: pt).length ((p0 :: pt) ++ r) = r := List.drop_left _ _
    exact congrArg (replaceFuel (p0 :: pt) repl n) this

/- ============================================================
   Helper lemmas about the build drivers.
   ============================================================ -/

theorem runDriver_noSidebar {α : Type} (cn outName : String)
    (b : α → SidebarDoc → Except String String) (env : BuildEnv α)
    (h : env.sidebarFile = none) :
    runDriver cn outName b env
      = ⟨Except.ok 1, [BuildStep.printed "Error: sidebar.json not found."], env⟩ := by
  obtain ⟨sf, cf, out⟩ := env
  simp only at h
  subst h
  rfl

theorem runDriver_noContent {α : Type} (cn outName : String)
    (b : α → SidebarDoc → Except String String) (env : BuildEnv α) (sb : SidebarDoc)
    (h : env.sidebarFile = some sb) (h2 : env.contentFile = none) :
    runDriver cn outName b env
      = ⟨Except.ok 1, [BuildStep.printed (cat ["Error: ", cn, " not found."])], env⟩ := by
  obtain ⟨sf, cf, out⟩ := env
  simp only at h h2
  subst h
  subst h2
  rfl

theorem runDriver_err {α : Type} (cn outName : String)
    (b : α → SidebarDoc → Except String String) (env : BuildEnv α)
    (sb : SidebarDoc) (c : α) (e : String)
    (h : env.sidebarFile = some sb) (h2 : env.contentFile = some c)
    (hb : b c sb = Except.error e) :
    runDriver cn outName b env
      = ⟨Except.error e,
         [BuildStep.printed "Loading sidebar from sidebar.json...", BuildStep.loadedSidebar,
          BuildStep.printed (cat ["Loading content from ", cn, "..."]), BuildStep.loadedContent,
          BuildStep.printed (cat ["Building ", outName, "..."])], env⟩ := by
  obtain ⟨sf, cf, out⟩ := env
  simp only at h h2
  subst h
  subst h2
  show (match b c sb with
    | Except.error e => _
    | Except.ok html => _) = _
  rw [hb]

theorem runDriver_ok {α : Type} (cn outName : String)
    (b : α → SidebarDoc → Except String String) (env : BuildEnv α)
    (sb : SidebarDoc) (c : α) (page : String)
    (h : env.sidebarFile = some sb) (h2 : env.contentFile = some c)
    (hb : b c sb = Except.ok page) :
    runDriver cn outName b env
      = ⟨Except.ok 0,
         [BuildStep.printed "Loading sidebar from sidebar.json...", BuildStep.loadedSidebar,
          BuildStep.printed (cat ["Loading content from ", cn, "..."]), BuildStep.loadedContent,
          BuildStep.printed (cat ["Building ", outName, "..."]),
          BuildStep.printed (cat ["Writing to ", outName, "..."]), BuildStep.wrote outName,
          BuildStep.printed "Done!"],
         { env with output := some page }⟩ := by
  obtain ⟨sf, cf, out⟩ := env
  simp only at h h2
  subst h
  subst h2
  show (match b c sb with
    | Except.error e => _
    | Except.ok html => _) = _
  rw [hb]
  rfl

theorem runDriver_idem {α : Type} (cn outName : String)
    (b : α → SidebarDoc → Except String String) (env : BuildEnv α) :
    runDriver cn outName b ((runDriver cn outName b env).env) = runDriver cn outName b env := by
  obtain ⟨sf, cf, out⟩ := env
  cases sf with
  | none => rfl
  | some sb =>
    cases cf with
    | none => rfl
    | some c =>
      cases hb : b c sb with
      | error e =>
        have h1 := runDriver_err cn outName b ⟨some sb, some c, out⟩ sb c e rfl rfl hb
        rw [h1]
        exact h1
      | ok page =>
        have h1 := runDriver_ok cn outName b ⟨some sb, some c, out⟩ sb c page rfl rfl hb
        have h2 := runDriver_ok cn outName b ⟨some sb, some c, some page⟩ sb c page rfl rfl hb
        rw [h1]
        exact h2

theorem head_htmlIndex_noMeta (c : ContentIndex) (h : c.meta = none) :
    head_htmlIndex c = Except.error "KeyError: meta" := by
  unfold head_htmlIndex
  rw [h]
  rfl

theorem build_htmlIndex_noMeta (c : ContentIndex) (sb : SidebarDoc) (h : c.meta = none) :
    build_htmlIndex c sb = Except.error "KeyError: meta" := by
  unfold build_htmlIndex
  rw [head_htmlIndex_noMeta c h]
  rfl

theorem head_htmlPubs_noMeta (c : ContentPubs) (sb : SidebarDoc) (h : c.meta = none) :
    head_htmlPubs c sb = Except.error "KeyError: meta" := by
  unfold head_htmlPubs
  rw [h]
  rfl

theorem build_htmlPubs_noMeta (c : ContentPubs) (sb : SidebarDoc) (h : c.meta = none) :
    build_htmlPubs c sb = Except.error "KeyError: meta" := by
  unfold build_htmlPubs
  rw [head_htmlPubs_noMeta c sb h]
  rfl

/- ============================================================
   More scanning lemmas: monotonicity and joins.
   ============================================================ -/

theorem noHit_mono {pat' pat l : List Char} (hpre : pat' <+: pat) (h : NoHit pat' l) :
    NoHit pat l := by
  intro b r hb hne hisPre
  have h1 : pat <+: b ++ r := List.isPrefixOf_iff_prefix.mp hisPre
  have h2 : pat' <+: b ++ r := hpre.trans h1
  exact h b r hb hne (List.isPrefixOf_iff_prefix.mpr h2)

theorem noHit_of_cleanStr {pat : List Char} {pt : List Char} (hp : pat = '<' :: pt)
    {s : String} (h : CleanStr s = true) : NoHit pat s.data := by
  subst hp
  have h0 : NoHit "<".data s.data := noHit_of_safeB h
  exact noHit_mono ⟨pt, rfl⟩ h0

theorem noHit_pyJoin {pat : List Char} {sep : String} {xs : List String}
    (hsep : NoHit pat sep.data) (h : ∀ x ∈ xs, NoHit pat x.data) :
    NoHit pat (pyJoin sep xs).data := by
  induction xs with
  | nil => exact noHit_nil pat
  | cons x xs ih =>
    cases xs with
    | nil => exact h x (by simp)
    | cons y ys =>
      show NoHit pat (x ++ sep ++ pyJoin sep (y :: ys)).data
      rw [String.data_append, String.data_append]
      exact noHit_append (noHit_append (h x (by simp)) hsep)
        (ih (fun z hz => h z (List.mem_cons_of_mem x hz)))

theorem noHit_cat_forall {pat : List Char} {xs : List String}
    (h : ∀ s ∈ xs, NoHit pat s.data) : NoHit pat (cat xs).data := noHit_cat h

/- ============================================================
   Lemmas about the sidebar bio rendering, used by C3.
   ============================================================ -/

theorem data_bioLineSpan (line : String) :
    (bioLineSpan line).data = spanOpenStr.data ++ (line.data ++ "</span>".data) := by
  show (cat [spanOpenStr, line, "</span>"]).data = _
  rw [data_cat_cons, data_cat_cons, data_cat_cons]
  simp [cat, show ("" : String).data = [] from rfl]

theorem spanOpen_shape : spanOpenStr.data = '<' :: "span class=\"bio-line\">".data := rfl

theorem paraOpen_shape : paraOpenStr.data = '<' :: "p class=\"author__bio\">".data := rfl

theorem countOcc_spans_append {ls : List String}
    (hclean : ∀ line ∈ ls, NoHit ['<'] line.data) :
    ∀ r, countOcc spanOpenStr.data ((cat (ls.map bioLineSpan)).data ++ r)
        = ls.length + countOcc spanOpenStr.data r := by
  induction ls with
  | nil =>
    intro r
    simp [cat, show ("" : String).data = [] from rfl]
  | cons line rest ih =>
    intro r
    rw [List.map_cons, data_cat_cons, data_bioLineSpan]
    rw [List.append_assoc, List.append_assoc, List.append_assoc]
    rw [countOcc_self_append spanOpen_shape (noHit_of_safeB (by decide))]
    rw [countOcc_eq_append_of_noHit (noHit_mono ⟨"span class=\"bio-line\">".data, spanOpen_shape.symm⟩ (hclean line (List.mem_cons_self line rest)))]
    rw [countOcc_eq_append_of_noHit (noHit_of_safeB (by decide : safeB spanOpenStr.data "</span>".data = true))]
    rw [ih (fun l hl => hclean l (List.mem_cons_of_mem line hl)) r]
    simp [List.length_cons]
    omega

theorem noHit_para_spans {ls : List String}
    (hclean : ∀ line ∈ ls, NoHit ['<'] line.data) :
    NoHit paraOpenStr.data (cat (ls.map bioLineSpan)).data := by
  apply noHit_cat_forall
  intro s hs
  rcases List.mem_map.mp hs with ⟨line, hline, rfl⟩
  rw [data_bioLineSpan]
  refine noHit_append (noHit_of_safeB (by decide)) (noHit_append ?_ (noHit_of_safeB (by decide)))
  exact noHit_mono ⟨"p class=\"author__bio\">".data, paraOpen_shape.symm⟩ (hclean line hline)

theorem generate_profile_image_ok {p : Profile} {nm : String} (h : p.name = some nm) :
    generate_profile_image p = Except.ok (profileImageHtml p nm) := by
  unfold generate_profile_image profileImageHtml
  by_cases ht : truthyStr p.image
  · rw [if_pos ht, if_pos ht, h]
    rfl
  · rw [if_neg ht, if_neg ht]

theorem get_sidebar_html_ok {sb : SidebarDoc} {p : Profile} {nm : String}
    (hp : sb.profile = some p) (hn : p.name = some nm) :
    get_sidebar_html sb = Except.ok (sidebarPage sb p nm) := by
  simp only [get_sidebar_html, hp, hn, generate_profile_image_ok hn, req, Bind.bind, Except.bind]
  rfl

theorem noHit_profileImageHtml {pat pt : List Char} (hp : pat = '<' :: pt)
    {p : Profile} {nm : String}
    (h1 : safeB pat "<img src=\"".data = true)
    (h2 : safeB pat "\" alt=\"".data = true)
    (h3 : safeB pat "\">".data = true)
    (h4 : safeB pat "<i class=\"fas fa-user\"></i>".data = true)
    (himg : CleanStr (p.image.getD "") = true) (hnm : CleanStr nm = true) :
    NoHit pat (profileImageHtml p nm).data := by
  unfold profileImageHtml
  by_cases ht : truthyStr p.image
  · rw [if_pos ht]
    apply noHit_cat_forall
    intro s hs
    simp only [List.mem_cons, List.not_mem_nil, or_false] at hs
    rcases hs with rfl | rfl | rfl | rfl | rfl
    · exact noHit_of_safeB h1
    · exact noHit_of_cleanStr hp himg
    · exact noHit_of_safeB h2
    · exact noHit_of_cleanStr hp hnm
    · exact noHit_of_safeB h3
  · rw [if_neg ht]
    exact noHit_of_safeB h4

theorem noHit_sidebarLinkItem {pat pt : List Char} (hp : pat = '<' :: pt)
    {l : SideLink}
    (h1 : safeB pat "<li><a href=\"".data = true)
    (h2 : safeB pat "\" target=\"_blank\" rel=\"noopener\"><i class=\"".data = true)
    (h3 : safeB pat "\" aria-hidden=\"true\"></i> ".data = true)
    (h4 : safeB pat "</a></li>".data = true)
    (h5 : safeB pat "<li><i class=\"".data = true)
    (h6 : safeB pat "</li>".data = true)
    (hl : CleanLink l = true) :
    NoHit pat (sidebarLinkItem l).data := by
  rw [CleanLink, Bool.and_eq_true, Bool.and_eq_true] at hl
  obtain ⟨⟨hicon, hlabel⟩, hurl⟩ := hl
  unfold sidebarLinkItem
  by_cases ht : truthyStr l.url
  · rw [if_pos ht]
    apply noHit_cat_forall
    intro s hs
    simp only [List.mem_cons, List.not_mem_nil, or_false] at hs
    rcases hs with rfl | rfl | rfl | rfl | rfl | rfl | rfl
    · exact noHit_of_safeB h1
    · exact noHit_of_cleanStr hp hurl
    · exact noHit_of_safeB h2
    · exact noHit_of_cleanStr hp hicon
    · exact noHit_of_safeB h3
    · exact noHit_of_cleanStr hp hlabel
    · exact noHit_of_safeB h4
  · rw [if_neg ht]
    apply noHit_cat_forall
    intro s hs
    simp only [List.mem_cons, List.not_mem_nil, or_false] at hs
    rcases hs with rfl | rfl | rfl | rfl | rfl
    · exact noHit_of_safeB h5
    · exact noHit_of_cleanStr hp hicon
    · exact noHit_of_safeB h3
    · exact noHit_of_cleanStr hp hlabel
    · exact noHit_of_safeB h6

/- ============================================================
   String-level append lemmas and the head / base-CSS structure.
   ============================================================ -/

theorem data_cat_nil : (cat []).data = [] := rfl

theorem str_empty_append (s : String) : "" ++ s = s := by
  apply String.ext
  simp only [String.data_append, show ("" : String).data = [] from rfl, List.nil_append]

theorem str_append_empty (s : String) : s ++ "" = s := by
  apply String.ext
  simp only [String.data_append, show ("" : String).data = [] from rfl, List.append_nil]

theorem cat_append (xs ys : List String) : cat (xs ++ ys) = cat xs ++ cat ys := by
  induction xs with
  | nil => rw [List.nil_append]; exact (str_empty_append (cat ys)).symm
  | cons x xs ih =>
    rw [List.cons_append]
    show x ++ cat (xs ++ ys) = (x ++ cat xs) ++ cat ys
    rw [ih, String.append_assoc]

theorem contains_self_append (p y : String) : Contains p (p ++ y) :=
  ⟨[], y.data, by simp [String.data_append]⟩

theorem contains_append_left (x : String) {p y : String} (h : Contains p y) :
    Contains p (x ++ y) := by
  obtain ⟨a, b, hab⟩ := h
  exact ⟨x.data ++ a, b, by simp [String.data_append, hab, List.append_assoc]⟩

theorem contains_append_right {p x : String} (h : Contains p x) (y : String) :
    Contains p (x ++ y) := by
  obtain ⟨a, b, hab⟩ := h
  exact ⟨a, b ++ y.data, by simp [String.data_append, hab, List.append_assoc]⟩

theorem noHit_str_append {pat : List Char} {x y : String} (hx : NoHit pat x.data)
    (hy : NoHit pat y.data) : NoHit pat (x ++ y).data := by
  rw [String.data_append]
  exact noHit_append hx hy

/-- `get_base_css` seen as: prefix, light colour run, middle, dark
colour run, suffix. -/
theorem get_base_css_decomp (sb : Option SidebarDoc) :
    get_base_css sb
      = cssPreLight ++ (lightRun sb ++ (cssMid ++ (darkRun sb ++ cssPost))) := by
  have hA : ("      --bg-color: #ffffff;\n      --bg-sidebar: #ffffff;\n      --border-color: #e0e0e0;\n      --shadow: 0 1px 1px rgba(0,0,0,0.125);\n      --sidebar-width: 260px;\n      --nav-height: 50px;\n      --accent-color: " : String).data = ("      --bg-color: #ffffff;\n      --bg-sidebar: #ffffff;\n      --border-color: #e0e0e0;\n      --shadow: 0 1px 1px rgba(0,0,0,0.125);\n      --sidebar-width: 260px;\n      --nav-height: 50px;\n      " : String).data ++ ("--accent-color: " : String).data := by decide
  have hB : (";\n    \x7d\n\n    /* ============================================\n       BASE STYLES\n       ============================================ */\n    *, *::before, *::after \x7b box-sizing: border-box; margin: 0; padding: 0; \x7d\n    html \x7b scroll-behavior: smooth; \x7d\n    body \x7b\n" : String).data = (";" : String).data ++ ("\n    \x7d\n\n    /* ============================================\n       BASE STYLES\n       ============================================ */\n    *, *::before, *::after \x7b box-sizing: border-box; margin: 0; padding: 0; \x7d\n    html \x7b scroll-behavior: smooth; \x7d\n    body \x7b\n" : String).data := by decide
  have hC : ("      --border-color: #3a3f4b;\n      --accent-color: " : String).data = ("      --border-color: #3a3f4b;\n      " : String).data ++ ("--accent-color: " : String).data := by decide
  have hD : (";\n    \x7d\n\n    /* ============================================\n       RESPONSIVE - TABLET (<=900px)\n       ============================================ */\n    @media (max-width: 900px) \x7b\n      .page-wrapper \x7b flex-direction: column; \x7d\n\n      .sidebar \x7b\n        width: 100%;\n        border-right: none;\n" : String).data = (";" : String).data ++ ("\n    \x7d\n\n    /* ============================================\n       RESPONSIVE - TABLET (<=900px)\n       ============================================ */\n    @media (max-width: 900px) \x7b\n      .page-wrapper \x7b flex-direction: column; \x7d\n\n      .sidebar \x7b\n        width: 100%;\n        border-right: none;\n" : String).data := by decide
  apply String.ext
  unfold get_base_css lightRun darkRun cssPreLight cssMid cssPost cssPreLightL cssMidL cssPostL bcL1 bcL2 bcL3 bcL4 bcL5 bcL6 bcL7 bcL8 bcL9
  simp only [List.cons_append, List.nil_append]
  repeat (first | rw [data_cat_cons] | rw [data_cat_nil] | rw [String.data_append] | rw [show ("" : String).data = [] from rfl] | rw [List.append_assoc] | rw [List.nil_append] | rw [List.append_nil])
  rw [hA, hB, hC, hD]
  repeat (first | rw [data_cat_cons] | rw [data_cat_nil] | rw [String.data_append] | rw [show ("" : String).data = [] from rfl] | rw [List.append_assoc] | rw [List.nil_append] | rw [List.append_nil])

theorem contains_lightRun_css (sb : Option SidebarDoc) :
    Contains (lightRun sb) (get_base_css sb) := by
  rw [get_base_css_decomp]
  exact contains_append_left _ (contains_self_append _ _)

theorem contains_darkRun_css (sb : Option SidebarDoc) :
    Contains (darkRun sb) (get_base_css sb) := by
  rw [get_base_css_decomp]
  exact contains_append_left _ (contains_append_left _
    (contains_append_left _ (contains_self_append _ _)))

/-- `get_base_head_html` seen as an explicit alternation of its literal
segments and its four holes. -/
theorem get_base_head_decomp (t d css : String) (sb : Option SidebarDoc) :
    get_base_head_html t d css sb
      = cat bhL1 ++ (d ++ (cat bhL2 ++ (t ++ (cat bhL3
          ++ (get_base_css sb ++ ("\n" ++ (css ++ cat bhL5))))))) := by
  apply String.ext
  unfold get_base_head_html bhL1 bhL2 bhL3 bhL4 bhL5
  simp only [List.cons_append, List.nil_append]
  repeat (first | rw [data_cat_cons] | rw [data_cat_nil] | rw [String.data_append] | rw [show ("" : String).data = [] from rfl] | rw [List.append_assoc] | rw [List.nil_append] | rw [List.append_nil])

theorem headFront_decomp (t d : String) (sb : Option SidebarDoc) :
    headFront t d sb
      = cat bhL1 ++ (d ++ (cat bhL2 ++ (t ++ (cat bhL3 ++ (get_base_css sb ++ "\n"))))) := by
  apply String.ext
  unfold headFront bhL1 bhL2 bhL3
  simp only [List.cons_append, List.nil_append]
  repeat (first | rw [data_cat_cons] | rw [data_cat_nil] | rw [String.data_append] | rw [show ("" : String).data = [] from rfl] | rw [List.append_assoc] | rw [List.nil_append] | rw [List.append_nil])

theorem get_head_html_split (t d : String) (sb : Option SidebarDoc) :
    get_head_html t d sb = headFront t d sb ++ "\n  </style>\n</head>" := by
  apply String.ext
  unfold get_head_html get_base_head_html headFront bhL1 bhL2 bhL3 bhL4 bhL5
  simp only [List.cons_append, List.nil_append]
  repeat (first | rw [data_cat_cons] | rw [data_cat_nil] | rw [String.data_append] | rw [show ("" : String).data = [] from rfl] | rw [List.append_assoc] | rw [List.nil_append] | rw [List.append_nil])

theorem pyReplace_get_head (t d css : String) (sb : Option SidebarDoc)
    (hF : NoHit "</style>".data (headFront t d sb).data) :
    pyReplace (get_head_html t d sb) "</style>" (css ++ "</style>")
      = replacedHead t d sb css := by
  have hpy : ∀ s p r : String,
      (pyReplace s p r).data = replaceFuel p.data r.data s.data.length s.data :=
    fun s p r => rfl
  apply String.ext
  rw [hpy]
  rw [get_head_html_split]
  repeat rw [String.data_append]
  rw [List.length_append]
  rw [replaceFuel_append_of_noHit hF _ _]
  rw [show ("\n  </style>\n</head>" : String).data
      = ("\n  " : String).data ++ (("</style>" : String).data ++ ("\n</head>" : String).data)
    from by decide]
  rw [show (("\n  " : String).data ++ (("</style>" : String).data
        ++ ("\n</head>" : String).data)).length
      = ("\n  " : String).data.length + 16 from by decide]
  rw [replaceFuel_append_of_noHit (noHit_of_safeB (by decide)) 16 _]
  rw [show (16 : Nat) = 15 + 1 from rfl]
  rw [replaceFuel_hit (by decide) 15 _]
  rw [replaceFuel_eq_of_noHit (noHit_of_safeB (by decide)) 15]
  unfold replacedHead
  repeat (first | rw [String.data_append] | rw [List.append_assoc])

/- ============================================================
   NoHit lemmas for the head front, and the per-page head locals.
   ============================================================ -/

theorem noHit_base_css {pat : List Char} {sb : Option SidebarDoc}
    (hall : ((bcL1 ++ bcL2 ++ bcL3 ++ bcL4 ++ bcL5 ++ bcL6 ++ bcL7 ++ bcL8 ++ bcL9).all
        fun s => safeB pat s.data) = true)
    (h1 : NoHit pat (accent_light sb).data) (h2 : NoHit pat (accent_hover_light sb).data)
    (h3 : NoHit pat (link_color_light sb).data) (h4 : NoHit pat (link_hover_light sb).data)
    (h5 : NoHit pat (accent_dark sb).data) (h6 : NoHit pat (accent_hover_dark sb).data)
    (h7 : NoHit pat (link_color_dark sb).data) (h8 : NoHit pat (link_hover_dark sb).data) :
    NoHit pat (get_base_css sb).data := by
  have hl := noHit_of_safeB_all hall
  apply noHit_cat
  intro s hs
  simp only [List.mem_append, List.mem_singleton] at hs
  rcases hs with (((((((((((((((hx | rfl) | hx) | rfl) | hx) | rfl) | hx) | rfl) | hx) | rfl) | hx) | rfl) | hx) | rfl) | hx) | rfl) | hx
  all_goals first
    | exact hl s (by simp [List.mem_append, hx])
    | assumption

theorem noHit_headFront {pat : List Char} {t d : String} {sb : Option SidebarDoc}
    (hbh : ((bhL1 ++ bhL2 ++ bhL3).all fun s => safeB pat s.data) = true)
    (hnl : safeB pat "\n".data = true)
    (ht : NoHit pat t.data) (hd : NoHit pat d.data)
    (hcss : NoHit pat (get_base_css sb).data) :
    NoHit pat (headFront t d sb).data := by
  have hl := noHit_of_safeB_all hbh
  rw [headFront_decomp]
  refine noHit_str_append (noHit_cat ?_) (noHit_str_append hd (noHit_str_append (noHit_cat ?_)
    (noHit_str_append ht (noHit_str_append (noHit_cat ?_)
      (noHit_str_append hcss (noHit_of_safeB hnl))))))
  · intro s hs; exact hl s (by simp [List.mem_append, hs])
  · intro s hs; exact hl s (by simp [List.mem_append, hs])
  · intro s hs; exact hl s (by simp [List.mem_append, hs])

theorem head_htmlPubs_ok {c : ContentPubs} {sb : SidebarDoc} {m : PageMeta} {t d : String}
    (hm : c.meta = some m) (ht : m.title = some t) (hd : m.description = some d)
    (hF : NoHit "</style>".data (headFront t d (some sb)).data) :
    head_htmlPubs c sb = Except.ok (replacedHead t d (some sb) get_publications_css) := by
  simp only [head_htmlPubs, hm, ht, hd, req, Bind.bind, Except.bind]
  rw [pyReplace_get_head t d get_publications_css (some sb) hF]

theorem head_htmlTeaching_ok {c : ContentTeaching} {sb : SidebarDoc} {m : PageMeta} {t d : String}
    (hm : c.meta = some m) (ht : m.title = some t) (hd : m.description = some d)
    (hF : NoHit "</style>".data (headFront t d (some sb)).data) :
    head_htmlTeaching c sb = Except.ok (replacedHead t d (some sb) get_teaching_css) := by
  simp only [head_htmlTeaching, hm, ht, hd, req, Bind.bind, Except.bind]
  rw [pyReplace_get_head t d get_teaching_css (some sb) hF]

theorem head_htmlResearch_ok {c : ContentResearch} {m : PageMeta} {t d : String}
    (hm : c.meta = some m) (ht : m.title = some t) (hd : m.description = some d)
    (hF : NoHit "</style>".data (headFront t d none).data) :
    head_htmlResearch c = Except.ok (replacedHead t d none get_research_css) := by
  simp only [head_htmlResearch, hm, ht, hd, req, Bind.bind, Except.bind]
  rw [pyReplace_get_head t d get_research_css none hF]

theorem head_htmlIndex_ok {c : ContentIndex} {m : PageMeta} {t d : String}
    (hm : c.meta = some m) (ht : m.title = some t) (hd : m.description = some d) :
    head_htmlIndex c = Except.ok (get_base_head_html t d get_index_css none) := by
  simp only [head_htmlIndex, hm, ht, hd, req, Bind.bind, Except.bind]

/- ============================================================
   The theme colour runs inside the emitted heads.
   ============================================================ -/

theorem contains_css_in_base_head (t d css : String) (sb : Option SidebarDoc) :
    Contains (get_base_css sb) (get_base_head_html t d css sb) := by
  rw [get_base_head_decomp]
  exact contains_append_left _ (contains_append_left _ (contains_append_left _
    (contains_append_left _ (contains_append_left _ (contains_self_append _ _)))))

theorem contains_css_in_headFront (t d : String) (sb : Option SidebarDoc) :
    Contains (get_base_css sb) (headFront t d sb) := by
  rw [headFront_decomp]
  exact contains_append_left _ (contains_append_left _ (contains_append_left _
    (contains_append_left _ (contains_append_left _ (contains_self_append _ _)))))

theorem contains_css_in_replacedHead (t d css : String) (sb : Option SidebarDoc) :
    Contains (get_base_css sb) (replacedHead t d sb css) :=
  contains_append_right (contains_css_in_headFront t d sb) _

theorem contains_lightRun_baseHead (t d css : String) (sb : Option SidebarDoc) :
    Contains (lightRun sb) (get_base_head_html t d css sb) :=
  contains_trans (contains_lightRun_css sb) (contains_css_in_base_head t d css sb)

theorem contains_darkRun_baseHead (t d css : String) (sb : Option SidebarDoc) :
    Contains (darkRun sb) (get_base_head_html t d css sb) :=
  contains_trans (contains_darkRun_css sb) (contains_css_in_base_head t d css sb)

theorem contains_lightRun_replacedHead (t d css : String) (sb : Option SidebarDoc) :
    Contains (lightRun sb) (replacedHead t d sb css) :=
  contains_trans (contains_lightRun_css sb) (contains_css_in_replacedHead t d css sb)

theorem contains_darkRun_replacedHead (t d css : String) (sb : Option SidebarDoc) :
    Contains (darkRun sb) (replacedHead t d sb css) :=
  contains_trans (contains_darkRun_css sb) (contains_css_in_replacedHead t d css sb)

/- ============================================================
   The publications page body: decomposition, absence and
   containment lemmas, and the conference-abstracts helpers.
   ============================================================ -/

/-- The publications page template, as an explicit alternation of its
literal segments and its eleven holes. -/
theorem pubsPage_decomp (hd nb sh it idesc il ph cab fh : String) :
    pubsPage hd nb sh it idesc il ph cab fh
      = cat pbL1 ++ (hd ++ (cat pbL2 ++ (nb ++ (cat pbL3
          ++ (get_nav_html "publications" none ++ (cat pbL4 ++ (sh ++ (cat pbL5
          ++ (it ++ (cat pbL6 ++ (idesc ++ (cat pbL7 ++ (il ++ (cat pbL8
          ++ (ph ++ (cat pbL9 ++ (cab ++ (cat pbL10 ++ (fh ++ (cat pbL11
          ++ (get_js_code ++ cat pbL12))))))))))))))))))))) := by
  apply String.ext
  unfold pubsPage pbL1 pbL2 pbL3 pbL4 pbL5 pbL6 pbL7 pbL8 pbL9 pbL10 pbL11 pbL12
  simp only [List.cons_append, List.nil_append]
  repeat (first | rw [data_cat_cons] | rw [data_cat_nil] | rw [String.data_append] | rw [show ("" : String).data = [] from rfl] | rw [List.append_assoc] | rw [List.nil_append] | rw [List.append_nil])

/-- No occurrence of `pat` can start inside the publications page when
none can start inside any hole, the navigation markup or the script. -/
theorem noHit_pubsPage {pat : List Char} {hd nb sh it idesc il ph cab fh : String}
    (hall : ((pbL1 ++ pbL2 ++ pbL3 ++ pbL4 ++ pbL5 ++ pbL6 ++ pbL7 ++ pbL8 ++ pbL9
        ++ pbL10 ++ pbL11 ++ pbL12).all fun s => safeB pat s.data) = true)
    (hnav : NoHit pat (get_nav_html "publications" none).data)
    (hjs : NoHit pat get_js_code.data)
    (h1 : NoHit pat hd.data) (h2 : NoHit pat nb.data) (h3 : NoHit pat sh.data)
    (h4 : NoHit pat it.data) (h5 : NoHit pat idesc.data) (h6 : NoHit pat il.data)
    (h7 : NoHit pat ph.data) (h8 : NoHit pat cab.data) (h9 : NoHit pat fh.data) :
    NoHit pat (pubsPage hd nb sh it idesc il ph cab fh).data := by
  have hl := noHit_of_safeB_all hall
  have hc : ∀ {g : List String},
      (∀ s ∈ g, s ∈ pbL1 ++ pbL2 ++ pbL3 ++ pbL4 ++ pbL5 ++ pbL6 ++ pbL7 ++ pbL8 ++ pbL9
        ++ pbL10 ++ pbL11 ++ pbL12) → NoHit pat (cat g).data :=
    fun hg => noHit_cat (fun s hs => hl s (hg s hs))
  rw [pubsPage_decomp]
  exact (noHit_str_append (hc (by intro s hs; simp [List.mem_append, hs])) (noHit_str_append h1 (noHit_str_append (hc (by intro s hs; simp [List.mem_append, hs])) (noHit_str_append h2 (noHit_str_append (hc (by intro s hs; simp [List.mem_append, hs])) (noHit_str_append hnav (noHit_str_append (hc (by intro s hs; simp [List.mem_append, hs])) (noHit_str_append h3 (noHit_str_append (hc (by intro s hs; simp [List.mem_append, hs])) (noHit_str_append h4 (noHit_str_append (hc (by intro s hs; simp [List.mem_append, hs])) (noHit_str_append h5 (noHit_str_append (hc (by intro s hs; simp [List.mem_append, hs])) (noHit_str_append h6 (noHit_str_append (hc (by intro s hs; simp [List.mem_append, hs])) (noHit_str_append h7 (noHit_str_append (hc (by intro s hs; simp [List.mem_append, hs])) (noHit_str_append h8 (noHit_str_append (hc (by intro s hs; simp [List.mem_append, hs])) (noHit_str_append h9 (noHit_str_append (hc (by intro s hs; simp [List.mem_append, hs])) (noHit_str_append hjs (hc (by intro s hs; simp [List.mem_append, hs]))))))))))))))))))))))))

/-- Anything contained in the conference-abstracts slot is contained in
the publications page. -/
theorem contains_cab_in_pubsPage {q cab : String} (hd nb sh it idesc il ph fh : String)
    (h : Contains q cab) :
    Contains q (pubsPage hd nb sh it idesc il ph cab fh) := by
  rw [pubsPage_decomp]
  exact contains_append_left _ (contains_append_left _ (contains_append_left _ (contains_append_left _ (contains_append_left _ (contains_append_left _ (contains_append_left _ (contains_append_left _ (contains_append_left _ (contains_append_left _ (contains_append_left _ (contains_append_left _ (contains_append_left _ (contains_append_left _ (contains_append_left _ (contains_append_left _ (contains_append_left _ (contains_append_right h _)))))))))))))))))

/-- The one-atom conference-abstracts heading split of the
section-divider literal. -/
theorem contains_heading_caL1 : Contains headingStr (cat caL1) := by
  rw [show cat caL1
      = "\n      <!-- Conference Abstracts Section -->\n      <div class=\"section-divider\">\n        <h1 class=\"section-title\">"
        ++ (headingStr ++ "</h1>\n      </div>\n      ") from by decide]
  exact contains_append_left _ (contains_self_append _ _)

/-- The rendered abstracts block contains the heading. -/
theorem contains_heading_cab (inner : String) :
    Contains headingStr (cat (caL1 ++ [inner])) := by
  rw [cat_append]
  exact contains_append_right contains_heading_caL1 _

/-- A singleton abstracts list renders through `generate_year_section`
with thumbnails disabled. -/
theorem generate_conference_abstracts_single (yg : YearGroup) (sec : String)
    (h : generate_year_section yg false = Except.ok sec) :
    generate_conference_abstracts_html [yg] = Except.ok sec := by
  simp only [generate_conference_abstracts_html, List.isEmpty_cons, Bind.bind, Except.bind,
    List.mapM, List.mapM.loop, h, List.reverse_cons, List.reverse_nil, List.nil_append,
    pure, Except.pure, pyJoin, Bool.false_eq_true, if_false]

/-- The empty abstracts block. -/
theorem conferenceAbstractsBlock_nil :
    conferenceAbstractsBlock [] = Except.ok "" := rfl

/-- The non-empty abstracts block: heading plus rendered abstracts. -/
theorem conferenceAbstractsBlock_cons {l : List YearGroup} {inner : String}
    (hne : l.isEmpty = false)
    (hinner : generate_conference_abstracts_html l = Except.ok inner) :
    conferenceAbstractsBlock l = Except.ok (cat (caL1 ++ [inner])) := by
  simp only [conferenceAbstractsBlock, hne, hinner, Bind.bind, Except.bind,
    Bool.false_eq_true, if_false]

/-- Forward evaluation of `build_html` of build_publications.py, given
the outcome of each generator call. -/
theorem build_htmlPubs_ok {c : ContentPubs} {sb : SidebarDoc} {intro : Intro}
    {ls : List LinkRef} {pubs : List YearGroup}
    {hd nb sh it idesc il ph cab fh : String}
    (hhd : head_htmlPubs c sb = Except.ok hd)
    (hi : c.intro = some intro) (hls : intro.links = some ls)
    (hil : generate_intro_links ls = Except.ok il)
    (hps : c.publications = some pubs)
    (hph : generate_publications_html pubs = Except.ok ph)
    (hcab : conferenceAbstractsBlock (c.conference_abstracts.getD []) = Except.ok cab)
    (hnb : get_nav_brand sb = Except.ok nb)
    (hsh : get_sidebar_html sb = Except.ok sh)
    (hit : intro.title = some it) (hidesc : intro.description = some idesc)
    (hfh : get_footer_html sb = Except.ok fh) :
    build_htmlPubs c sb = Except.ok (pubsPage hd nb sh it idesc il ph cab fh) := by
  simp only [build_htmlPubs, hhd, hi, hls, hil, hps, hph, hcab, hnb, hsh, hit, hidesc, hfh,
    req, Bind.bind, Except.bind, pubsPage]

/- ============================================================
   Absence lemmas for the sidebar block and the no-thumbnail paper
   fragment.
   ============================================================ -/

theorem noHit_sidebarPage {pat : List Char} {sb : SidebarDoc} {p : Profile} {nm : String}
    (hall : ((shL1 ++ shL2 ++ shL3 ++ shL4 ++ shL5).all fun s => safeB pat s.data) = true)
    (himg : NoHit pat (profileImageHtml p nm).data)
    (hnm : NoHit pat nm.data)
    (hbio : NoHit pat (bio_html p).data)
    (hlinks : NoHit pat (generate_sidebar_links (sb.sidebar_links.getD [])).data) :
    NoHit pat (sidebarPage sb p nm).data := by
  have hl := noHit_of_safeB_all hall
  apply noHit_cat
  intro s hs
  simp only [List.mem_append, List.mem_singleton] at hs
  rcases hs with (((((((hx | rfl) | hx) | rfl) | hx) | rfl) | hx) | rfl) | hx
  all_goals first
    | assumption
    | exact hl s (by simp [List.mem_append, hx])

theorem noHit_paperNoImgPage {pat : List Char} {t a v lh : String}
    (hall : ((pnL1 ++ pnL2 ++ pnL3 ++ pnL4 ++ pnL5).all fun s => safeB pat s.data) = true)
    (ht : NoHit pat t.data) (ha : NoHit pat a.data)
    (hv : NoHit pat v.data) (hlh : NoHit pat lh.data) :
    NoHit pat (paperNoImgPage t a v lh).data := by
  have hl := noHit_of_safeB_all hall
  apply noHit_cat
  intro s hs
  simp only [List.mem_append, List.mem_singleton] at hs
  rcases hs with (((((((hx | rfl) | hx) | rfl) | hx) | rfl) | hx) | rfl) | hx
  all_goals first
    | assumption
    | exact hl s (by simp [List.mem_append, hx])

/-- The biography build never reads `theme`: replacing it changes
nothing (the head is built without the sidebar, and the nav, sidebar
and footer generators read only the other keys). -/
theorem build_htmlIndex_theme_irrel (c : ContentIndex) (sb : SidebarDoc) (th : Option Theme) :
    build_htmlIndex c { sb with theme := th } = build_htmlIndex c sb := by
  cases sb
  rfl

/- ============================================================
   Claims C7, C8, C9, C10.
   ============================================================ -/

/-- C7: for every invocation of a build driver in which `sidebar.json`
(or the page's content file) does not exist, the driver prints exactly
one error line mentioning that filename, returns exit code 1, and
performs no load, no render and no write: the returned trace holds only
the error print, and the environment — in particular the output file —
is returned unchanged.  Stated for the biography and publications
drivers cited by the spec (`runDriver` is shared verbatim by all
four). -/
theorem claim_C7_missing_input_file_short_circuits :
    (∀ env : BuildEnv ContentIndex, env.sidebarFile = none →
      mainIndex env = ⟨Except.ok 1, [BuildStep.printed "Error: sidebar.json not found."], env⟩) ∧
    (∀ (env : BuildEnv ContentIndex) (sb : SidebarDoc),
      env.sidebarFile = some sb → env.contentFile = none →
      mainIndex env = ⟨Except.ok 1, [BuildStep.printed "Error: content_index.json not found."], env⟩) ∧
    (∀ env : BuildEnv ContentPubs, env.sidebarFile = none →
      mainPublications env = ⟨Except.ok 1, [BuildStep.printed "Error: sidebar.json not found."], env⟩) ∧
    (∀ (env : BuildEnv ContentPubs) (sb : SidebarDoc),
      env.sidebarFile = some sb → env.contentFile = none →
      mainPublications env
        = ⟨Except.ok 1, [BuildStep.printed "Error: content_publications.json not found."], env⟩) ∧
    strCount "sidebar.json" "Error: sidebar.json not found." = 1 ∧
    strCount "content_index.json" "Error: content_index.json not found." = 1 ∧
    strCount "content_publications.json" "Error: content_publications.json not found." = 1 := by
  refine ⟨?_, ?_, ?_, ?_, by decide, by decide, by decide⟩
  · intro env h
    exact runDriver_noSidebar _ _ _ env h
  · intro env sb h h2
    have := runDriver_noContent "content_index.json" "index.html" build_htmlIndex env sb h h2
    rwa [show cat ["Error: ", "content_index.json", " not found."]
          = "Error: content_index.json not found." from by decide] at this
  · intro env h
    exact runDriver_noSidebar _ _ _ env h
  · intro env sb h h2
    have := runDriver_noContent "content_publications.json" "publications.html" build_htmlPubs env sb h h2
    rwa [show cat ["Error: ", "content_publications.json", " not found."]
          = "Error: content_publications.json not found." from by decide] at this

/-- Witness for C7 at concrete environments: missing `sidebar.json` for
the biography driver, missing `content_publications.json` for the
publications driver. -/
theorem claim_C7_witness :
    mainIndex exEnvIndexNoSidebar
      = ⟨Except.ok 1, [BuildStep.printed "Error: sidebar.json not found."], exEnvIndexNoSidebar⟩ ∧
    mainPublications exEnvPubsNoContent
      = ⟨Except.ok 1, [BuildStep.printed "Error: content_publications.json not found."],
         exEnvPubsNoContent⟩ := by
  have h := claim_C7_missing_input_file_short_circuits
  exact ⟨h.1 exEnvIndexNoSidebar rfl, h.2.2.2.1 exEnvPubsNoContent exSidebar rfl rfl⟩

/-- C8: with both input files present but the content document lacking
a required key (here `"meta"`), the failure propagates as the uncaught
key-lookup error raised during rendering; rendering strictly precedes
writing, so the trace ends at the "Building ..." line with no write
step and the environment — hence any pre-existing output file — is
returned byte-for-byte unchanged.  The final conjunct states the
general render-precedes-write fact for an arbitrary rendering error. -/
theorem claim_C8_missing_content_key_fails_before_write :
    (∀ (env : BuildEnv ContentIndex) (sb : SidebarDoc) (c : ContentIndex),
      env.sidebarFile = some sb → env.contentFile = some c → c.meta = none →
      mainIndex env
        = ⟨Except.error "KeyError: meta",
           [BuildStep.printed "Loading sidebar from sidebar.json...", BuildStep.loadedSidebar,
            BuildStep.printed "Loading content from content_index.json...", BuildStep.loadedContent,
            BuildStep.printed "Building index.html..."], env⟩) ∧
    (∀ (env : BuildEnv ContentPubs) (sb : SidebarDoc) (c : ContentPubs),
      env.sidebarFile = some sb → env.contentFile = some c → c.meta = none →
      mainPublications env
        = ⟨Except.error "KeyError: meta",
           [BuildStep.printed "Loading sidebar from sidebar.json...", BuildStep.loadedSidebar,
            BuildStep.printed "Loading content from content_publications.json...", BuildStep.loadedContent,
            BuildStep.printed "Building publications.html..."], env⟩) ∧
    (∀ (env : BuildEnv ContentIndex) (sb : SidebarDoc) (c : ContentIndex) (e : String),
      env.sidebarFile = some sb → env.contentFile = some c →
      build_htmlIndex c sb = Except.error e →
      (mainIndex env).env = env ∧ (mainIndex env).result = Except.error e) := by
  refine ⟨?_, ?_, ?_⟩
  · intro env sb c h h2 hm
    have := runDriver_err "content_index.json" "index.html" build_htmlIndex env sb c
      "KeyError: meta" h h2 (build_htmlIndex_noMeta c sb hm)
    rwa [show cat ["Loading content from ", "content_index.json", "..."]
            = "Loading content from content_index.json..." from by decide,
         show cat ["Building ", "index.html", "..."]
            = "Building index.html..." from by decide] at this
  · intro env sb c h h2 hm
    have := runDriver_err "content_publications.json" "publications.html" build_htmlPubs env sb c
      "KeyError: meta" h h2 (build_htmlPubs_noMeta c sb hm)
    rwa [show cat ["Loading content from ", "content_publications.json", "..."]
            = "Loading content from content_publications.json..." from by decide,
         show cat ["Building ", "publications.html", "..."]
            = "Building publications.html..." from by decide] at this
  · intro env sb c e h h2 hb
    have := runDriver_err "content_index.json" "index.html" build_htmlIndex env sb c e h h2 hb
    constructor
    · rw [show mainIndex env = runDriver "content_index.json" "index.html" build_htmlIndex env from rfl, this]
    · rw [show mainIndex env = runDriver "content_index.json" "index.html" build_htmlIndex env from rfl, this]

/-- Witness for C8 at a concrete environment whose content file lacks
the `meta` key. -/
theorem claim_C8_witness :
    mainIndex exEnvIndexNoMeta
      = ⟨Except.error "KeyError: meta",
         [BuildStep.printed "Loading sidebar from sidebar.json...", BuildStep.loadedSidebar,
          BuildStep.printed "Loading content from content_index.json...", BuildStep.loadedContent,
          BuildStep.printed "Building index.html..."], exEnvIndexNoMeta⟩ :=
  claim_C8_missing_content_key_fails_before_write.1 exEnvIndexNoMeta exSidebar
    exContentIndexNoMeta rfl rfl rfl

/-- C9: every build is a deterministic, pure function of the two parsed
input documents — the run result and trace do not depend on the
pre-existing output file — and rerunning any of the four drivers on the
environment produced by a previous run (inputs unchanged) returns the
identical result, trace and environment, i.e. it writes a
byte-identical output file. -/
theorem claim_C9_builds_deterministic_idempotent :
    (∀ env env' : BuildEnv ContentIndex,
      env.sidebarFile = env'.sidebarFile → env.contentFile = env'.contentFile →
      (mainIndex env).result = (mainIndex env').result ∧
      (mainIndex env).trace = (mainIndex env').trace) ∧
    (∀ env : BuildEnv ContentIndex, mainIndex ((mainIndex env).env) = mainIndex env) ∧
    (∀ env : BuildEnv ContentResearch, mainResearch ((mainResearch env).env) = mainResearch env) ∧
    (∀ env : BuildEnv ContentPubs, mainPublications ((mainPublications env).env) = mainPublications env) ∧
    (∀ env : BuildEnv ContentTeaching, mainTeaching ((mainTeaching env).env) = mainTeaching env) := by
  refine ⟨?_, ?_, ?_, ?_, ?_⟩
  · intro env env' h1 h2
    obtain ⟨sf, cf, o1⟩ := env
    obtain ⟨sf', cf', o2⟩ := env'
    simp only at h1 h2
    subst h1
    subst h2
    cases sf with
    | none => exact ⟨rfl, rfl⟩
    | some sb =>
      cases cf with
      | none => exact ⟨rfl, rfl⟩
      | some c =>
        cases hb : build_htmlIndex c sb with
        | error e =>
          have ha := runDriver_err "content_index.json" "index.html" build_htmlIndex
            ⟨some sb, some c, o1⟩ sb c e rfl rfl hb
          have hc := runDriver_err "content_index.json" "index.html" build_htmlIndex
            ⟨some sb, some c, o2⟩ sb c e rfl rfl hb
          rw [show mainIndex ⟨some sb, some c, o1⟩
              = runDriver "content_index.json" "index.html" build_htmlIndex ⟨some sb, some c, o1⟩ from rfl,
            show mainIndex ⟨some sb, some c, o2⟩
              = runDriver "content_index.json" "index.html" build_htmlIndex ⟨some sb, some c, o2⟩ from rfl,
            ha, hc]
          exact ⟨rfl, rfl⟩
        | ok page =>
          have ha := runDriver_ok "content_index.json" "index.html" build_htmlIndex
            ⟨some sb, some c, o1⟩ sb c page rfl rfl hb
          have hc := runDriver_ok "content_index.json" "index.html" build_htmlIndex
            ⟨some sb, some c, o2⟩ sb c page rfl rfl hb
          rw [show mainIndex ⟨some sb, some c, o1⟩
              = runDriver "content_index.json" "index.html" build_htmlIndex ⟨some sb, some c, o1⟩ from rfl,
            show mainIndex ⟨some sb, some c, o2⟩
              = runDriver "content_index.json" "index.html" build_htmlIndex ⟨some sb, some c, o2⟩ from rfl,
            ha, hc]
          exact ⟨rfl, rfl⟩
  · intro env
    exact runDriver_idem "content_index.json" "index.html" build_htmlIndex env
  · intro env
    exact runDriver_idem "content_research.json" "research.html" build_htmlResearch env
  · intro env
    exact runDriver_idem "content_publications.json" "publications.html" build_htmlPubs env
  · intro env
    exact runDriver_idem "content_teaching.json" "teaching.html" build_htmlTeaching env

/-- Witness for C9 at a concrete pair of environments differing only in
the pre-existing output file. -/
theorem claim_C9_witness :
    (mainIndex exEnvIndex).result
        = (mainIndex { exEnvIndex with output := none }).result ∧
    (mainIndex exEnvIndex).trace
        = (mainIndex { exEnvIndex with output := none }).trace :=
  claim_C9_builds_deterministic_idempotent.1 exEnvIndex
    { exEnvIndex with output := none } rfl rfl

/-- C10 (implicit): only the biography build passes the sidebar to the
navigation generator, so only there the CV anchor honors `cv_file`; the
research, publications and teaching builds call `get_nav_html` without
the sidebar, hence their CV anchor href is always the default
`"cv.pdf"`, whatever `cv_file` declares — indeed their entire output is
invariant under changes to `cv_file`. -/
theorem claim_C10_cv_file_honored_only_on_biography :
    (∀ (c : ContentResearch) (s : SidebarDoc) (f : Option String),
      build_htmlResearch c { s with cv_file := f } = build_htmlResearch c s) ∧
    (∀ (c : ContentPubs) (s : SidebarDoc) (f : Option String),
      build_htmlPubs c { s with cv_file := f } = build_htmlPubs c s) ∧
    (∀ (c : ContentTeaching) (s : SidebarDoc) (f : Option String),
      build_htmlTeaching c { s with cv_file := f } = build_htmlTeaching c s) ∧
    get_nav_html "research" none = researchNavHtml ∧
    get_nav_html "publications" none = publicationsNavHtml ∧
    get_nav_html "teaching" none = teachingNavHtml ∧
    Contains (cvAnchor "cv.pdf") researchNavHtml ∧
    cv_fileOf none = "cv.pdf" ∧
    (∀ s : SidebarDoc, cv_fileOf (some s) = s.cv_file.getD "cv.pdf") ∧
    (∀ (s : SidebarDoc) (f : String), s.cv_file = some f →
      navLinks "bio" (some s)
        = [bioAnchorActive, researchAnchor, publicationsAnchor, teachingAnchor, cvAnchor f]) := by
  refine ⟨?_, ?_, ?_, by decide, by decide, by decide, ?_, rfl, fun s => rfl, ?_⟩
  · intro c s f
    cases s
    rfl
  · intro c s f
    cases s
    rfl
  · intro c s f
    cases s
    rfl
  · exact contains_of_append
      "<li><a href=\"index.html\">Biography</a></li>\n        <li><a href=\"research.html\" class=\"active\">Research</a></li>\n        <li><a href=\"publications.html\">Publications</a></li>\n        <li><a href=\"teaching.html\">Teaching</a></li>\n        "
      "" (by decide)
  · intro s f h
    have hcv : cv_fileOf (some s) = f := by
      show s.cv_file.getD "cv.pdf" = f
      rw [h]
      rfl
    show (navPages (cv_fileOf (some s))).map (navLinkItem "bio")
        = [bioAnchorActive, researchAnchor, publicationsAnchor, teachingAnchor, cvAnchor f]
    rw [hcv]
    show [navLinkItem "bio" ⟨"bio", "index.html", "Biography", false⟩,
          navLinkItem "bio" ⟨"research", "research.html", "Research", false⟩,
          navLinkItem "bio" ⟨"publications", "publications.html", "Publications", false⟩,
          navLinkItem "bio" ⟨"teaching", "teaching.html", "Teaching", false⟩,
          navLinkItem "bio" ⟨"cv", f, "CV", true⟩] = _
    rw [show navLinkItem "bio" ⟨"bio", "index.html", "Biography", false⟩ = bioAnchorActive from by decide,
        show navLinkItem "bio" ⟨"research", "research.html", "Research", false⟩ = researchAnchor from by decide,
        show navLinkItem "bio" ⟨"publications", "publications.html", "Publications", false⟩ = publicationsAnchor from by decide,
        show navLinkItem "bio" ⟨"teaching", "teaching.html", "Teaching", false⟩ = teachingAnchor from by decide,
        show navLinkItem "bio" ⟨"cv", f, "CV", true⟩ = cvAnchor f from ?_]
    show "<li><a href=\"" ++ (f ++ ("\"" ++ (navActiveClass "cv" "bio" ++ (navTargetAttr true ++ (">" ++ ("CV" ++ ("</a></li>" ++ ""))))))) = "<li><a href=\"" ++ (f ++ ("\" target=\"_blank\" rel=\"noopener\">CV</a></li>" ++ ""))
    exact congrArg (fun x => "<li><a href=\"" ++ (f ++ x)) (by decide)

/-- Witness for C10 at a concrete sidebar declaring `cv_file`. -/
theorem claim_C10_witness :
    navLinks "bio" (some { exSidebar with cv_file := some "files/mycv.pdf" })
      = [bioAnchorActive, researchAnchor, publicationsAnchor, teachingAnchor,
         cvAnchor "files/mycv.pdf"] :=
  claim_C10_cv_file_honored_only_on_biography.2.2.2.2.2.2.2.2.2
    { exSidebar with cv_file := some "files/mycv.pdf" } "files/mycv.pdf" rfl

/- ============================================================
   Claims C2 and C3.
   ============================================================ -/

/-- C2: for every sidebar configuration and active-page identifier the
navigation table lists exactly the five destinations Biography,
Research, Publications, Teaching, CV in that order; an anchor carries
the active class exactly when its page id equals the identifier, so an
identifier equal to one of the five ids marks exactly the matching
entry and any other identifier marks none (and the generator is a
total function, so no error is raised); the CV entry is the only one
rendered with `target="_blank"`.  The last two conjuncts check the
spec's concrete example: with active page `research` the emitted
markup carries exactly one active marker, on the Research anchor. -/
theorem claim_C2_nav_five_destinations_exactly_one_active :
    (∀ cv : String, (navPages cv).map NavPage.label
        = ["Biography", "Research", "Publications", "Teaching", "CV"]) ∧
    (∀ cv : String, (navPages cv).map NavPage.page_id = navPageIds) ∧
    (∀ (a : String) (p : NavPage), navLinkItem a p
        = cat ["<li><a href=\"", p.href, "\"", navActiveClass p.page_id a,
               navTargetAttr p.new_tab, ">", p.label, "</a></li>"]) ∧
    (∀ pid a : String, navActiveClass pid a ≠ "" ↔ pid = a) ∧
    (∀ (a cv : String), a ∈ navPageIds →
      ((navPages cv).filter (fun p => p.page_id == a)).map NavPage.page_id = [a]) ∧
    (∀ (a cv : String), a ∉ navPageIds →
      (navPages cv).filter (fun p => p.page_id == a) = []) ∧
    (∀ cv : String, (navPages cv).filter (fun p => p.new_tab) = [⟨"cv", cv, "CV", true⟩]) ∧
    navTargetAttr false = "" ∧
    strCount activeMark (get_nav_html "research" (some exSidebar)) = 1 ∧
    strCount (cat ["<li><a href=\"research.html\"", activeMark, ">Research</a></li>"])
      (get_nav_html "research" (some exSidebar)) = 1 := by
  refine ⟨fun cv => rfl, fun cv => rfl, fun a p => rfl, ?_, ?_, ?_, fun cv => rfl, rfl,
    by decide, by decide⟩
  · intro pid a
    unfold navActiveClass
    by_cases h : pid = a
    · subst h
      rw [if_pos (by simp)]
      simp
    · rw [if_neg (by simpa using h)]
      simpa using h
  · intro a cv ha
    fin_cases ha <;> simp [navPages]
  · intro a cv ha
    simp only [navPageIds, List.mem_cons, List.not_mem_nil, or_false, not_or] at ha
    obtain ⟨h1, h2, h3, h4, h5⟩ := ha
    have e1 : ("bio" == a) = false := by rw [beq_eq_false_iff_ne]; exact Ne.symm h1
    have e2 : ("research" == a) = false := by rw [beq_eq_false_iff_ne]; exact Ne.symm h2
    have e3 : ("publications" == a) = false := by rw [beq_eq_false_iff_ne]; exact Ne.symm h3
    have e4 : ("teaching" == a) = false := by rw [beq_eq_false_iff_ne]; exact Ne.symm h4
    have e5 : ("cv" == a) = false := by rw [beq_eq_false_iff_ne]; exact Ne.symm h5
    simp [navPages, List.filter, e1, e2, e3, e4, e5]

/-- Witness for C2's hypothesis-bearing conjuncts at the identifier
`"research"` (a member of the table) and `"home"` (not a member). -/
theorem claim_C2_witness :
    ((navPages "cv.pdf").filter (fun p => p.page_id == "research")).map NavPage.page_id
        = ["research"] ∧
    (navPages "cv.pdf").filter (fun p => p.page_id == "home") = [] ∧
    (navActiveClass "research" "research" ≠ "") := by
  have h := claim_C2_nav_five_destinations_exactly_one_active
  refine ⟨h.2.2.2.2.1 "research" "cv.pdf" (by decide), h.2.2.2.2.2.1 "home" "cv.pdf" (by decide),
    (h.2.2.2.1 "research" "research").mpr rfl⟩

/-- C3: a profile with a non-empty `bio_lines` list of n lines and no
`bio` renders the sidebar bio as a div of exactly n `bio-line` spans
and no paragraph-style bio; conversely a profile with a non-empty
`bio` string and no `bio_lines` renders exactly one paragraph-style
bio and no spans.  The counting conjuncts hold for the full sidebar
markup, under the hypothesis that the profile and link strings are
clean (contain no markup opener `<`). -/
theorem claim_C3_bio_lines_vs_bio_paragraph :
    (∀ (p : Profile) (ls : List String), p.bio_lines = some ls → ls ≠ [] →
      bio_html p = cat ["<div class=\"author__bio\">", cat (ls.map bioLineSpan), "</div>"] ∧
      (ls.map bioLineSpan).length = ls.length) ∧
    (∀ (p : Profile) (b : String), p.bio_lines = none → p.bio = some b → b ≠ "" →
      bio_html p = cat [paraOpenStr, b, "</p>"]) ∧
    (∀ (sb : SidebarDoc) (p : Profile) (nm : String) (ls : List String),
      sb.profile = some p → p.name = some nm →
      p.bio_lines = some ls → ls ≠ [] →
      CleanProfile p = true → ((sb.sidebar_links.getD []).all CleanLink) = true →
      get_sidebar_html sb = Except.ok (sidebarPage sb p nm) ∧
      strCount spanOpenStr (sidebarPage sb p nm) = ls.length ∧
      strCount paraOpenStr (sidebarPage sb p nm) = 0) ∧
    (∀ (sb : SidebarDoc) (p : Profile) (nm : String) (b : String),
      sb.profile = some p → p.name = some nm →
      p.bio_lines = none → p.bio = some b → b ≠ "" →
      CleanProfile p = true → ((sb.sidebar_links.getD []).all CleanLink) = true →
      get_sidebar_html sb = Except.ok (sidebarPage sb p nm) ∧
      strCount paraOpenStr (sidebarPage sb p nm) = 1 ∧
      strCount spanOpenStr (sidebarPage sb p nm) = 0) := by
  have hbio_div : ∀ (p : Profile) (ls : List String), p.bio_lines = some ls → ls ≠ [] →
      bio_html p = cat ["<div class=\"author__bio\">", cat (ls.map bioLineSpan), "</div>"] := by
    intro p ls hl hne
    unfold bio_html
    rw [if_pos]
    · rw [hl]
      rfl
    · rw [hl]
      simpa [truthyList] using hne
  have hbio_para : ∀ (p : Profile) (b : String), p.bio_lines = none → p.bio = some b → b ≠ "" →
      bio_html p = cat [paraOpenStr, b, "</p>"] := by
    intro p b hl hb hne
    unfold bio_html
    rw [if_neg, if_pos]
    · rw [hb]
      rfl
    · rw [hb]
      simpa [truthyStr] using hne
    · rw [hl]
      simp [truthyList]
  have hcleanParts : ∀ p : Profile, CleanProfile p = true →
      CleanStr (p.image.getD "") = true ∧ CleanStr (p.name.getD "") = true ∧
      ((p.bio_lines.getD []).all CleanStr) = true ∧ CleanStr (p.bio.getD "") = true := by
    intro p h
    rw [CleanProfile, Bool.and_eq_true, Bool.and_eq_true, Bool.and_eq_true] at h
    exact ⟨h.1.1.1, h.1.1.2, h.1.2, h.2⟩
  have hlinks : ∀ (pat : List Char) (pt : List Char), pat = '<' :: pt →
      safeB pat "<li><a href=\"".data = true →
      safeB pat "\" target=\"_blank\" rel=\"noopener\"><i class=\"".data = true →
      safeB pat "\" aria-hidden=\"true\"></i> ".data = true →
      safeB pat "</a></li>".data = true →
      safeB pat "<li><i class=\"".data = true →
      safeB pat "</li>".data = true →
      safeB pat "\n          ".data = true →
      ∀ links : List SideLink, (links.all CleanLink) = true →
      NoHit pat (generate_sidebar_links links).data := by
    intro pat pt hp s1 s2 s3 s4 s5 s6 ssep links hall
    unfold generate_sidebar_links
    apply noHit_pyJoin (noHit_of_safeB ssep)
    intro x hx
    rcases List.mem_map.mp hx with ⟨l, hl, rfl⟩
    exact noHit_sidebarLinkItem hp s1 s2 s3 s4 s5 s6 (List.all_eq_true.mp hall l hl)
  refine ⟨fun p ls hl hne => ⟨hbio_div p ls hl hne, List.length_map _ _⟩, hbio_para, ?_, ?_⟩
  · intro sb p nm ls hp hn hl hne hcp hcl
    obtain ⟨himg, hnm, hlines, _⟩ := hcleanParts p hcp
    rw [hn, Option.getD_some] at hnm
    have hlines' : ∀ line ∈ ls, NoHit ['<'] line.data := by
      rw [hl, Option.getD_some] at hlines
      intro line hline
      exact noHit_of_safeB (List.all_eq_true.mp hlines line hline)
    have hdata : (sidebarPage sb p nm).data
        = (cat shL1).data ++ ((profileImageHtml p nm).data ++ ((cat shL2).data ++ (nm.data
          ++ ((cat shL3).data ++ ("<div class=\"author__bio\">".data
          ++ ((cat (ls.map bioLineSpan)).data ++ ("</div>".data ++ ((cat shL4).data
          ++ ((generate_sidebar_links (sb.sidebar_links.getD [])).data ++ (cat shL5).data))))))))) := by
      rw [sidebarPage, hbio_div p ls hl hne]
      simp [cat, shL1, shL2, shL3, shL4, shL5, String.data_append,
        show ("" : String).data = [] from rfl, List.append_assoc]
    refine ⟨get_sidebar_html_ok hp hn, ?_, ?_⟩
    · show countOcc spanOpenStr.data (sidebarPage sb p nm).data = ls.length
      rw [hdata]
      rw [countOcc_eq_append_of_noHit (noHit_of_safeB (by decide))]
      rw [countOcc_eq_append_of_noHit
        (noHit_profileImageHtml spanOpen_shape (by decide) (by decide) (by decide) (by decide) himg hnm)]
      rw [countOcc_eq_append_of_noHit (noHit_of_safeB (by decide))]
      rw [countOcc_eq_append_of_noHit (noHit_of_cleanStr spanOpen_shape hnm)]
      rw [countOcc_eq_append_of_noHit (noHit_of_safeB (by decide))]
      rw [countOcc_eq_append_of_noHit (noHit_of_safeB (by decide))]
      rw [countOcc_spans_append hlines']
      rw [countOcc_eq_append_of_noHit (noHit_of_safeB (by decide))]
      rw [countOcc_eq_append_of_noHit (noHit_of_safeB (by decide))]
      rw [countOcc_eq_append_of_noHit
        (hlinks spanOpenStr.data _ spanOpen_shape (by decide) (by decide) (by decide) (by decide)
          (by decide) (by decide) (by decide) _ hcl)]
      rw [countOcc_eq_zero_of_noHit (noHit_of_safeB (by decide))]
      omega
    · show countOcc paraOpenStr.data (sidebarPage sb p nm).data = 0
      rw [hdata]
      rw [countOcc_eq_append_of_noHit (noHit_of_safeB (by decide))]
      rw [countOcc_eq_append_of_noHit
        (noHit_profileImageHtml paraOpen_shape (by decide) (by decide) (by decide) (by decide) himg hnm)]
      rw [countOcc_eq_append_of_noHit (noHit_of_safeB (by decide))]
      rw [countOcc_eq_append_of_noHit (noHit_of_cleanStr paraOpen_shape hnm)]
      rw [countOcc_eq_append_of_noHit (noHit_of_safeB (by decide))]
      rw [countOcc_eq_append_of_noHit (noHit_of_safeB (by decide))]
      rw [countOcc_eq_append_of_noHit (noHit_para_spans hlines')]
      rw [countOcc_eq_append_of_noHit (noHit_of_safeB (by decide))]
      rw [countOcc_eq_append_of_noHit (noHit_of_safeB (by decide))]
      rw [countOcc_eq_append_of_noHit
        (hlinks paraOpenStr.data _ paraOpen_shape (by decide) (by decide) (by decide) (by decide)
          (by decide) (by decide) (by decide) _ hcl)]
      rw [countOcc_eq_zero_of_noHit (noHit_of_safeB (by decide))]
  · intro sb p nm b hp hn hl hb hne hcp hcl
    obtain ⟨himg, hnm, _, hbc⟩ := hcleanParts p hcp
    rw [hn, Option.getD_some] at hnm
    rw [hb, Option.getD_some] at hbc
    have hdata : (sidebarPage sb p nm).data
        = (cat shL1).data ++ ((profileImageHtml p nm).data ++ ((cat shL2).data ++ (nm.data
          ++ ((cat shL3).data ++ (paraOpenStr.data ++ (b.data ++ ("</p>".data ++ ((cat shL4).data
          ++ ((generate_sidebar_links (sb.sidebar_links.getD [])).data ++ (cat shL5).data))))))))) := by
      rw [sidebarPage, hbio_para p b hl hb hne]
      simp [cat, shL1, shL2, shL3, shL4, shL5, paraOpenStr, String.data_append,
        show ("" : String).data = [] from rfl, List.append_assoc]
    refine ⟨get_sidebar_html_ok hp hn, ?_, ?_⟩
    · show countOcc paraOpenStr.data (sidebarPage sb p nm).data = 1
      rw [hdata]
      rw [countOcc_eq_append_of_noHit (noHit_of_safeB (by decide))]
      rw [countOcc_eq_append_of_noHit
        (noHit_profileImageHtml paraOpen_shape (by decide) (by decide) (by decide) (by decide) himg hnm)]
      rw [countOcc_eq_append_of_noHit (noHit_of_safeB (by decide))]
      rw [countOcc_eq_append_of_noHit (noHit_of_cleanStr paraOpen_shape hnm)]
      rw [countOcc_eq_append_of_noHit (noHit_of_safeB (by decide))]
      rw [countOcc_self_append paraOpen_shape (noHit_of_safeB (by decide))]
      rw [countOcc_eq_append_of_noHit (noHit_of_cleanStr paraOpen_shape hbc)]
      rw [countOcc_eq_append_of_noHit (noHit_of_safeB (by decide))]
      rw [countOcc_eq_append_of_noHit (noHit_of_safeB (by decide))]
      rw [countOcc_eq_append_of_noHit
        (hlinks paraOpenStr.data _ paraOpen_shape (by decide) (by decide) (by decide) (by decide)
          (by decide) (by decide) (by decide) _ hcl)]
      rw [countOcc_eq_zero_of_noHit (noHit_of_safeB (by decide))]
    · show countOcc spanOpenStr.data (sidebarPage sb p nm).data = 0
      rw [hdata]
      rw [countOcc_eq_append_of_noHit (noHit_of_safeB (by decide))]
      rw [countOcc_eq_append_of_noHit
        (noHit_profileImageHtml spanOpen_shape (by decide) (by decide) (by decide) (by decide) himg hnm)]
      rw [countOcc_eq_append_of_noHit (noHit_of_safeB (by decide))]
      rw [countOcc_eq_append_of_noHit (noHit_of_cleanStr spanOpen_shape hnm)]
      rw [countOcc_eq_append_of_noHit (noHit_of_safeB (by decide))]
      rw [countOcc_eq_append_of_noHit (noHit_of_safeB (by decide))]
      rw [countOcc_eq_append_of_noHit (noHit_of_cleanStr spanOpen_shape hbc)]
      rw [countOcc_eq_append_of_noHit (noHit_of_safeB (by decide))]
      rw [countOcc_eq_append_of_noHit (noHit_of_safeB (by decide))]
      rw [countOcc_eq_append_of_noHit
        (hlinks spanOpenStr.data _ spanOpen_shape (by decide) (by decide) (by decide) (by decide)
          (by decide) (by decide) (by decide) _ hcl)]
      rw [countOcc_eq_zero_of_noHit (noHit_of_safeB (by decide))]

/-- Witness for C3 at the concrete two-line and paragraph profiles of
the example sidebar. -/
theorem claim_C3_witness :
    (get_sidebar_html exSidebar = Except.ok (sidebarPage exSidebar exProfileLines "Jane Doe") ∧
     strCount spanOpenStr (sidebarPage exSidebar exProfileLines "Jane Doe") = 2 ∧
     strCount paraOpenStr (sidebarPage exSidebar exProfileLines "Jane Doe") = 0) ∧
    (get_sidebar_html { exSidebar with profile := some exProfileBio }
        = Except.ok (sidebarPage { exSidebar with profile := some exProfileBio } exProfileBio "Jane Doe") ∧
     strCount paraOpenStr (sidebarPage { exSidebar with profile := some exProfileBio } exProfileBio "Jane Doe") = 1 ∧
     strCount spanOpenStr (sidebarPage { exSidebar with profile := some exProfileBio } exProfileBio "Jane Doe") = 0) := by
  have h := claim_C3_bio_lines_vs_bio_paragraph
  exact ⟨h.2.2.1 exSidebar exProfileLines "Jane Doe" ["A", "B"] rfl rfl rfl (by decide)
      (by decide) (by decide),
    h.2.2.2 { exSidebar with profile := some exProfileBio } exProfileBio "Jane Doe" "Short bio."
      rfl rfl rfl rfl (by decide) (by decide) (by decide)⟩

/- ============================================================
   Claims C4 and C5.
   ============================================================ -/

/-- C4: a paper dictionary with no `image` key, rendered with
thumbnails enabled (`show_image = true`, the Python default), yields a
fragment whose `<img>` src slot is exactly the placeholder path
`assets/img/pub_placeholder.png`; in particular the fragment contains
that path. -/
theorem claim_C4_missing_paper_image_gets_placeholder :
    ∀ (paper : Paper) (t v lh : String), paper.image = none →
      paper.title = some t → paper.venue = some v →
      generate_paper_links (paper.links.getD []) = Except.ok lh →
      generate_paper_html paper true
          = Except.ok (paperImgPage t (paper.authors.getD "") v lh placeholderPath) ∧
      Contains placeholderPath (paperImgPage t (paper.authors.getD "") v lh placeholderPath) := by
  intro paper t v lh himg ht hv hl
  constructor
  · simp only [generate_paper_html, himg, ht, hv, hl, req, Bind.bind, Except.bind, if_pos,
      paperImgPage, placeholderPath, Option.getD_none]
  · refine ⟨(cat piL1).data,
      (cat (piL2 ++ [t] ++ piL3 ++ [t] ++ piL4 ++ [paper.authors.getD ""] ++ piL5 ++ [v]
        ++ piL6 ++ [lh] ++ piL7)).data, ?_⟩
    simp [paperImgPage, placeholderPath, cat, piL1, piL2, piL3, piL4, piL5, piL6, piL7,
      String.data_append, show ("" : String).data = [] from rfl, List.append_assoc]

/-- Witness for C4 at a concrete paper with no image. -/
theorem claim_C4_witness :
    generate_paper_html exPaperNoImage true
        = Except.ok (paperImgPage "A Paper" "" "A Venue" "" placeholderPath) ∧
    Contains placeholderPath (paperImgPage "A Paper" "" "A Venue" "" placeholderPath) :=
  claim_C4_missing_paper_image_gets_placeholder exPaperNoImage "A Paper" "A Venue" "" rfl rfl rfl rfl

/-- C5: an affiliation whose `logo_icon` ends in `.svg` renders a logo
div with a background-image style reference to exactly that path, and
the full affiliation fragment contains that reference; an affiliation
whose `logo_icon` is a non-image value (e.g. `fa-university`) renders
an `<i>` icon glyph whose class includes the value, with no
background-image reference in the logo block. -/
theorem claim_C5_affiliation_logo_svg_vs_icon :
    (∀ (aff : Affiliation) (path inst role : String),
      aff.logo_icon = some path → pyEndsWith path ".svg" = true →
      aff.institution = some inst → aff.role = some role →
      affiliationLogoHtml path = affLogoBgHtml path ∧
      affiliationItem aff
        = Except.ok (affItemPage (affLogoBgHtml path) inst role
            (pyJoin "<br>" (aff.department.getD []))) ∧
      Contains (bgUrlPat path)
        (affItemPage (affLogoBgHtml path) inst role (pyJoin "<br>" (aff.department.getD [])))) ∧
    (∀ path : String, isImagePath path = false →
      affiliationLogoHtml path
        = cat ["<div class=\"affiliation-logo\"><i class=\"fas ", path, "\"></i></div>"]) ∧
    affiliationLogoHtml "fa-university"
      = "<div class=\"affiliation-logo\"><i class=\"fas fa-university\"></i></div>" ∧
    strCount "background-image" (affiliationLogoHtml "fa-university") = 0 := by
  have hsvg : ∀ path : String, pyEndsWith path ".svg" = true → isImagePath path = true := by
    intro path h
    simp [isImagePath, h]
  refine ⟨?_, ?_, by decide, by decide⟩
  · intro aff path inst role hli hsv hinst hrole
    have hbg : affiliationLogoHtml path = affLogoBgHtml path := by
      unfold affiliationLogoHtml affLogoBgHtml
      rw [if_pos (hsvg path hsv)]
    refine ⟨hbg, ?_, ?_⟩
    · simp only [affiliationItem, hli, hinst, hrole, req, Bind.bind, Except.bind,
        Option.getD_some]
      rw [hbg]
      rfl
    · refine ⟨"<div class=\"affiliation-item\">\n          <div class=\"affiliation-logo\" style=\"".data,
        "\"></div>".data ++ ("\n          <div class=\"affiliation-info\">\n            <h3>".data
          ++ (inst.data ++ ("</h3>\n            <p class=\"role\">".data ++ (role.data
          ++ ("</p>\n            <p class=\"department\">".data
          ++ ((pyJoin "<br>" (aff.department.getD [])).data
          ++ "</p>\n          </div>\n        </div>".data)))))), ?_⟩
      have hsplit1 : ("<div class=\"affiliation-logo\" style=\"background-image: url(\x27" : String).data
          = ("<div class=\"affiliation-logo\" style=\"" : String).data
            ++ ("background-image: url(\x27" : String).data := by decide
      simp [affItemPage, affLogoBgHtml, bgUrlPat, cat, String.data_append, hsplit1,
        show ("" : String).data = [] from rfl, List.append_assoc]
  · intro path h
    unfold affiliationLogoHtml
    rw [if_neg (by simp [h])]

/-- Witness for C5 at the concrete `.svg` and `fa-university`
affiliations. -/
theorem claim_C5_witness :
    affiliationLogoHtml "logos/univ.svg" = affLogoBgHtml "logos/univ.svg" ∧
    affiliationItem exAffSvg
      = Except.ok (affItemPage (affLogoBgHtml "logos/univ.svg") "U" "Prof" (pyJoin "<br>" [])) ∧
    affiliationLogoHtml "fa-university"
      = cat ["<div class=\"affiliation-logo\"><i class=\"fas ", "fa-university", "\"></i></div>"] := by
  have h := claim_C5_affiliation_logo_svg_vs_icon
  have h1 := h.1 exAffSvg "logos/univ.svg" "U" "Prof" rfl (by decide) rfl rfl
  exact ⟨h1.1, h1.2.1, h.2.1 "fa-university" (by decide)⟩

/- ============================================================
   Claim C6.
   ============================================================ -/

/-- C6: rendering a publications content document whose
`conference_abstracts` key is absent or maps to `[]` yields a page that
never mentions the `Selected Conference Abstracts` heading (provided no
occurrence of the heading can start inside any of the independently
generated fragments); with a non-empty list the page embeds the
section-divider block, which contains the heading, followed by the
rendered abstracts; the abstracts are rendered by the same
`generate_year_section` template with `show_image = False`, whose
no-thumbnail fragment adds no `<img>` markup of its own. -/
theorem claim_C6_conference_abstracts_presence
    (c : ContentPubs) (sb : SidebarDoc) (intro : Intro)
    (ls : List LinkRef) (pubs : List YearGroup)
    (hd nb sh it idesc il ph fh : String)
    (hhd : head_htmlPubs c sb = Except.ok hd)
    (hi : c.intro = some intro) (hls : intro.links = some ls)
    (hil : generate_intro_links ls = Except.ok il)
    (hps : c.publications = some pubs)
    (hph : generate_publications_html pubs = Except.ok ph)
    (hnb : get_nav_brand sb = Except.ok nb)
    (hsh : get_sidebar_html sb = Except.ok sh)
    (hit : intro.title = some it) (hidesc : intro.description = some idesc)
    (hfh : get_footer_html sb = Except.ok fh)
    (n1 : NoHit headingStr.data hd.data) (n2 : NoHit headingStr.data nb.data)
    (n3 : NoHit headingStr.data sh.data) (n4 : NoHit headingStr.data it.data)
    (n5 : NoHit headingStr.data idesc.data) (n6 : NoHit headingStr.data il.data)
    (n7 : NoHit headingStr.data ph.data) (n8 : NoHit headingStr.data fh.data) :
    (c.conference_abstracts.getD [] = [] →
      build_htmlPubs c sb = Except.ok (pubsPage hd nb sh it idesc il ph "" fh) ∧
      strCount headingStr (pubsPage hd nb sh it idesc il ph "" fh) = 0) ∧
    (∀ (l : List YearGroup) (inner : String),
      c.conference_abstracts = some l → l.isEmpty = false →
      generate_conference_abstracts_html l = Except.ok inner →
      build_htmlPubs c sb
          = Except.ok (pubsPage hd nb sh it idesc il ph (cat (caL1 ++ [inner])) fh) ∧
      Contains headingStr (pubsPage hd nb sh it idesc il ph (cat (caL1 ++ [inner])) fh)) ∧
    (∀ (yg : YearGroup) (sec : String),
      generate_year_section yg false = Except.ok sec →
      generate_conference_abstracts_html [yg] = Except.ok sec) ∧
    (∀ (pp : Paper) (pt pv plh : String),
      pp.title = some pt → pp.venue = some pv →
      generate_paper_links (pp.links.getD []) = Except.ok plh →
      generate_paper_html pp false
          = Except.ok (paperNoImgPage pt (pp.authors.getD "") pv plh) ∧
      (NoHit "<img".data pt.data → NoHit "<img".data (pp.authors.getD "").data →
       NoHit "<img".data pv.data → NoHit "<img".data plh.data →
       strCount "<img" (paperNoImgPage pt (pp.authors.getD "") pv plh) = 0)) := by
  have hnav : NoHit headingStr.data (get_nav_html "publications" none).data :=
    noHit_of_safeB (by decide)
  have hjs : NoHit headingStr.data get_js_code.data :=
    noHit_cat (noHit_of_safeB_all (by decide))
  refine ⟨?_, ?_, ?_, ?_⟩
  · intro hempty
    refine ⟨build_htmlPubs_ok hhd hi hls hil hps hph ?_ hnb hsh hit hidesc hfh, ?_⟩
    · rw [hempty]
      exact conferenceAbstractsBlock_nil
    · exact countOcc_eq_zero_of_noHit
        (noHit_pubsPage (by decide) hnav hjs n1 n2 n3 n4 n5 n6 n7 (noHit_nil _) n8)
  · intro l inner hl hlne hinner
    refine ⟨build_htmlPubs_ok hhd hi hls hil hps hph ?_ hnb hsh hit hidesc hfh, ?_⟩
    · rw [hl]
      exact conferenceAbstractsBlock_cons hlne hinner
    · exact contains_cab_in_pubsPage hd nb sh it idesc il ph fh (contains_heading_cab inner)
  · intro yg sec hsec
    exact generate_conference_abstracts_single yg sec hsec
  · intro pp pt pv plh hpt hpv hplh
    constructor
    · simp only [generate_paper_html, hpt, hpv, hplh, req, Bind.bind, Except.bind,
        Bool.false_eq_true, if_false, paperNoImgPage]
    · intro m1 m2 m3 m4
      exact countOcc_eq_zero_of_noHit (noHit_paperNoImgPage (by decide) m1 m2 m3 m4)

/-- Witness for C6: the concrete publications documents with and
without conference abstracts. -/
theorem claim_C6_witness :
    (build_htmlPubs exContentPubs exSidebar
        = Except.ok (pubsPage exHdPubs "Jane Doe" exShSidebar "Publications" "All papers."
            "" "" "" exFhFooter) ∧
      strCount headingStr (pubsPage exHdPubs "Jane Doe" exShSidebar "Publications"
          "All papers." "" "" "" exFhFooter) = 0) ∧
    (build_htmlPubs exContentPubsAbs exSidebar
        = Except.ok (pubsPage exHdPubs "Jane Doe" exShSidebar "Publications" "All papers."
            "" "" (cat (caL1 ++ [exInnerAbs])) exFhFooter) ∧
      Contains headingStr (pubsPage exHdPubs "Jane Doe" exShSidebar "Publications"
          "All papers." "" "" (cat (caL1 ++ [exInnerAbs])) exFhFooter)) ∧
    (generate_paper_html exPaperNoImage false
        = Except.ok (paperNoImgPage "A Paper" "" "A Venue" "") ∧
      strCount "<img" (paperNoImgPage "A Paper" "" "A Venue" "") = 0) := by
  have hcss : NoHit headingStr.data (get_base_css (some exSidebar)).data :=
    noHit_base_css (by decide) (noHit_of_safeB (by decide)) (noHit_of_safeB (by decide))
      (noHit_of_safeB (by decide)) (noHit_of_safeB (by decide)) (noHit_of_safeB (by decide))
      (noHit_of_safeB (by decide)) (noHit_of_safeB (by decide)) (noHit_of_safeB (by decide))
  have hcssF : NoHit "</style>".data (get_base_css (some exSidebar)).data :=
    noHit_base_css (by decide) (noHit_of_safeB (by decide)) (noHit_of_safeB (by decide))
      (noHit_of_safeB (by decide)) (noHit_of_safeB (by decide)) (noHit_of_safeB (by decide))
      (noHit_of_safeB (by decide)) (noHit_of_safeB (by decide)) (noHit_of_safeB (by decide))
  have hF : NoHit "</style>".data (headFront "Publications" "Papers" (some exSidebar)).data :=
    noHit_headFront (by decide) (by decide) (noHit_of_safeB (by decide))
      (noHit_of_safeB (by decide)) hcssF
  have hhd : NoHit headingStr.data exHdPubs.data := by
    unfold exHdPubs replacedHead
    exact noHit_str_append
      (noHit_headFront (by decide) (by decide) (noHit_of_safeB (by decide))
        (noHit_of_safeB (by decide)) hcss)
      (noHit_str_append (noHit_of_safeB (by decide))
        (noHit_str_append
          (noHit_str_append (noHit_cat (noHit_of_safeB_all (by decide)))
            (noHit_of_safeB (by decide)))
          (noHit_of_safeB (by decide))))
  have hsh : NoHit headingStr.data exShSidebar.data := by
    unfold exShSidebar
    exact noHit_sidebarPage (by decide) (noHit_of_safeB (by decide))
      (noHit_of_safeB (by decide)) (noHit_of_safeB (by decide)) (noHit_of_safeB (by decide))
  have hfh : NoHit headingStr.data exFhFooter.data := noHit_of_safeB (by decide)
  have h1 := claim_C6_conference_abstracts_presence exContentPubs exSidebar
    { title := some "Publications", description := some "All papers.", links := some [] }
    [] [] exHdPubs "Jane Doe" exShSidebar "Publications" "All papers." "" "" exFhFooter
    (head_htmlPubs_ok rfl rfl rfl hF) rfl rfl rfl rfl rfl rfl
    (get_sidebar_html_ok rfl rfl) rfl rfl rfl
    hhd (noHit_of_safeB (by decide)) hsh (noHit_of_safeB (by decide))
    (noHit_of_safeB (by decide)) (noHit_nil _) (noHit_nil _) hfh
  have h2 := claim_C6_conference_abstracts_presence exContentPubsAbs exSidebar
    { title := some "Publications", description := some "All papers.", links := some [] }
    [] [] exHdPubs "Jane Doe" exShSidebar "Publications" "All papers." "" "" exFhFooter
    (head_htmlPubs_ok rfl rfl rfl hF) rfl rfl rfl rfl rfl rfl
    (get_sidebar_html_ok rfl rfl) rfl rfl rfl
    hhd (noHit_of_safeB (by decide)) hsh (noHit_of_safeB (by decide))
    (noHit_of_safeB (by decide)) (noHit_nil _) (noHit_nil _) hfh
  have hsec : generate_year_section exYearGroup false = Except.ok exInnerAbs := rfl
  have h3 := h2.2.1 [exYearGroup] exInnerAbs rfl rfl
    (generate_conference_abstracts_single exYearGroup exInnerAbs hsec)
  have h4 := h1.2.2.2 exPaperNoImage "A Paper" "A Venue" "" rfl rfl rfl
  exact ⟨h1.1 rfl, h3,
    h4.1, h4.2 (noHit_of_safeB (by decide)) (noHit_nil _) (noHit_of_safeB (by decide))
      (noHit_nil _)⟩

/- ============================================================
   Claim C1 (corrected).
   ============================================================ -/

/-- C1 (amended): the publications and teaching builds pass the sidebar
configuration to the head generator, so their emitted heads contain the
CSS variable block with the light-mode and dark-mode accent and link
colours resolved from the sidebar theme (each falling back to its fixed
default when absent); the biography and research builds do NOT pass the
sidebar, so their heads always contain the fixed default colour runs
regardless of the sidebar theme. -/
theorem claim_C1_theme_colors_in_heads
    (t d : String) (sb : SidebarDoc)
    (cP : ContentPubs) (cT : ContentTeaching) (cI : ContentIndex) (cR : ContentResearch)
    (m : PageMeta)
    (hmP : cP.meta = some m) (hmT : cT.meta = some m)
    (hmI : cI.meta = some m) (hmR : cR.meta = some m)
    (ht : m.title = some t) (hdm : m.description = some d)
    (hFs : NoHit "</style>".data (headFront t d (some sb)).data)
    (hFn : NoHit "</style>".data (headFront t d none).data) :
    (head_htmlPubs cP sb = Except.ok (replacedHead t d (some sb) get_publications_css) ∧
     Contains (lightRun (some sb)) (replacedHead t d (some sb) get_publications_css) ∧
     Contains (darkRun (some sb)) (replacedHead t d (some sb) get_publications_css)) ∧
    (head_htmlTeaching cT sb = Except.ok (replacedHead t d (some sb) get_teaching_css) ∧
     Contains (lightRun (some sb)) (replacedHead t d (some sb) get_teaching_css) ∧
     Contains (darkRun (some sb)) (replacedHead t d (some sb) get_teaching_css)) ∧
    (head_htmlIndex cI = Except.ok (get_base_head_html t d get_index_css none) ∧
     Contains (lightRun none) (get_base_head_html t d get_index_css none) ∧
     Contains (darkRun none) (get_base_head_html t d get_index_css none)) ∧
    (head_htmlResearch cR = Except.ok (replacedHead t d none get_research_css) ∧
     Contains (lightRun none) (replacedHead t d none get_research_css) ∧
     Contains (darkRun none) (replacedHead t d none get_research_css)) ∧
    ((∀ a, (themeLight (some sb)).accent_color = some a → accent_light (some sb) = a) ∧
     ((themeLight (some sb)).accent_color = none → accent_light (some sb) = "#0D9488") ∧
     (∀ a, (themeDark (some sb)).accent_color = some a → accent_dark (some sb) = a) ∧
     ((themeDark (some sb)).accent_color = none → accent_dark (some sb) = "#2DD4BF")) ∧
    lightRun none
      = "--accent-color: #0D9488;\n      --accent-hover: #0F766E;\n      --action-link-color: #0066cc;\n      --action-link-hover: #004499;" ∧
    darkRun none
      = "--accent-color: #2DD4BF;\n      --accent-hover: #5EEAD4;\n      --action-link-color: #60A5FA;\n      --action-link-hover: #93C5FD;" := by
  refine ⟨⟨head_htmlPubs_ok hmP ht hdm hFs, contains_lightRun_replacedHead t d _ (some sb),
      contains_darkRun_replacedHead t d _ (some sb)⟩,
    ⟨head_htmlTeaching_ok hmT ht hdm hFs, contains_lightRun_replacedHead t d _ (some sb),
      contains_darkRun_replacedHead t d _ (some sb)⟩,
    ⟨head_htmlIndex_ok hmI ht hdm, contains_lightRun_baseHead t d _ none,
      contains_darkRun_baseHead t d _ none⟩,
    ⟨head_htmlResearch_ok hmR ht hdm hFn, contains_lightRun_replacedHead t d _ none,
      contains_darkRun_replacedHead t d _ none⟩,
    ⟨?_, ?_, ?_, ?_⟩, by decide, by decide⟩
  · intro a ha
    simp [accent_light, ha]
  · intro ha
    simp [accent_light, ha]
  · intro a ha
    simp [accent_dark, ha]
  · intro ha
    simp [accent_dark, ha]

/-- Witness for C1 at the concrete sidebar and contents. -/
theorem claim_C1_witness :
    head_htmlIndex ({ meta := some { title := some "Publications", description := some "Papers" } } : ContentIndex)
        = Except.ok (get_base_head_html "Publications" "Papers" get_index_css none) ∧
    Contains (lightRun none) (get_base_head_html "Publications" "Papers" get_index_css none) ∧
    head_htmlPubs exContentPubs exSidebar
        = Except.ok (replacedHead "Publications" "Papers" (some exSidebar) get_publications_css) ∧
    Contains (lightRun (some exSidebar))
      (replacedHead "Publications" "Papers" (some exSidebar) get_publications_css) := by
  have hcssF : NoHit "</style>".data (get_base_css (some exSidebar)).data :=
    noHit_base_css (by decide) (noHit_of_safeB (by decide)) (noHit_of_safeB (by decide))
      (noHit_of_safeB (by decide)) (noHit_of_safeB (by decide)) (noHit_of_safeB (by decide))
      (noHit_of_safeB (by decide)) (noHit_of_safeB (by decide)) (noHit_of_safeB (by decide))
  have hcssN : NoHit "</style>".data (get_base_css none).data :=
    noHit_base_css (by decide) (noHit_of_safeB (by decide)) (noHit_of_safeB (by decide))
      (noHit_of_safeB (by decide)) (noHit_of_safeB (by decide)) (noHit_of_safeB (by decide))
      (noHit_of_safeB (by decide)) (noHit_of_safeB (by decide)) (noHit_of_safeB (by decide))
  have h := claim_C1_theme_colors_in_heads "Publications" "Papers" exSidebar
    exContentPubs
    { meta := some { title := some "Publications", description := some "Papers" } }
    { meta := some { title := some "Publications", description := some "Papers" } }
    { meta := some { title := some "Publications", description := some "Papers" } }
    { title := some "Publications", description := some "Papers" }
    rfl rfl rfl rfl rfl rfl
    (noHit_headFront (by decide) (by decide) (noHit_of_safeB (by decide))
      (noHit_of_safeB (by decide)) hcssF)
    (noHit_headFront (by decide) (by decide) (noHit_of_safeB (by decide))
      (noHit_of_safeB (by decide)) hcssN)
  exact ⟨h.2.2.1.1, h.2.2.1.2.1, h.1.1, h.1.2.1⟩

/-- Counterexample to C1 as stated: the sidebar theme declares the
light accent `#123456`, yet the biography build ignores the sidebar
when emitting its head (changing the theme changes nothing), and the
emitted head carries the default colour run but no trace of the
declared colour. -/
theorem claim_C1_counterexample :
    accent_light (some exSidebarTheme) = "#123456" ∧
    build_htmlIndex exContentIndex exSidebarTheme
      = build_htmlIndex exContentIndex exSidebar ∧
    head_htmlIndex exContentIndex = Except.ok exHeadIndex ∧
    Contains (lightRun none) exHeadIndex ∧
    ¬ Contains "--accent-color: #123456" exHeadIndex := by
  have hacc : NoHit ("--accent-color: #123456" : String).data (get_base_css none).data := by
    rw [get_base_css_decomp]
    exact noHit_str_append (noHit_cat (noHit_of_safeB_all (by decide)))
      (noHit_str_append (noHit_of_safeB (by decide))
        (noHit_str_append (noHit_cat (noHit_of_safeB_all (by decide)))
          (noHit_str_append (noHit_of_safeB (by decide))
            (noHit_cat (noHit_of_safeB_all (by decide))))))
  have hhead : NoHit ("--accent-color: #123456" : String).data exHeadIndex.data := by
    unfold exHeadIndex
    rw [get_base_head_decomp]
    exact noHit_str_append (noHit_cat (noHit_of_safeB_all (by decide)))
      (noHit_str_append (noHit_of_safeB (by decide))
        (noHit_str_append (noHit_cat (noHit_of_safeB_all (by decide)))
          (noHit_str_append (noHit_of_safeB (by decide))
            (noHit_str_append (noHit_cat (noHit_of_safeB_all (by decide)))
              (noHit_str_append hacc
                (noHit_str_append (noHit_of_safeB (by decide))
                  (noHit_str_append (noHit_cat (noHit_of_safeB_all (by decide)))
                    (noHit_cat (noHit_of_safeB_all (by decide))))))))))
  refine ⟨rfl, build_htmlIndex_theme_irrel exContentIndex exSidebar
      (some { light := some { accent_color := some "#123456" } }),
    head_htmlIndex_ok rfl rfl rfl, ?_, ?_⟩
  · show Contains (lightRun none) (get_base_head_html "Home" "Bio page" get_index_css none)
    exact contains_lightRun_baseHead "Home" "Bio page" get_index_css none
  · exact not_contains_of_countOcc_zero (by decide) (countOcc_eq_zero_of_noHit hhead)
